import Mathlib

/-!
# scoreHandle: the score adjustment of `cmd/root.go`

A shallow embedding of `adjustScores`, `inverseNormalCDF`, the statistics
(`calculateMean`, `calculateStdDev`, `printStatistics`) and `generateOutputFilename`.

Modelling conventions.

* Go's `float64` is modelled twice. The exact model is arithmetic in a linearly ordered
  field `F` (decimal literals denote the decimal fraction they spell, no rounding, no NaN);
  its definitions are generic in `F`: they run on `ℚ` and are reasoned about on `ℝ`.
  The binary64 model is the type `F64`: a finite value is the rational it denotes, a
  literal and every `+`, `-`, `*`, `/` is the exact result rounded by `rnd` (IEEE 754
  round to nearest, ties to even, 53 bits, subnormals), each operation rounded on its own
  (no fused multiply-add), comparisons are exact. Overflow, signed zeros, infinities and
  NaN are outside it. The definitions with suffix `64` are the same code over `F64`.
  A statement about the exact model says what the formulas compute; a statement about
  `F64` says what the code computes in `float64`.
* `math.Sqrt` and `math.Log` are taken from a `MathFns F` record; the analytic
  statements instantiate it with `Real.sqrt` and `Real.log`.
* `[]*Student` is a list of records: the in-place mutation through the pointers is a
  map over the list and `sort.Slice` is a reordering of it.
* `sort.Slice` is Go library code. It enters through its documented contract
  (`SliceSorter`): the result is a reordering of the slice, ordered by `less`, with no
  promise about ties.
* `printStatistics` returns the four values it prints; a slice index out of range, a
  run-time panic in Go, is the error value `RuntimePanic.indexOutOfRange`.
* `strings.HasSuffix` and `strings.TrimSuffix` are Go library code, written out from their
  documentation on the character sequence of the string.
-/

namespace ScoreHandle

variable {F : Type} [LinearOrderedField F]

/-! ## Data model -/

/-- Record `Student` of `cmd/root.go`, one per roster row. -/
structure Student (F : Type) where
  ID : String
  Name : String
  Gender : String
  ObjectiveScore : F
  SubjectiveScore : F
  TotalDuifenyi : F
  DailyScore : F
  FinalScore : F
deriving DecidableEq, Repr

/-- Functions of Go's `math` package used by `inverseNormalCDF`. -/
structure MathFns (F : Type) where
  Sqrt : F → F
  Log : F → F

/-- Contract of Go's `sort.Slice` with the comparison
`students[i].FinalScore < students[j].FinalScore`: the slice is reordered so that no later
element is less than an earlier one. -/
structure SliceSorter (F : Type) [LinearOrderedField F] where
  sort : List (Student F) → List (Student F)
  perm : ∀ l, (sort l).Perm l
  sorted : ∀ l, (sort l).Pairwise (fun x y => ¬ y.FinalScore < x.FinalScore)

/-! ## `inverseNormalCDF` -/

/-- Coefficient slice `a` of `inverseNormalCDF`. -/
def a : Nat → F
  | 0 => -3.969683028665376e+01
  | 1 => 2.209460984245205e+02
  | 2 => -2.759285104469687e+02
  | 3 => 1.383577518672690e+02
  | 4 => -3.066479806614716e+01
  | 5 => 2.506628277459239e+00
  | _ => 0

/-- Coefficient slice `b` of `inverseNormalCDF`. -/
def b : Nat → F
  | 0 => -5.447609879822406e+01
  | 1 => 1.615858368580409e+02
  | 2 => -1.556989798598866e+02
  | 3 => 6.680131188771972e+01
  | 4 => -1.328068155288572e+01
  | _ => 0

/-- Coefficient slice `c` of `inverseNormalCDF`. -/
def c : Nat → F
  | 0 => -7.784894002430293e-03
  | 1 => -3.223964580411365e-01
  | 2 => -2.400758277161838e+00
  | 3 => -2.549732539343734e+00
  | 4 => 4.374664141464968e+00
  | 5 => 2.938163982698783e+00
  | _ => 0

/-- Coefficient slice `d` of `inverseNormalCDF`. -/
def d : Nat → F
  | 0 => 7.784695709041462e-03
  | 1 => 3.224671290700398e-01
  | 2 => 2.445134137142996e+00
  | 3 => 3.754408661907416e+00
  | _ => 0

/-- Threshold `pLow` of `inverseNormalCDF`. -/
def pLow : F := 0.02425

/-- Threshold `pHigh := 1 - pLow` of `inverseNormalCDF`. -/
def pHigh : F := 1 - pLow

/-- Function `inverseNormalCDF` of `cmd/root.go` (lines 177-220). -/
def inverseNormalCDF (m : MathFns F) (p : F) : F :=
  if p ≤ 0 then -10
  else if p ≥ 1 then 10
  else if p < pLow then
    let q := m.Sqrt (-2 * m.Log p)
    (((((c 0 * q + c 1) * q + c 2) * q + c 3) * q + c 4) * q + c 5) /
      ((((d 0 * q + d 1) * q + d 2) * q + d 3) * q + 1)
  else if p ≤ pHigh then
    let q := p - 0.5
    let r := q * q
    (((((a 0 * r + a 1) * r + a 2) * r + a 3) * r + a 4) * r + a 5) * q /
      (((((b 0 * r + b 1) * r + b 2) * r + b 3) * r + b 4) * r + 1)
  else
    let q := m.Sqrt (-2 * m.Log (1 - p))
    (-(((((c 0 * q + c 1) * q + c 2) * q + c 3) * q + c 4) * q + c 5)) /
      ((((d 0 * q + d 1) * q + d 2) * q + d 3) * q + 1)

/-- Numerator of the two tail branches of `inverseNormalCDF`, as a function of `q`. -/
def tailNum (q : F) : F :=
  ((((c 0 * q + c 1) * q + c 2) * q + c 3) * q + c 4) * q + c 5

/-- Denominator of the two tail branches of `inverseNormalCDF`, as a function of `q`. -/
def tailDen (q : F) : F :=
  (((d 0 * q + d 1) * q + d 2) * q + d 3) * q + 1

/-- First factor of the numerator of the central branch of `inverseNormalCDF`, as a
function of `r`. -/
def centralNum (r : F) : F :=
  ((((a 0 * r + a 1) * r + a 2) * r + a 3) * r + a 4) * r + a 5

/-- Denominator of the central branch of `inverseNormalCDF`, as a function of `r`. -/
def centralDen (r : F) : F :=
  ((((b 0 * r + b 1) * r + b 2) * r + b 3) * r + b 4) * r + 1

/-- Value of the central branch of `inverseNormalCDF` as a function of `q = p - 0.5`. -/
def centralValue (q : F) : F :=
  centralNum (q * q) * q / centralDen (q * q)

/-! ## `adjustScores` -/

/-- Body of the first loop of `adjustScores` (lines 114-120) for one record. -/
def floorStep (s : Student F) : Student F :=
  if s.FinalScore < 60 then
    let requiredDaily := (60 - s.TotalDuifenyi * 0.4) / 0.6
    if requiredDaily > s.DailyScore then
      { s with
        DailyScore := requiredDaily
        FinalScore := s.TotalDuifenyi * 0.4 + requiredDaily * 0.6 }
    else s
  else s

/-- First loop of `adjustScores` (lines 113-121). -/
def passingFloor (students : List (Student F)) : List (Student F) :=
  students.map floorStep

/-- Value of `targetScore` after the two range checks (lines 135-147), for the record at
index `i` of a slice of length `n`. -/
def targetScore (m : MathFns F) (i n : Nat) : F :=
  let targetMean : F := 75.0
  let targetStdDev : F := 8.0
  let percentile : F := ((i + 1 : Nat) : F) / ((n + 1 : Nat) : F)
  let zScore := inverseNormalCDF m percentile
  let targetScore := targetMean + zScore * targetStdDev
  let targetScore := if targetScore < 60 then 60 else targetScore
  let targetScore := if targetScore > 100 then 100 else targetScore
  targetScore

/-- Body of the second loop of `adjustScores` (lines 134-156) for the record at index `i`
of a slice of length `n`. -/
def reshapeStep (m : MathFns F) (i n : Nat) (s : Student F) : Student F :=
  let targetScore := targetScore m i n
  if targetScore > s.FinalScore then
    let requiredDaily := (targetScore - s.TotalDuifenyi * 0.4) / 0.6
    if requiredDaily > s.DailyScore ∧ requiredDaily ≤ 100 then
      { s with
        DailyScore := requiredDaily
        FinalScore := s.TotalDuifenyi * 0.4 + requiredDaily * 0.6 }
    else s
  else s

/-- Second loop of `adjustScores` (lines 133-157) from index `i` on, over a slice of
length `n`. -/
def reshapeFrom (m : MathFns F) (n : Nat) : Nat → List (Student F) → List (Student F)
  | _, [] => []
  | i, s :: rest => reshapeStep m i n s :: reshapeFrom m n (i + 1) rest

/-- Function `adjustScores` of `cmd/root.go` (lines 111-158); the result is the slice as
the caller sees it afterwards. -/
def adjustScores (srt : SliceSorter F) (m : MathFns F) (students : List (Student F)) :
    List (Student F) :=
  let students := srt.sort (passingFloor students)
  reshapeFrom m students.length 0 students

/-- Expression of `readExcel` (line 104) that derives `FinalScore`; a record is
consistent when its `FinalScore` has that value. -/
def Consistent (s : Student F) : Prop :=
  s.FinalScore = s.TotalDuifenyi * 0.4 + s.DailyScore * 0.6

instance (s : Student F) : Decidable (Consistent s) := by
  unfold Consistent; infer_instance

/-- Relation between a record `s` and the same record `s'` after an adjustment that lowers
nothing: the fields that identify the record are the same and neither `FinalScore` nor
`DailyScore` is smaller than before. -/
def NotLowered (s s' : Student F) : Prop :=
  s'.ID = s.ID ∧ s'.Name = s.Name ∧ s'.Gender = s.Gender ∧
    s'.TotalDuifenyi = s.TotalDuifenyi ∧
    s.FinalScore ≤ s'.FinalScore ∧ s.DailyScore ≤ s'.DailyScore

/-! ## `adjustScores` with the quantile call made explicit -/

/-- Value of `targetScore` (lines 135-147) when the call `inverseNormalCDF(percentile)` of
line 138 is answered by `z`. -/
def targetScoreWith (z : F → F) (i n : Nat) : F :=
  let targetMean : F := 75.0
  let targetStdDev : F := 8.0
  let percentile : F := ((i + 1 : Nat) : F) / ((n + 1 : Nat) : F)
  let zScore := z percentile
  let targetScore := targetMean + zScore * targetStdDev
  let targetScore := if targetScore < 60 then 60 else targetScore
  let targetScore := if targetScore > 100 then 100 else targetScore
  targetScore

/-- Body of the second loop of `adjustScores` (lines 134-156) when the call of
`inverseNormalCDF` is answered by `z`. -/
def reshapeStepWith (z : F → F) (i n : Nat) (s : Student F) : Student F :=
  let targetScore := targetScoreWith z i n
  if targetScore > s.FinalScore then
    let requiredDaily := (targetScore - s.TotalDuifenyi * 0.4) / 0.6
    if requiredDaily > s.DailyScore ∧ requiredDaily ≤ 100 then
      { s with
        DailyScore := requiredDaily
        FinalScore := s.TotalDuifenyi * 0.4 + requiredDaily * 0.6 }
    else s
  else s

/-- Second loop of `adjustScores` (lines 133-157) from index `i` on, when the call of
`inverseNormalCDF` is answered by `z`. -/
def reshapeFromWith (z : F → F) (n : Nat) : Nat → List (Student F) → List (Student F)
  | _, [] => []
  | i, s :: rest => reshapeStepWith z i n s :: reshapeFromWith z n (i + 1) rest

/-- Function `adjustScores` (lines 111-158) when every call of `inverseNormalCDF` is
answered by `z`: with `z = inverseNormalCDF` it is `adjustScores`. -/
def adjustScoresWith (srt : SliceSorter F) (z : F → F) (students : List (Student F)) :
    List (Student F) :=
  let students := srt.sort (passingFloor students)
  reshapeFromWith z students.length 0 students

/-! ## Statistics -/

/-- Function `calculateMean` of `cmd/root.go` (lines 160-166). -/
def calculateMean (students : List (Student F)) : F :=
  let sum := students.foldl (fun sum s => sum + s.FinalScore) 0
  sum / (students.length : F)

/-- Function `calculateStdDev` of `cmd/root.go` (lines 168-175). -/
def calculateStdDev (m : MathFns F) (students : List (Student F)) (mean : F) : F :=
  let sumSquares := students.foldl
    (fun sumSquares s =>
      let diff := s.FinalScore - mean
      sumSquares + diff * diff) 0
  m.Sqrt (sumSquares / (students.length : F))

/-- Run-time failure of a Go slice index expression. -/
inductive RuntimePanic where
  | indexOutOfRange
deriving DecidableEq, Repr

/-- The four numbers `printStatistics` prints, in the order and under the labels it prints
them: 平均分 (mean), 标准差 (standard deviation), 最低分 (lowest score), 最高分 (highest
score). -/
structure Statistics (F : Type) where
  mean : F
  stdDev : F
  lowest : F
  highest : F
deriving DecidableEq, Repr

/-- Function `printStatistics` of `cmd/root.go` (lines 258-267): the values it prints, or
the run-time failure of `students[0]` / `students[len(students)-1]`. -/
def printStatistics (m : MathFns F) (students : List (Student F)) :
    Except RuntimePanic (Statistics F) :=
  let mean := calculateMean students
  let stdDev := calculateStdDev m students mean
  match students[0]?, students[students.length - 1]? with
  | some first, some last => Except.ok ⟨mean, stdDev, first.FinalScore, last.FinalScore⟩
  | _, _ => Except.error RuntimePanic.indexOutOfRange

/-! ## Output file name -/

/-- Go's `strings.HasSuffix`: `s` ends with `suffix`. -/
def HasSuffix (s suffix : String) : Prop :=
  suffix.data <:+ s.data

instance (s suffix : String) : Decidable (HasSuffix s suffix) := by
  unfold HasSuffix; infer_instance

/-- Go's `strings.TrimSuffix`: `s` without the trailing `suffix`, or `s` itself when it
does not end with `suffix`. -/
def TrimSuffix (s suffix : String) : String :=
  if HasSuffix s suffix then ⟨s.data.take (s.data.length - suffix.data.length)⟩ else s

/-- Function `generateOutputFilename` of `cmd/root.go` (lines 222-229). -/
def generateOutputFilename (inputName : String) : String :=
  let ext := if HasSuffix inputName ".xlsx" then ".xlsx" else ".xls"
  let baseName := TrimSuffix inputName ext
  baseName ++ "_adjusted" ++ ext

/-! ## binary64 arithmetic -/

/-- Round to the nearest integer, ties to the even one. -/
def roundHalfEven (y : ℚ) : ℤ :=
  let f := ⌊y⌋
  let r := y - f
  if r < 1 / 2 then f
  else if 1 / 2 < r then f + 1
  else if f % 2 = 0 then f else f + 1

/-- IEEE 754 binary64 rounding of a rational, round to nearest, ties to even: 53
significant bits, least exponent `2^-1074` (subnormals included). Overflow to infinity
above the largest finite value is not modelled. -/
def rnd (x : ℚ) : ℚ :=
  if x = 0 then 0
  else
    let e := max (Int.log 2 |x|) (-1022)
    let u : ℚ := 2 ^ (e - 52)
    roundHalfEven (x / u) * u

/-- Go's `float64`, finite values only: a value is the rational it denotes (signed zeros,
infinities and NaN are not modelled), and every arithmetic operation is the exact
operation followed by `rnd`. -/
structure F64 where
  val : ℚ
deriving DecidableEq, Repr

/-- Conversion `float64(n)` of an integer. -/
def F64.ofNat (n : Nat) : F64 := ⟨rnd n⟩

instance (n : Nat) : OfNat F64 n := ⟨⟨rnd n⟩⟩

instance : OfScientific F64 := ⟨fun m s e => ⟨rnd (OfScientific.ofScientific m s e)⟩⟩

instance : Add F64 := ⟨fun x y => ⟨rnd (x.val + y.val)⟩⟩

instance : Sub F64 := ⟨fun x y => ⟨rnd (x.val - y.val)⟩⟩

instance : Mul F64 := ⟨fun x y => ⟨rnd (x.val * y.val)⟩⟩

instance : Div F64 := ⟨fun x y => ⟨rnd (x.val / y.val)⟩⟩

instance : Neg F64 := ⟨fun x => ⟨-x.val⟩⟩

instance : LT F64 := ⟨fun x y => x.val < y.val⟩

instance : LE F64 := ⟨fun x y => x.val ≤ y.val⟩

instance (x y : F64) : Decidable (x < y) := inferInstanceAs (Decidable (x.val < y.val))

instance (x y : F64) : Decidable (x ≤ y) := inferInstanceAs (Decidable (x.val ≤ y.val))

/-! ## The same code in binary64 -/

/-- Coefficient slice `a` of `inverseNormalCDF`, in binary64. -/
def a64 : Nat → F64
  | 0 => -3.969683028665376e+01
  | 1 => 2.209460984245205e+02
  | 2 => -2.759285104469687e+02
  | 3 => 1.383577518672690e+02
  | 4 => -3.066479806614716e+01
  | 5 => 2.506628277459239e+00
  | _ => 0

/-- Coefficient slice `b` of `inverseNormalCDF`, in binary64. -/
def b64 : Nat → F64
  | 0 => -5.447609879822406e+01
  | 1 => 1.615858368580409e+02
  | 2 => -1.556989798598866e+02
  | 3 => 6.680131188771972e+01
  | 4 => -1.328068155288572e+01
  | _ => 0

/-- Coefficient slice `c` of `inverseNormalCDF`, in binary64. -/
def c64 : Nat → F64
  | 0 => -7.784894002430293e-03
  | 1 => -3.223964580411365e-01
  | 2 => -2.400758277161838e+00
  | 3 => -2.549732539343734e+00
  | 4 => 4.374664141464968e+00
  | 5 => 2.938163982698783e+00
  | _ => 0

/-- Coefficient slice `d` of `inverseNormalCDF`, in binary64. -/
def d64 : Nat → F64
  | 0 => 7.784695709041462e-03
  | 1 => 3.224671290700398e-01
  | 2 => 2.445134137142996e+00
  | 3 => 3.754408661907416e+00
  | _ => 0

/-- Threshold `pLow` of `inverseNormalCDF`, in binary64. -/
def pLow64 : F64 := 0.02425

/-- Threshold `pHigh := 1 - pLow` of `inverseNormalCDF`, in binary64. -/
def pHigh64 : F64 := 1 - pLow64

/-- Function `inverseNormalCDF` of `cmd/root.go` (lines 177-220), in binary64. -/
def inverseNormalCDF64 (m : MathFns F64) (p : F64) : F64 :=
  if p ≤ 0 then -10
  else if p ≥ 1 then 10
  else if p < pLow64 then
    let q := m.Sqrt (-2 * m.Log p)
    (((((c64 0 * q + c64 1) * q + c64 2) * q + c64 3) * q + c64 4) * q + c64 5) /
      ((((d64 0 * q + d64 1) * q + d64 2) * q + d64 3) * q + 1)
  else if p ≤ pHigh64 then
    let q := p - 0.5
    let r := q * q
    (((((a64 0 * r + a64 1) * r + a64 2) * r + a64 3) * r + a64 4) * r + a64 5) * q /
      (((((b64 0 * r + b64 1) * r + b64 2) * r + b64 3) * r + b64 4) * r + 1)
  else
    let q := m.Sqrt (-2 * m.Log (1 - p))
    (-(((((c64 0 * q + c64 1) * q + c64 2) * q + c64 3) * q + c64 4) * q + c64 5)) /
      ((((d64 0 * q + d64 1) * q + d64 2) * q + d64 3) * q + 1)

/-- Body of the first loop of `adjustScores` (lines 114-120), in binary64. -/
def floorStep64 (s : Student F64) : Student F64 :=
  if s.FinalScore < 60 then
    let requiredDaily := (60 - s.TotalDuifenyi * 0.4) / 0.6
    if requiredDaily > s.DailyScore then
      { s with
        DailyScore := requiredDaily
        FinalScore := s.TotalDuifenyi * 0.4 + requiredDaily * 0.6 }
    else s
  else s

/-- First loop of `adjustScores` (lines 113-121), in binary64. -/
def passingFloor64 (students : List (Student F64)) : List (Student F64) :=
  students.map floorStep64

/-- Value of `targetScore` after the two range checks (lines 135-147), in binary64. -/
def targetScore64 (m : MathFns F64) (i n : Nat) : F64 :=
  let targetMean : F64 := 75.0
  let targetStdDev : F64 := 8.0
  let percentile : F64 := F64.ofNat (i + 1) / F64.ofNat (n + 1)
  let zScore := inverseNormalCDF64 m percentile
  let targetScore := targetMean + zScore * targetStdDev
  let targetScore := if targetScore < 60 then 60 else targetScore
  let targetScore := if targetScore > 100 then 100 else targetScore
  targetScore

/-- Body of the second loop of `adjustScores` (lines 134-156), in binary64. -/
def reshapeStep64 (m : MathFns F64) (i n : Nat) (s : Student F64) : Student F64 :=
  let targetScore := targetScore64 m i n
  if targetScore > s.FinalScore then
    let requiredDaily := (targetScore - s.TotalDuifenyi * 0.4) / 0.6
    if requiredDaily > s.DailyScore ∧ requiredDaily ≤ 100 then
      { s with
        DailyScore := requiredDaily
        FinalScore := s.TotalDuifenyi * 0.4 + requiredDaily * 0.6 }
    else s
  else s

/-- Second loop of `adjustScores` (lines 133-157) from index `i` on, in binary64. -/
def reshapeFrom64 (m : MathFns F64) (n : Nat) :
    Nat → List (Student F64) → List (Student F64)
  | _, [] => []
  | i, s :: rest => reshapeStep64 m i n s :: reshapeFrom64 m n (i + 1) rest

/-- Contract of Go's `sort.Slice` on a slice of binary64 records, as `SliceSorter`. -/
structure SliceSorter64 where
  sort : List (Student F64) → List (Student F64)
  perm : ∀ l, (sort l).Perm l
  sorted : ∀ l, (sort l).Pairwise (fun x y => ¬ y.FinalScore < x.FinalScore)

/-- Function `adjustScores` of `cmd/root.go` (lines 111-158), in binary64. -/
def adjustScores64 (srt : SliceSorter64) (m : MathFns F64) (students : List (Student F64)) :
    List (Student F64) :=
  let students := srt.sort (passingFloor64 students)
  reshapeFrom64 m students.length 0 students

/-! ## `adjustScores` in binary64 with the quantile call made explicit -/

/-- Value of `targetScore` (lines 135-147) in binary64 when the call
`inverseNormalCDF(percentile)` of line 138 is answered by `z`. -/
def targetScoreWith64 (z : F64 → F64) (i n : Nat) : F64 :=
  let targetMean : F64 := 75.0
  let targetStdDev : F64 := 8.0
  let percentile : F64 := F64.ofNat (i + 1) / F64.ofNat (n + 1)
  let zScore := z percentile
  let targetScore := targetMean + zScore * targetStdDev
  let targetScore := if targetScore < 60 then 60 else targetScore
  let targetScore := if targetScore > 100 then 100 else targetScore
  targetScore

/-- Body of the second loop of `adjustScores` (lines 134-156) in binary64 when the call of
`inverseNormalCDF` is answered by `z`. -/
def reshapeStepWith64 (z : F64 → F64) (i n : Nat) (s : Student F64) : Student F64 :=
  let targetScore := targetScoreWith64 z i n
  if targetScore > s.FinalScore then
    let requiredDaily := (targetScore - s.TotalDuifenyi * 0.4) / 0.6
    if requiredDaily > s.DailyScore ∧ requiredDaily ≤ 100 then
      { s with
        DailyScore := requiredDaily
        FinalScore := s.TotalDuifenyi * 0.4 + requiredDaily * 0.6 }
    else s
  else s

/-- Second loop of `adjustScores` (lines 133-157) in binary64 from index `i` on, when the
call of `inverseNormalCDF` is answered by `z`. -/
def reshapeFromWith64 (z : F64 → F64) (n : Nat) :
    Nat → List (Student F64) → List (Student F64)
  | _, [] => []
  | i, s :: rest => reshapeStepWith64 z i n s :: reshapeFromWith64 z n (i + 1) rest

/-- Function `adjustScores` (lines 111-158) in binary64 when every call of
`inverseNormalCDF` is answered by `z`: with `z = inverseNormalCDF64` it is
`adjustScores64`. -/
def adjustScoresWith64 (srt : SliceSorter64) (z : F64 → F64) (students : List (Student F64)) :
    List (Student F64) :=
  let students := srt.sort (passingFloor64 students)
  reshapeFromWith64 z students.length 0 students

/-! ## Concrete instances used to run the definitions -/

/-- Insertion sort on `FinalScore`, one implementation of the `sort.Slice` contract. -/
def insertionSorter : SliceSorter F where
  sort l := l.insertionSort (fun x y => x.FinalScore ≤ y.FinalScore)
  perm l := List.perm_insertionSort _ l
  sorted l := by
    haveI : IsTotal (Student F) (fun x y => x.FinalScore ≤ y.FinalScore) :=
      ⟨fun x y => le_total x.FinalScore y.FinalScore⟩
    haveI : IsTrans (Student F) (fun x y => x.FinalScore ≤ y.FinalScore) :=
      ⟨fun _ _ _ hxy hyz => le_trans hxy hyz⟩
    have h := List.sorted_insertionSort (fun x y : Student F => x.FinalScore ≤ y.FinalScore) l
    exact h.imp (fun hxy => not_lt.mpr hxy)

/-- A consistent roster of three records with final scores 61, 64 and 68, used to run
`adjustScores` twice and `printStatistics` after it. -/
def sampleRoster : List (Student F) :=
  [⟨"1", "A", "F", 0, 0, 100, 35, 61⟩, ⟨"2", "B", "M", 0, 0, 100, 40, 64⟩,
    ⟨"3", "C", "F", 0, 0, 20, 100, 68⟩]

/-- Insertion sort on `FinalScore`, one implementation of the `sort.Slice` contract on
binary64 records. -/
def insertionSorter64 : SliceSorter64 where
  sort l := l.insertionSort (fun x y => x.FinalScore ≤ y.FinalScore)
  perm l := List.perm_insertionSort _ l
  sorted l := by
    haveI : IsTotal (Student F64) (fun x y => x.FinalScore ≤ y.FinalScore) :=
      ⟨fun x y => le_total x.FinalScore.val y.FinalScore.val⟩
    haveI : IsTrans (Student F64) (fun x y => x.FinalScore ≤ y.FinalScore) :=
      ⟨fun x y z (hxy : x.FinalScore.val ≤ y.FinalScore.val)
        (hyz : y.FinalScore.val ≤ z.FinalScore.val) => le_trans hxy hyz⟩
    have h := List.sorted_insertionSort
      (fun x y : Student F64 => x.FinalScore ≤ y.FinalScore) l
    refine List.Pairwise.imp ?_ h
    intro x y hxy
    exact not_lt.mpr (show x.FinalScore.val ≤ y.FinalScore.val from hxy)

/-! ## `inverseNormalCDF`: sentinels, centre, symmetry -/

/-- C8. Sentinel clamping: `inverseNormalCDF p = -10` for every `p ≤ 0` and
`inverseNormalCDF p = 10` for every `p ≥ 1`; the function is total. -/
theorem inverseNormalCDF_sentinel (m : MathFns F) (p : F) :
    (p ≤ 0 → inverseNormalCDF m p = -10) ∧ (p ≥ 1 → inverseNormalCDF m p = 10) := by
  constructor
  · intro hp
    simp [inverseNormalCDF, hp]
  · intro hp
    have h0 : ¬ p ≤ 0 := not_le.mpr (lt_of_lt_of_le one_pos hp)
    have h1 : (1 : F) ≤ p := hp
    simp [inverseNormalCDF, h0, h1]

theorem inverseNormalCDF_sentinel_witness :
    inverseNormalCDF (⟨Real.sqrt, Real.log⟩ : MathFns ℝ) (-3) = -10 ∧
      inverseNormalCDF (⟨Real.sqrt, Real.log⟩ : MathFns ℝ) 1 = 10 :=
  ⟨(inverseNormalCDF_sentinel _ (-3)).1 (by norm_num),
    (inverseNormalCDF_sentinel _ 1).2 (by norm_num)⟩

theorem half_in_central :
    ¬ ((0.5 : F) ≤ 0) ∧ ¬ ((0.5 : F) ≥ 1) ∧ ¬ ((0.5 : F) < pLow) ∧ (0.5 : F) ≤ pHigh := by
  refine ⟨by norm_num, by norm_num, ?_, ?_⟩
  · unfold pLow; norm_num
  · unfold pHigh pLow; norm_num

theorem inverseNormalCDF_half_eq (m : MathFns F) : inverseNormalCDF m 0.5 = 0 := by
  obtain ⟨h0, h1, h2, h3⟩ := half_in_central (F := F)
  unfold inverseNormalCDF
  rw [if_neg h0, if_neg h1, if_neg h2, if_pos h3]
  simp

/-- C7. At `p = 0.5` the central branch is taken with `q = 0` and
`inverseNormalCDF 0.5 = 0`. -/
theorem inverseNormalCDF_half (m : MathFns F) :
    ¬ ((0.5 : F) ≤ 0) ∧ ¬ ((0.5 : F) ≥ 1) ∧ ¬ ((0.5 : F) < pLow) ∧ (0.5 : F) ≤ pHigh ∧
      (0.5 : F) - 0.5 = 0 ∧ inverseNormalCDF m 0.5 = 0 :=
  ⟨half_in_central.1, half_in_central.2.1, half_in_central.2.2.1, half_in_central.2.2.2,
    sub_self _, inverseNormalCDF_half_eq m⟩

theorem inverseNormalCDF_neg_one_sub (m : MathFns F) (p : F) (h0 : 0 < p) (h1 : p < 1) :
    inverseNormalCDF m p = -inverseNormalCDF m (1 - p) := by
  have e0 : ¬ p ≤ 0 := not_le.mpr h0
  have e1 : ¬ p ≥ 1 := not_le.mpr h1
  have e0' : ¬ 1 - p ≤ 0 := by intro h; linarith
  have e1' : ¬ 1 - p ≥ 1 := by intro h; linarith
  unfold inverseNormalCDF
  rw [if_neg e0, if_neg e1, if_neg e0', if_neg e1']
  by_cases hl : p < pLow
  · have hl' : ¬ 1 - p < pLow := by
      intro h; unfold pLow at hl h; norm_num at hl h; linarith
    have hh' : ¬ 1 - p ≤ pHigh := by
      intro h; unfold pHigh at h; linarith
    rw [if_pos hl, if_neg hl', if_neg hh']
    simp only [sub_sub_cancel]
    ring
  · by_cases hh : p ≤ pHigh
    · have hl' : ¬ 1 - p < pLow := by
        intro h; unfold pHigh at hh; linarith
      have hh' : 1 - p ≤ pHigh := by
        unfold pHigh; linarith [not_lt.mp hl]
      rw [if_neg hl, if_pos hh, if_neg hl', if_pos hh']
      have hq : (1 - p - 0.5 : F) = -(p - 0.5) := by norm_num; ring
      simp only [hq, neg_mul_neg]
      ring
    · have hl' : 1 - p < pLow := by
        unfold pHigh at hh; linarith [not_le.mp hh]
      rw [if_neg hl, if_neg hh, if_pos hl']
      ring

/-! ## `adjustScores`: the two loops, record by record -/

theorem six_tenths_cancel (x t : F) : t * 0.4 + (x - t * 0.4) / 0.6 * 0.6 = x := by
  have h : (0.6 : F) ≠ 0 := by norm_num
  rw [div_mul_cancel₀ _ h]
  ring

/-- The first loop's body as one case split: the record is rewritten exactly when its
`FinalScore` is below 60 and `requiredDaily` exceeds its `DailyScore`, and then its
recomputed `FinalScore` is 60. -/
theorem floorStep_eq (s : Student F) :
    floorStep s =
      if s.FinalScore < 60 ∧ (60 - s.TotalDuifenyi * 0.4) / 0.6 > s.DailyScore then
        { s with
          DailyScore := (60 - s.TotalDuifenyi * 0.4) / 0.6
          FinalScore := 60 }
      else s := by
  by_cases h1 : s.FinalScore < 60
  · by_cases h2 : (60 - s.TotalDuifenyi * 0.4) / 0.6 > s.DailyScore
    · simp only [floorStep, h1, h2, if_true, and_self, six_tenths_cancel]
    · simp only [floorStep, h1, h2, if_true, if_false, and_false]
  · simp only [floorStep, h1, if_false, false_and]

/-- The second loop's body as one case split: the record is rewritten exactly when the
target exceeds its `FinalScore` and `requiredDaily` exceeds its `DailyScore` without
exceeding 100, and then its recomputed `FinalScore` is the target. -/
theorem reshapeStep_eq (m : MathFns F) (i n : Nat) (s : Student F) :
    reshapeStep m i n s =
      if targetScore m i n > s.FinalScore ∧
          (targetScore m i n - s.TotalDuifenyi * 0.4) / 0.6 > s.DailyScore ∧
          (targetScore m i n - s.TotalDuifenyi * 0.4) / 0.6 ≤ 100 then
        { s with
          DailyScore := (targetScore m i n - s.TotalDuifenyi * 0.4) / 0.6
          FinalScore := targetScore m i n }
      else s := by
  by_cases h1 : targetScore m i n > s.FinalScore
  · by_cases h2 : (targetScore m i n - s.TotalDuifenyi * 0.4) / 0.6 > s.DailyScore ∧
        (targetScore m i n - s.TotalDuifenyi * 0.4) / 0.6 ≤ 100
    · simp only [reshapeStep, h1, h2, if_true, and_self, six_tenths_cancel]
    · simp only [reshapeStep, h1, h2, if_true, if_false, true_and]
  · simp only [reshapeStep, h1, if_false, false_and]

theorem floorStep_frame (s : Student F) :
    (floorStep s).ID = s.ID ∧ (floorStep s).Name = s.Name ∧ (floorStep s).Gender = s.Gender ∧
      (floorStep s).ObjectiveScore = s.ObjectiveScore ∧
      (floorStep s).SubjectiveScore = s.SubjectiveScore ∧
      (floorStep s).TotalDuifenyi = s.TotalDuifenyi := by
  rw [floorStep_eq]
  split_ifs <;> simp

theorem reshapeStep_frame (m : MathFns F) (i n : Nat) (s : Student F) :
    (reshapeStep m i n s).ID = s.ID ∧ (reshapeStep m i n s).Name = s.Name ∧
      (reshapeStep m i n s).Gender = s.Gender ∧
      (reshapeStep m i n s).ObjectiveScore = s.ObjectiveScore ∧
      (reshapeStep m i n s).SubjectiveScore = s.SubjectiveScore ∧
      (reshapeStep m i n s).TotalDuifenyi = s.TotalDuifenyi := by
  rw [reshapeStep_eq]
  split_ifs <;> simp

theorem floorStep_mono (s : Student F) :
    s.FinalScore ≤ (floorStep s).FinalScore ∧ s.DailyScore ≤ (floorStep s).DailyScore := by
  rw [floorStep_eq]
  split_ifs with h
  · exact ⟨le_of_lt h.1, le_of_lt h.2⟩
  · exact ⟨le_refl _, le_refl _⟩

theorem reshapeStep_mono (m : MathFns F) (i n : Nat) (s : Student F) :
    s.FinalScore ≤ (reshapeStep m i n s).FinalScore ∧
      s.DailyScore ≤ (reshapeStep m i n s).DailyScore := by
  rw [reshapeStep_eq]
  split_ifs with h
  · exact ⟨le_of_lt h.1, le_of_lt h.2.1⟩
  · exact ⟨le_refl _, le_refl _⟩

theorem floorStep_consistent (s : Student F) (h : Consistent s) : Consistent (floorStep s) := by
  rw [floorStep_eq]
  split_ifs
  · simp only [Consistent, six_tenths_cancel]
  · exact h

theorem reshapeStep_consistent (m : MathFns F) (i n : Nat) (s : Student F)
    (h : Consistent s) : Consistent (reshapeStep m i n s) := by
  rw [reshapeStep_eq]
  split_ifs
  · simp only [Consistent, six_tenths_cancel]
  · exact h

theorem floorStep_of_lt (s : Student F) (h : Consistent s) (hlt : s.FinalScore < 60) :
    floorStep s =
      { s with
        DailyScore := (60 - s.TotalDuifenyi * 0.4) / 0.6
        FinalScore := 60 } := by
  have hreq : (60 - s.TotalDuifenyi * 0.4) / 0.6 > s.DailyScore := by
    have h6 : (0 : F) < 0.6 := by norm_num
    rw [gt_iff_lt, lt_div_iff₀ h6]
    unfold Consistent at h
    linarith
  rw [floorStep_eq, if_pos ⟨hlt, hreq⟩]

theorem floorStep_floor (s : Student F) (h : Consistent s) : 60 ≤ (floorStep s).FinalScore := by
  by_cases hlt : s.FinalScore < 60
  · rw [floorStep_of_lt s h hlt]
  · have hne : ¬ (s.FinalScore < 60 ∧ (60 - s.TotalDuifenyi * 0.4) / 0.6 > s.DailyScore) :=
      fun hc => hlt hc.1
    rw [floorStep_eq, if_neg hne]
    exact not_lt.mp hlt

/-! ## `adjustScores`: the second loop over the slice -/

theorem length_reshapeFrom (m : MathFns F) (n : Nat) (l : List (Student F)) (i : Nat) :
    (reshapeFrom m n i l).length = l.length := by
  induction l generalizing i with
  | nil => rfl
  | cons s rest ih => simp [reshapeFrom, ih]

theorem getElem?_reshapeFrom (m : MathFns F) (n : Nat) (l : List (Student F)) (i j : Nat) :
    (reshapeFrom m n i l)[j]? = (l[j]?).map (reshapeStep m (i + j) n) := by
  induction l generalizing i j with
  | nil => simp [reshapeFrom]
  | cons s rest ih =>
    cases j with
    | zero => simp [reshapeFrom]
    | succ j =>
      simp only [reshapeFrom, List.getElem?_cons_succ, ih]
      rw [show i + 1 + j = i + (j + 1) by omega]

theorem mem_reshapeFrom (m : MathFns F) (n : Nat) (l : List (Student F)) (i : Nat)
    (s' : Student F) (h : s' ∈ reshapeFrom m n i l) :
    ∃ s ∈ l, ∃ j, s' = reshapeStep m j n s := by
  induction l generalizing i with
  | nil => simp [reshapeFrom] at h
  | cons s rest ih =>
    simp only [reshapeFrom, List.mem_cons] at h
    rcases h with h | h
    · exact ⟨s, List.mem_cons_self _ _, i, h⟩
    · obtain ⟨t, ht, j, hj⟩ := ih (i + 1) h
      exact ⟨t, List.mem_cons_of_mem _ ht, j, hj⟩

theorem forall₂_reshapeFrom (m : MathFns F) (n : Nat) (R : Student F → Student F → Prop)
    (hR : ∀ j s, R s (reshapeStep m j n s)) (l : List (Student F)) (i : Nat) :
    List.Forall₂ R l (reshapeFrom m n i l) := by
  induction l generalizing i with
  | nil => exact List.Forall₂.nil
  | cons s rest ih => exact List.Forall₂.cons (hR i s) (ih (i + 1))

theorem mem_adjustScores (srt : SliceSorter F) (m : MathFns F) (students : List (Student F))
    (s' : Student F) (h : s' ∈ adjustScores srt m students) :
    ∃ s ∈ students, ∃ j, s' = reshapeStep m j (students.length) (floorStep s) := by
  unfold adjustScores at h
  obtain ⟨t, ht, j, hj⟩ := mem_reshapeFrom m _ _ 0 s' h
  have ht' : t ∈ passingFloor students := (srt.perm _).mem_iff.mp ht
  unfold passingFloor at ht'
  obtain ⟨s, hs, rfl⟩ := List.mem_map.mp ht'
  refine ⟨s, hs, j, ?_⟩
  rw [hj, (srt.perm _).length_eq]
  simp [passingFloor]

theorem adjustScores_singleton (srt : SliceSorter F) (m : MathFns F) (s : Student F) :
    adjustScores srt m [s] = [reshapeStep m 0 1 (floorStep s)] := by
  have h : srt.sort [floorStep s] = [floorStep s] := List.perm_singleton.mp (srt.perm _)
  simp [adjustScores, passingFloor, h, reshapeFrom]

theorem targetScore_single (m : MathFns F) : targetScore m 0 1 = 75 := by
  have hp : (((0 + 1 : Nat) : F) / ((1 + 1 : Nat) : F)) = 0.5 := by norm_num
  unfold targetScore
  simp only [hp, inverseNormalCDF_half_eq m]
  norm_num

theorem forall₂_chain {α : Type} {R₁ R₂ R₃ : α → α → Prop}
    (h : ∀ x y z, R₁ x y → R₂ y z → R₃ x z) :
    ∀ {l₁ l₂ l₃ : List α}, List.Forall₂ R₁ l₁ l₂ → List.Forall₂ R₂ l₂ l₃ →
      List.Forall₂ R₃ l₁ l₃
  | _, _, _, List.Forall₂.nil, List.Forall₂.nil => List.Forall₂.nil
  | _, _, _, List.Forall₂.cons h₁ t₁, List.Forall₂.cons h₂ t₂ =>
    List.Forall₂.cons (h _ _ _ h₁ h₂) (forall₂_chain h t₁ t₂)

/-- Every record of the result is a record of the input taken through both loop bodies:
the result pairs off with a reordering of the input. -/
theorem adjustScores_rel (srt : SliceSorter F) (m : MathFns F) (students : List (Student F))
    (R : Student F → Student F → Prop)
    (hR : ∀ s j n, R s (reshapeStep m j n (floorStep s))) :
    ∃ before, before.Perm students ∧ List.Forall₂ R before (adjustScores srt m students) := by
  have h1 : List.Forall₂ (flip fun s t : Student F => t = floorStep s)
      (passingFloor students) students := by
    unfold passingFloor
    induction students with
    | nil => exact List.Forall₂.nil
    | cons s rest ih => exact List.Forall₂.cons rfl ih
  obtain ⟨before, hb, hperm⟩ := List.perm_comp_forall₂ (srt.perm (passingFloor students)) h1
  refine ⟨before, hperm, ?_⟩
  have h2 : List.Forall₂ (fun s t : Student F => t = floorStep s) before
      (srt.sort (passingFloor students)) := hb.flip
  have h3 := forall₂_reshapeFrom m (srt.sort (passingFloor students)).length
    (fun t u => ∃ j n, u = reshapeStep m j n t) (fun j t => ⟨j, _, rfl⟩)
    (srt.sort (passingFloor students)) 0
  refine forall₂_chain ?_ h2 h3
  rintro x y z rfl ⟨j, n, rfl⟩
  exact hR x j n

theorem notLowered_steps (m : MathFns F) (s : Student F) (j n : Nat) :
    NotLowered s (reshapeStep m j n (floorStep s)) := by
  obtain ⟨f1, f2, f3, -, -, f6⟩ := floorStep_frame s
  obtain ⟨r1, r2, r3, -, -, r6⟩ := reshapeStep_frame m j n (floorStep s)
  obtain ⟨hf, hd⟩ := floorStep_mono s
  obtain ⟨hf', hd'⟩ := reshapeStep_mono m j n (floorStep s)
  exact ⟨r1.trans f1, r2.trans f2, r3.trans f3, r6.trans f6, le_trans hf hf', le_trans hd hd'⟩

/-! ## Claims about `adjustScores` -/

/-- C1. `adjustScores` never lowers a score: the result pairs off with a reordering of the
input so that every record keeps its identity and has `FinalScore` and `DailyScore` at
least what they were; the same holds for a second run on the result of the first. -/
theorem adjustScores_never_lowers (srt : SliceSorter F) (m : MathFns F)
    (students : List (Student F)) :
    (∃ before, before.Perm students ∧
        List.Forall₂ NotLowered before (adjustScores srt m students)) ∧
      (∃ mid, mid.Perm (adjustScores srt m students) ∧
        List.Forall₂ NotLowered mid (adjustScores srt m (adjustScores srt m students))) :=
  ⟨adjustScores_rel srt m students NotLowered (notLowered_steps m),
    adjustScores_rel srt m (adjustScores srt m students) NotLowered (notLowered_steps m)⟩

/-- Passing floor in exact arithmetic: on a roster whose records all satisfy
`FinalScore = TotalDuifenyi*0.4 + DailyScore*0.6`, the first loop sets every record with
`FinalScore < 60` to `DailyScore = (60 - TotalDuifenyi*0.4)/0.6` (no cap) and
`FinalScore = 60`, and every record of the result of `adjustScores` has
`FinalScore ≥ 60`. -/
theorem adjustScores_passing_floor (srt : SliceSorter F) (m : MathFns F)
    (students : List (Student F))
    (hc : ∀ s ∈ students, s.FinalScore = s.TotalDuifenyi * 0.4 + s.DailyScore * 0.6) :
    List.Forall₂
        (fun s s' => s.FinalScore < 60 →
          s'.FinalScore = 60 ∧ s'.DailyScore = (60 - s.TotalDuifenyi * 0.4) / 0.6 ∧
            s'.ID = s.ID ∧ s'.TotalDuifenyi = s.TotalDuifenyi)
        students (passingFloor students) ∧
      (∀ s' ∈ passingFloor students, 60 ≤ s'.FinalScore) ∧
      (∀ s' ∈ adjustScores srt m students, 60 ≤ s'.FinalScore) := by
  refine ⟨?_, ?_, ?_⟩
  · unfold passingFloor
    induction students with
    | nil => exact List.Forall₂.nil
    | cons s rest ih =>
      refine List.Forall₂.cons ?_ (ih fun t ht => hc t (List.mem_cons_of_mem _ ht))
      intro hlt
      rw [floorStep_of_lt s (hc s (List.mem_cons_self _ _)) hlt]
      exact ⟨rfl, rfl, rfl, rfl⟩
  · intro s' hs'
    obtain ⟨s, hs, rfl⟩ := List.mem_map.mp hs'
    exact floorStep_floor s (hc s hs)
  · intro s' hs'
    obtain ⟨s, hs, j, rfl⟩ := mem_adjustScores srt m students s' hs'
    exact le_trans (floorStep_floor s (hc s hs)) (reshapeStep_mono m j _ _).1

theorem adjustScores_passing_floor_witness :
    (∀ s ∈ [(⟨"1", "n", "g", 0, 0, 50, 50, 50⟩ : Student ℚ)],
        s.FinalScore = s.TotalDuifenyi * 0.4 + s.DailyScore * 0.6) ∧
      ∀ s' ∈ adjustScores insertionSorter ⟨id, id⟩
          [(⟨"1", "n", "g", 0, 0, 50, 50, 50⟩ : Student ℚ)], 60 ≤ s'.FinalScore :=
  ⟨by simp; norm_num,
    (adjustScores_passing_floor insertionSorter ⟨id, id⟩
      [(⟨"1", "n", "g", 0, 0, 50, 50, 50⟩ : Student ℚ)] (by simp; norm_num)).2.2⟩

/-- C3. Final-formula invariant: if every record of the input satisfies
`FinalScore = TotalDuifenyi*0.4 + DailyScore*0.6`, so does every record of the result of
`adjustScores`. -/
theorem adjustScores_formula_invariant (srt : SliceSorter F) (m : MathFns F)
    (students : List (Student F))
    (hc : ∀ s ∈ students, s.FinalScore = s.TotalDuifenyi * 0.4 + s.DailyScore * 0.6) :
    ∀ s' ∈ adjustScores srt m students,
      s'.FinalScore = s'.TotalDuifenyi * 0.4 + s'.DailyScore * 0.6 := by
  intro s' hs'
  obtain ⟨s, hs, j, rfl⟩ := mem_adjustScores srt m students s' hs'
  exact reshapeStep_consistent m j _ _ (floorStep_consistent s (hc s hs))

theorem adjustScores_formula_invariant_witness :
    (∀ s ∈ [(⟨"1", "n", "g", 0, 0, 90, 40, 60⟩ : Student ℚ), ⟨"2", "k", "g", 0, 0, 10, 10, 10⟩],
        s.FinalScore = s.TotalDuifenyi * 0.4 + s.DailyScore * 0.6) ∧
      ∀ s' ∈ adjustScores insertionSorter ⟨id, id⟩
          [(⟨"1", "n", "g", 0, 0, 90, 40, 60⟩ : Student ℚ), ⟨"2", "k", "g", 0, 0, 10, 10, 10⟩],
        s'.FinalScore = s'.TotalDuifenyi * 0.4 + s'.DailyScore * 0.6 :=
  ⟨by simp; norm_num,
    adjustScores_formula_invariant insertionSorter ⟨id, id⟩
      [(⟨"1", "n", "g", 0, 0, 90, 40, 60⟩ : Student ℚ), ⟨"2", "k", "g", 0, 0, 10, 10, 10⟩]
      (by simp; norm_num)⟩

theorem floorStep_fifty (id name gender : String) (obj subj : F) :
    floorStep (⟨id, name, gender, obj, subj, 50, 50, 50⟩ : Student F) =
      ⟨id, name, gender, obj, subj, 50, 200 / 3, 60⟩ := by
  rw [floorStep_eq]
  norm_num

theorem adjustScores_fifty (srt : SliceSorter F) (m : MathFns F)
    (id name gender : String) (obj subj : F) :
    adjustScores srt m [(⟨id, name, gender, obj, subj, 50, 50, 50⟩ : Student F)] =
      [⟨id, name, gender, obj, subj, 50, 275 / 3, 75⟩] := by
  rw [adjustScores_singleton, floorStep_fifty, reshapeStep_eq, targetScore_single]
  norm_num

/-- C4. End-to-end scenario: on the one-record roster with `TotalDuifenyi = 50`,
`DailyScore = 50`, `FinalScore = 50` the first loop gives `DailyScore = 200/3` and
`FinalScore = 60`; the second loop has percentile `1/2`, z-score `0`, target `75`, and
`adjustScores` returns the one record with `DailyScore = 275/3` and `FinalScore = 75`. -/
theorem adjustScores_end_to_end (srt : SliceSorter F) (m : MathFns F)
    (id name gender : String) (obj subj : F) :
    passingFloor [(⟨id, name, gender, obj, subj, 50, 50, 50⟩ : Student F)] =
        [⟨id, name, gender, obj, subj, 50, 200 / 3, 60⟩] ∧
      ((0 + 1 : Nat) : F) / ((1 + 1 : Nat) : F) = 1 / 2 ∧
      inverseNormalCDF m (1 / 2) = 0 ∧
      targetScore m 0 1 = 75 ∧
      adjustScores srt m [(⟨id, name, gender, obj, subj, 50, 50, 50⟩ : Student F)] =
        [⟨id, name, gender, obj, subj, 50, 275 / 3, 75⟩] := by
  have hz : inverseNormalCDF m (1 / 2) = 0 := by
    have h := inverseNormalCDF_half_eq m
    have e : (0.5 : F) = 1 / 2 := by norm_num
    rwa [e] at h
  refine ⟨?_, by norm_num, hz, targetScore_single m, adjustScores_fifty srt m _ _ _ _ _⟩
  simp only [passingFloor, List.map, floorStep_fifty]

/-- C10. The first loop is not capped at 100: for the record with `TotalDuifenyi = -30`,
`DailyScore = 0` and the consistent `FinalScore = -12 < 60`, `adjustScores` sets
`DailyScore` to `120 > 100` (and `FinalScore` to 60). -/
theorem adjustScores_floor_uncapped (srt : SliceSorter F) (m : MathFns F) :
    ∃ s : Student F,
      s.FinalScore = s.TotalDuifenyi * 0.4 + s.DailyScore * 0.6 ∧ s.FinalScore < 60 ∧
        s.DailyScore ≤ 100 ∧
        ∃ s', adjustScores srt m [s] = [s'] ∧ s'.ID = s.ID ∧ s'.DailyScore = 120 ∧
          s'.DailyScore > 100 := by
  have hfloor : floorStep (⟨"1", "n", "g", 0, 0, -30, 0, -12⟩ : Student F) =
      ⟨"1", "n", "g", 0, 0, -30, 120, 60⟩ := by
    rw [floorStep_eq]
    norm_num
  refine ⟨⟨"1", "n", "g", 0, 0, -30, 0, -12⟩, by norm_num, by norm_num, by norm_num,
    ⟨"1", "n", "g", 0, 0, -30, 120, 60⟩, ?_, rfl, rfl, by norm_num⟩
  rw [adjustScores_singleton, hfloor, reshapeStep_eq, targetScore_single]
  norm_num

/-- The second loop in exact arithmetic: with `s` the record at index `i` of the sorted
slice and `s'` the record at index `i` of the result, if `DailyScore` changed then it grew,
is at most 100, and `FinalScore` is the target
`clamp(75 + 8*inverseNormalCDF((i+1)/(n+1)), 60, 100)`; otherwise the record is as the
first loop left it. The result has as many records as the sorted slice. -/
theorem reshape_capped_exact (srt : SliceSorter F) (m : MathFns F)
    (students : List (Student F)) :
    (adjustScores srt m students).length = (srt.sort (passingFloor students)).length ∧
      ∀ (i : Nat) (s s' : Student F),
        (srt.sort (passingFloor students))[i]? = some s →
        (adjustScores srt m students)[i]? = some s' →
        (s'.DailyScore ≠ s.DailyScore →
          s.DailyScore < s'.DailyScore ∧ s'.DailyScore ≤ 100 ∧
            s'.FinalScore =
              max 60 (min (75 + 8 * inverseNormalCDF m
                (((i : F) + 1) / ((students.length : F) + 1))) 100)) ∧
        (s'.DailyScore = s.DailyScore → s' = s) := by
  refine ⟨length_reshapeFrom _ _ _ _, ?_⟩
  intro i s s' hs hs'
  have hlen : (srt.sort (passingFloor students)).length = students.length := by
    rw [(srt.perm _).length_eq]
    simp [passingFloor]
  unfold adjustScores at hs'
  simp only [getElem?_reshapeFrom, hs, Option.map_some', Option.some.injEq, zero_add, hlen]
    at hs'
  have htarget : targetScore m i students.length =
      max 60 (min (75 + 8 * inverseNormalCDF m
        (((i : F) + 1) / ((students.length : F) + 1))) 100) := by
    unfold targetScore
    simp only [Nat.cast_add, Nat.cast_one]
    generalize inverseNormalCDF m (((i : F) + 1) / ((students.length : F) + 1)) = z
    have e75 : (75.0 : F) = 75 := by norm_num
    have e8 : (8.0 : F) = 8 := by norm_num
    rw [e75, e8, mul_comm z 8]
    by_cases h60 : 75 + 8 * z < 60
    · have h1 : ¬ ((60 : F) > 100) := by norm_num
      rw [if_pos h60, if_neg h1, min_eq_left (by linarith), max_eq_left (le_of_lt h60)]
    · rw [if_neg h60]
      by_cases h100 : 75 + 8 * z > 100
      · rw [if_pos h100, min_eq_right (le_of_lt h100), max_eq_right (by norm_num)]
      · rw [if_neg h100, min_eq_left (not_lt.mp h100), max_eq_right (not_lt.mp h60)]
  rw [reshapeStep_eq] at hs'
  subst hs'
  split_ifs with h
  · refine ⟨fun _ => ⟨h.2.1, h.2.2, htarget⟩, fun he => ?_⟩
    exact absurd he (ne_of_gt h.2.1)
  · exact ⟨fun hne => absurd rfl hne, fun _ => rfl⟩

/-! ## `inverseNormalCDF` on the reals: strict monotonicity -/

theorem inverseNormalCDF_low (m : MathFns F) (p : F) (h0 : 0 < p) (hl : p < pLow) :
    inverseNormalCDF m p = tailNum (m.Sqrt (-2 * m.Log p)) / tailDen (m.Sqrt (-2 * m.Log p)) := by
  have e0 : ¬ p ≤ 0 := not_le.mpr h0
  have e1 : ¬ p ≥ 1 := by
    intro h; unfold pLow at hl; norm_num at hl; linarith
  unfold inverseNormalCDF
  rw [if_neg e0, if_neg e1, if_pos hl]
  rfl

theorem inverseNormalCDF_central (m : MathFns F) (p : F) (hl : pLow ≤ p) (hh : p ≤ pHigh) :
    inverseNormalCDF m p = centralValue (p - 0.5) := by
  have e0 : ¬ p ≤ 0 := by
    intro h; unfold pLow at hl; norm_num at hl; linarith
  have e1 : ¬ p ≥ 1 := by
    intro h; unfold pHigh pLow at hh; norm_num at hh; linarith
  unfold inverseNormalCDF
  rw [if_neg e0, if_neg e1, if_neg (not_lt.mpr hl), if_pos hh]
  rfl

theorem centralValue_neg (q : F) : centralValue (-q) = -centralValue q := by
  unfold centralValue
  rw [neg_mul_neg, mul_neg, neg_div]

theorem tailDen_pos (q : ℝ) (hq : 0 ≤ q) : 0 < tailDen q := by
  simp only [tailDen, d]
  positivity

theorem tail_cross (y t : ℝ) (hy : 0 ≤ y) (ht : 0 < t) :
    0 < tailNum y * tailDen (y + t) - tailNum (y + t) * tailDen y := by
  simp only [tailNum, tailDen, c, d]
  ring_nf
  positivity

/-- The tail quotient decreases strictly in `q` on `q ≥ 0`. -/
theorem tail_strictAnti (y x : ℝ) (hy : 0 ≤ y) (hyx : y < x) :
    tailNum x / tailDen x < tailNum y / tailDen y := by
  have hx : 0 ≤ x := le_trans hy (le_of_lt hyx)
  have h := tail_cross y (x - y) hy (sub_pos.mpr hyx)
  rw [add_sub_cancel] at h
  rw [div_lt_div_iff₀ (tailDen_pos x hx) (tailDen_pos y hy)]
  linarith

theorem centralDen_pos (r : ℝ) (hr : r ≤ 0.47575 * 0.47575) : 0 < centralDen r := by
  obtain ⟨t, ht, rfl⟩ : ∃ t : ℝ, 0 ≤ t ∧ r = 0.47575 * 0.47575 - t :=
    ⟨0.47575 * 0.47575 - r, by linarith, by ring⟩
  simp only [centralDen, b]
  ring_nf
  positivity

theorem centralNum_pos (r : ℝ) (hr : r ≤ 0.47575 * 0.47575) : 0 < centralNum r := by
  obtain ⟨t, ht, rfl⟩ : ∃ t : ℝ, 0 ≤ t ∧ r = 0.47575 * 0.47575 - t :=
    ⟨0.47575 * 0.47575 - r, by linarith, by ring⟩
  simp only [centralNum, a]
  ring_nf
  positivity

theorem central_cross (t u : ℝ) (ht : 0 ≤ t) (hu : 0 < u) :
    0 < centralNum (0.47575 * 0.47575 - t) * centralDen (0.47575 * 0.47575 - t - u) -
      centralNum (0.47575 * 0.47575 - t - u) * centralDen (0.47575 * 0.47575 - t) := by
  simp only [centralNum, centralDen, a, b]
  ring_nf
  positivity

/-- The quotient `centralNum r / centralDen r` increases strictly in `r` up to
`0.47575²`. -/
theorem central_ratio_strictMono (r₁ r₂ : ℝ) (h : r₁ < r₂) (hr : r₂ ≤ 0.47575 * 0.47575) :
    centralNum r₁ / centralDen r₁ < centralNum r₂ / centralDen r₂ := by
  have h1 := central_cross (0.47575 * 0.47575 - r₂) (r₂ - r₁) (by linarith) (by linarith)
  have e2 : (0.47575 * 0.47575 - (0.47575 * 0.47575 - r₂) : ℝ) = r₂ := by ring
  have e1 : (0.47575 * 0.47575 - (0.47575 * 0.47575 - r₂) - (r₂ - r₁) : ℝ) = r₁ := by ring
  rw [e1, e2] at h1
  rw [div_lt_div_iff₀ (centralDen_pos r₁ (by linarith)) (centralDen_pos r₂ hr)]
  linarith

theorem centralValue_eq (q : ℝ) :
    centralValue q = centralNum (q * q) / centralDen (q * q) * q := by
  unfold centralValue
  ring

theorem sq_le_bound (q : ℝ) (h0 : 0 ≤ q) (h1 : q ≤ 0.47575) : q * q ≤ 0.47575 * 0.47575 :=
  mul_le_mul h1 h1 h0 (by norm_num)

theorem centralValue_nonneg (q : ℝ) (h0 : 0 ≤ q) (h1 : q ≤ 0.47575) : 0 ≤ centralValue q := by
  rw [centralValue_eq]
  have hr := sq_le_bound q h0 h1
  exact mul_nonneg (le_of_lt (div_pos (centralNum_pos _ hr) (centralDen_pos _ hr))) h0

theorem centralValue_pos (q : ℝ) (h0 : 0 < q) (h1 : q ≤ 0.47575) : 0 < centralValue q := by
  rw [centralValue_eq]
  have hr := sq_le_bound q (le_of_lt h0) h1
  exact mul_pos (div_pos (centralNum_pos _ hr) (centralDen_pos _ hr)) h0

theorem centralValue_strictMono_nonneg (y x : ℝ) (hy : 0 ≤ y) (hyx : y < x)
    (hx : x ≤ 0.47575) : centralValue y < centralValue x := by
  have hx0 : 0 < x := lt_of_le_of_lt hy hyx
  have hrx := sq_le_bound x (le_of_lt hx0) hx
  have hsq : y * y < x * x := mul_self_lt_mul_self hy hyx
  have hρ := central_ratio_strictMono (y * y) (x * x) hsq hrx
  have hρx : 0 < centralNum (x * x) / centralDen (x * x) :=
    div_pos (centralNum_pos _ hrx) (centralDen_pos _ hrx)
  rw [centralValue_eq, centralValue_eq]
  calc centralNum (y * y) / centralDen (y * y) * y
      ≤ centralNum (x * x) / centralDen (x * x) * y :=
        mul_le_mul_of_nonneg_right (le_of_lt hρ) hy
    _ < centralNum (x * x) / centralDen (x * x) * x :=
        mul_lt_mul_of_pos_left hyx hρx

/-- The central branch increases strictly in `q` on `[-0.47575, 0.47575]`. -/
theorem centralValue_strictMono (y x : ℝ) (hy : -0.47575 ≤ y) (hyx : y < x)
    (hx : x ≤ 0.47575) : centralValue y < centralValue x := by
  by_cases hy0 : 0 ≤ y
  · exact centralValue_strictMono_nonneg y x hy0 hyx hx
  · have hyneg : y < 0 := not_le.mp hy0
    by_cases hx0 : 0 ≤ x
    · have h1 : 0 < centralValue (-y) := centralValue_pos (-y) (by linarith) (by linarith)
      have h2 := centralValue_nonneg x hx0 hx
      rw [centralValue_neg] at h1
      linarith
    · have hxneg : x < 0 := not_le.mp hx0
      have h := centralValue_strictMono_nonneg (-x) (-y) (by linarith) (by linarith)
        (by linarith)
      rw [centralValue_neg, centralValue_neg] at h
      linarith

theorem exp_step : Real.exp (0.929834664 : ℝ) ≤ 2.534090168 := by
  have hx : |(0.929834664 : ℝ)| ≤ 1 := by rw [abs_le]; constructor <;> norm_num
  have h := Real.exp_bound hx (n := 14) (by norm_num)
  have h2 := (abs_le.mp h).2
  simp only [Finset.sum_range_succ, Finset.sum_range_zero, Nat.factorial] at h2
  rw [abs_of_pos (by norm_num : (0 : ℝ) < 0.929834664)] at h2
  norm_num at h2
  linarith

theorem exp_bound_low : Real.exp (3.719338656 : ℝ) ≤ 4000 / 97 := by
  have e : (3.719338656 : ℝ) = ((4 : ℕ) : ℝ) * 0.929834664 := by norm_num
  rw [e, Real.exp_nat_mul]
  calc Real.exp 0.929834664 ^ 4 ≤ (2.534090168 : ℝ) ^ 4 :=
        pow_le_pow_left₀ (Real.exp_pos _).le exp_step 4
    _ ≤ 4000 / 97 := by norm_num

/-- Bound `-ln 0.02425 ≥ 3.719338656`. -/
theorem log_pLow_le : Real.log (pLow : ℝ) ≤ -3.719338656 := by
  have hp : (0 : ℝ) < pLow := by unfold pLow; norm_num
  rw [Real.log_le_iff_le_exp hp, Real.exp_neg]
  have h := exp_bound_low
  have hpos := Real.exp_pos (3.719338656 : ℝ)
  rw [le_inv_comm₀ hp hpos]
  unfold pLow
  norm_num
  linarith

/-- In the low tail `q = sqrt(-2 ln p)` exceeds `2.727393868`. -/
theorem tail_arg_gt (p : ℝ) (h0 : 0 < p) (hl : p < pLow) :
    2.727393868 < Real.sqrt (-2 * Real.log p) := by
  have h1 : Real.log p < Real.log pLow := Real.log_lt_log h0 hl
  have h2 := log_pLow_le
  rw [Real.lt_sqrt (by norm_num)]
  have h3 : (2.727393868 : ℝ) ^ 2 ≤ 2 * 3.719338656 := by norm_num
  linarith

theorem tail_arg_strictAnti (p₁ p₂ : ℝ) (h0 : 0 < p₁) (h12 : p₁ < p₂) (h1 : p₂ < 1) :
    Real.sqrt (-2 * Real.log p₂) < Real.sqrt (-2 * Real.log p₁) := by
  have hlog : Real.log p₁ < Real.log p₂ := Real.log_lt_log h0 h12
  have hneg : Real.log p₂ < 0 := Real.log_neg (lt_trans h0 h12) h1
  exact Real.sqrt_lt_sqrt (by linarith) (by linarith)

theorem boundary_gap :
    tailNum (2.727393868 : ℝ) / tailDen 2.727393868 ≤ centralValue (-0.47575) := by
  simp only [centralValue, tailNum, tailDen, centralNum, centralDen, a, b, c, d]
  norm_num

theorem low_strictMono (p₁ p₂ : ℝ) (h0 : 0 < p₁) (h12 : p₁ < p₂) (hl : p₂ < pLow) :
    inverseNormalCDF ⟨Real.sqrt, Real.log⟩ p₁ < inverseNormalCDF ⟨Real.sqrt, Real.log⟩ p₂ := by
  have h1 : p₂ < 1 := by unfold pLow at hl; norm_num at hl; linarith
  rw [inverseNormalCDF_low _ p₁ h0 (lt_trans h12 hl),
    inverseNormalCDF_low _ p₂ (lt_trans h0 h12) hl]
  exact tail_strictAnti _ _ (Real.sqrt_nonneg _) (tail_arg_strictAnti p₁ p₂ h0 h12 h1)

theorem low_lt_boundary (p : ℝ) (h0 : 0 < p) (hl : p < pLow) :
    inverseNormalCDF ⟨Real.sqrt, Real.log⟩ p < centralValue (-0.47575) := by
  rw [inverseNormalCDF_low _ p h0 hl]
  exact lt_of_lt_of_le (tail_strictAnti _ _ (by norm_num) (tail_arg_gt p h0 hl)) boundary_gap

theorem high_gt_boundary (p : ℝ) (hh : pHigh < p) (h1 : p < 1) :
    centralValue 0.47575 < inverseNormalCDF ⟨Real.sqrt, Real.log⟩ p := by
  have h0 : 0 < p := by unfold pHigh pLow at hh; norm_num at hh; linarith
  have hl : 1 - p < pLow := by unfold pHigh at hh; linarith
  have h := low_lt_boundary (1 - p) (by linarith) hl
  rw [centralValue_neg] at h
  rw [inverseNormalCDF_neg_one_sub _ p h0 h1]
  linarith

theorem central_bounds (p : ℝ) (hl : pLow ≤ p) (hh : p ≤ pHigh) :
    centralValue (-0.47575) ≤ inverseNormalCDF ⟨Real.sqrt, Real.log⟩ p ∧
      inverseNormalCDF ⟨Real.sqrt, Real.log⟩ p ≤ centralValue 0.47575 := by
  have hl' : (-0.47575 : ℝ) ≤ p - 0.5 := by unfold pLow at hl; norm_num at hl ⊢; linarith
  have hh' : p - 0.5 ≤ (0.47575 : ℝ) := by unfold pHigh pLow at hh; norm_num at hh ⊢; linarith
  rw [inverseNormalCDF_central _ p hl hh]
  constructor
  · rcases eq_or_lt_of_le hl' with e | hlt
    · rw [e]
    · exact le_of_lt (centralValue_strictMono _ _ (le_refl _) hlt hh')
  · rcases eq_or_lt_of_le hh' with e | hlt
    · rw [e]
    · exact le_of_lt (centralValue_strictMono _ _ hl' hlt (le_refl _))

/-- C6, amended. In exact real arithmetic, with `math.Sqrt` and `math.Log` the real square
root and natural logarithm, `inverseNormalCDF` is strictly increasing on `0 < p < 1`, also
across the low tail, the central region and the high tail. -/
theorem inverseNormalCDF_strictMono (p₁ p₂ : ℝ) (h0 : 0 < p₁) (h12 : p₁ < p₂) (h1 : p₂ < 1) :
    inverseNormalCDF ⟨Real.sqrt, Real.log⟩ p₁ < inverseNormalCDF ⟨Real.sqrt, Real.log⟩ p₂ := by
  rcases lt_or_le p₁ pLow with hl1 | hl1
  · rcases lt_or_le p₂ pLow with hl2 | hl2
    · exact low_strictMono p₁ p₂ h0 h12 hl2
    · rcases le_or_lt p₂ pHigh with hh2 | hh2
      · exact lt_of_lt_of_le (low_lt_boundary p₁ h0 hl1) (central_bounds p₂ hl2 hh2).1
      · have hmid : centralValue (-0.47575 : ℝ) < centralValue 0.47575 :=
          centralValue_strictMono _ _ (le_refl _) (by norm_num) (le_refl _)
        exact lt_trans (lt_trans (low_lt_boundary p₁ h0 hl1) hmid)
          (high_gt_boundary p₂ hh2 h1)
  · rcases le_or_lt p₁ pHigh with hh1 | hh1
    · rcases le_or_lt p₂ pHigh with hh2 | hh2
      · rw [inverseNormalCDF_central _ p₁ hl1 hh1,
          inverseNormalCDF_central _ p₂ (le_trans hl1 (le_of_lt h12)) hh2]
        refine centralValue_strictMono _ _ ?_ (by linarith) ?_
        · unfold pLow at hl1; norm_num at hl1 ⊢; linarith
        · unfold pHigh pLow at hh2; norm_num at hh2 ⊢; linarith
      · exact lt_of_le_of_lt (central_bounds p₁ hl1 hh1).2 (high_gt_boundary p₂ hh2 h1)
    · have hl1' : 1 - p₁ < pLow := by unfold pHigh at hh1; linarith
      have h := low_strictMono (1 - p₂) (1 - p₁) (by linarith) (by linarith) hl1'
      rw [inverseNormalCDF_neg_one_sub _ p₁ h0 (lt_trans h12 h1),
        inverseNormalCDF_neg_one_sub _ p₂ (lt_trans h0 h12) h1]
      linarith

theorem inverseNormalCDF_strictMono_witness :
    inverseNormalCDF ⟨Real.sqrt, Real.log⟩ (1 / 100 : ℝ) <
      inverseNormalCDF ⟨Real.sqrt, Real.log⟩ (1 / 2 : ℝ) :=
  inverseNormalCDF_strictMono (1 / 100) (1 / 2) (by norm_num) (by norm_num) (by norm_num)

/-! ## Order and frame of the result -/

theorem length_adjustScores (srt : SliceSorter F) (m : MathFns F)
    (students : List (Student F)) : (adjustScores srt m students).length = students.length := by
  unfold adjustScores
  rw [length_reshapeFrom, (srt.perm _).length_eq]
  simp [passingFloor]

theorem getElem?_adjustScores (srt : SliceSorter F) (m : MathFns F)
    (students : List (Student F)) (i : Nat) :
    (adjustScores srt m students)[i]? =
      ((srt.sort (passingFloor students))[i]?).map (reshapeStep m i students.length) := by
  have hlen : (srt.sort (passingFloor students)).length = students.length := by
    rw [(srt.perm _).length_eq]
    simp [passingFloor]
  unfold adjustScores
  simp only [getElem?_reshapeFrom, zero_add, hlen]

theorem sorted_getElem? (srt : SliceSorter F) (l : List (Student F)) (i j : Nat)
    (x y : Student F) (hij : i < j) (hx : (srt.sort l)[i]? = some x)
    (hy : (srt.sort l)[j]? = some y) : x.FinalScore ≤ y.FinalScore := by
  obtain ⟨hi, rfl⟩ := List.getElem?_eq_some.mp hx
  obtain ⟨hj, rfl⟩ := List.getElem?_eq_some.mp hy
  exact not_lt.mp (List.pairwise_iff_getElem.mp (srt.sorted l) i j hi hj hij)

/-- C11. Final roster order: the result of `adjustScores` is, index by index, the slice
sorted after the first loop with the second loop's body applied, and that sorted slice is
ascending in the `FinalScore` the records had after the first loop: for positions `i < j`
the pre-second-loop `FinalScore` at `i` is at most that at `j`. -/
theorem adjustScores_order (srt : SliceSorter F) (m : MathFns F)
    (students : List (Student F)) :
    (srt.sort (passingFloor students)).Perm (passingFloor students) ∧
      (∀ i, (adjustScores srt m students)[i]? =
        ((srt.sort (passingFloor students))[i]?).map (reshapeStep m i students.length)) ∧
      ∀ (i j : Nat) (x y : Student F), i < j →
        (srt.sort (passingFloor students))[i]? = some x →
        (srt.sort (passingFloor students))[j]? = some y →
        x.FinalScore ≤ y.FinalScore :=
  ⟨srt.perm _, getElem?_adjustScores srt m students,
    fun i j x y hij hx hy => sorted_getElem? srt _ i j x y hij hx hy⟩

theorem adjustScores_order_witness :
    (insertionSorter.sort (passingFloor
        [(⟨"1", "n", "g", 0, 0, 90, 80, 84⟩ : Student ℚ), ⟨"2", "k", "g", 0, 0, 70, 60, 64⟩]))[0]? =
        some ⟨"2", "k", "g", 0, 0, 70, 60, 64⟩ ∧
      (insertionSorter.sort (passingFloor
        [(⟨"1", "n", "g", 0, 0, 90, 80, 84⟩ : Student ℚ), ⟨"2", "k", "g", 0, 0, 70, 60, 64⟩]))[1]? =
        some ⟨"1", "n", "g", 0, 0, 90, 80, 84⟩ ∧
      (64 : ℚ) ≤ 84 := by
  have h0 : (insertionSorter.sort (passingFloor
      [(⟨"1", "n", "g", 0, 0, 90, 80, 84⟩ : Student ℚ), ⟨"2", "k", "g", 0, 0, 70, 60, 64⟩]))[0]? =
      some ⟨"2", "k", "g", 0, 0, 70, 60, 64⟩ := by decide
  have h1 : (insertionSorter.sort (passingFloor
      [(⟨"1", "n", "g", 0, 0, 90, 80, 84⟩ : Student ℚ), ⟨"2", "k", "g", 0, 0, 70, 60, 64⟩]))[1]? =
      some ⟨"1", "n", "g", 0, 0, 90, 80, 84⟩ := by decide
  exact ⟨h0, h1,
    (adjustScores_order insertionSorter ⟨id, id⟩
      [(⟨"1", "n", "g", 0, 0, 90, 80, 84⟩ : Student ℚ), ⟨"2", "k", "g", 0, 0, 70, 60, 64⟩]).2.2
      0 1 _ _ (by decide) h0 h1⟩

theorem frame_steps (m : MathFns F) (s : Student F) (j n : Nat) :
    reshapeStep m j n (floorStep s) =
      { s with
        DailyScore := (reshapeStep m j n (floorStep s)).DailyScore
        FinalScore := (reshapeStep m j n (floorStep s)).FinalScore } := by
  obtain ⟨f1, f2, f3, f4, f5, f6⟩ := floorStep_frame s
  obtain ⟨r1, r2, r3, r4, r5, r6⟩ := reshapeStep_frame m j n (floorStep s)
  have e : ∀ u v : Student F, u.ID = v.ID → u.Name = v.Name → u.Gender = v.Gender →
      u.ObjectiveScore = v.ObjectiveScore → u.SubjectiveScore = v.SubjectiveScore →
      u.TotalDuifenyi = v.TotalDuifenyi →
      u = { v with DailyScore := u.DailyScore, FinalScore := u.FinalScore } := by
    intro u v h1 h2 h3 h4 h5 h6
    cases u; cases v
    simp only [Student.mk.injEq] at *
    exact ⟨h1, h2, h3, h4, h5, h6, trivial, trivial⟩
  exact e _ _ (r1.trans f1) (r2.trans f2) (r3.trans f3) (r4.trans f4) (r5.trans f5)
    (r6.trans f6)

/-- C12. Frame: the result of `adjustScores` has the length of the input and pairs off
with a reordering of it so that every record is the input record with at most `DailyScore`
and `FinalScore` replaced; `ID`, `Name`, `Gender`, `ObjectiveScore`, `SubjectiveScore` and
`TotalDuifenyi` are unchanged. -/
theorem adjustScores_frame (srt : SliceSorter F) (m : MathFns F)
    (students : List (Student F)) :
    (adjustScores srt m students).length = students.length ∧
      ∃ before, before.Perm students ∧
        List.Forall₂
          (fun s s' => s' = { s with DailyScore := s'.DailyScore, FinalScore := s'.FinalScore })
          before (adjustScores srt m students) :=
  ⟨length_adjustScores srt m students,
    adjustScores_rel srt m students _ (fun s j n => frame_steps m s j n)⟩

/-! ## Percentiles and value ranges -/

theorem percentile_pos_lt_one (i n : Nat) (h : i < n) :
    (0 : F) < ((i + 1 : Nat) : F) / ((n + 1 : Nat) : F) ∧
      ((i + 1 : Nat) : F) / ((n + 1 : Nat) : F) < 1 := by
  have hn : (0 : F) < ((n + 1 : Nat) : F) := by exact_mod_cast Nat.succ_pos n
  have hi : (0 : F) < ((i + 1 : Nat) : F) := by exact_mod_cast Nat.succ_pos i
  have hin : ((i + 1 : Nat) : F) < ((n + 1 : Nat) : F) := by
    exact_mod_cast Nat.succ_lt_succ h
  exact ⟨div_pos hi hn, (div_lt_one hn).mpr hin⟩

theorem targetScore_bounds (m : MathFns F) (i n : Nat) :
    60 ≤ targetScore m i n ∧ targetScore m i n ≤ 100 := by
  unfold targetScore
  simp only
  generalize inverseNormalCDF m (((i + 1 : Nat) : F) / ((n + 1 : Nat) : F)) = z
  by_cases h60 : 75.0 + z * 8.0 < (60 : F)
  · rw [if_pos h60, if_neg (by norm_num)]
    constructor <;> norm_num
  · rw [if_neg h60]
    by_cases h100 : 75.0 + z * 8.0 > (100 : F)
    · rw [if_pos h100]
      constructor <;> norm_num
    · rw [if_neg h100]
      exact ⟨not_lt.mp h60, not_lt.mp h100⟩

theorem floorStep_range (s : Student F) (ht : 0 ≤ s.TotalDuifenyi ∧ s.TotalDuifenyi ≤ 100)
    (hd : 0 ≤ s.DailyScore ∧ s.DailyScore ≤ 100) (hc : Consistent s) :
    (0 ≤ (floorStep s).DailyScore ∧ (floorStep s).DailyScore ≤ 100) ∧
      (60 ≤ (floorStep s).FinalScore ∧ (floorStep s).FinalScore ≤ 100) := by
  have h6 : (0 : F) < 0.6 := by norm_num
  have hreq : (60 - s.TotalDuifenyi * 0.4) / 0.6 ≤ 100 := by
    rw [div_le_iff₀ h6]
    norm_num
    nlinarith [ht.1]
  rw [floorStep_eq]
  split_ifs with h
  · exact ⟨⟨le_trans hd.1 (le_of_lt h.2), hreq⟩, le_refl _, by norm_num⟩
  · have hge : 60 ≤ s.FinalScore := by
      by_contra hlt
      have hlt' : s.FinalScore < 60 := not_le.mp hlt
      have := floorStep_of_lt s hc hlt'
      rw [floorStep_eq, if_neg h] at this
      have hf := congrArg Student.FinalScore this
      simp only at hf
      linarith
    refine ⟨hd, hge, ?_⟩
    unfold Consistent at hc
    rw [hc]
    norm_num
    nlinarith [ht.2, hd.2]

theorem reshapeStep_range (m : MathFns F) (i n : Nat) (s : Student F)
    (hd : 0 ≤ s.DailyScore ∧ s.DailyScore ≤ 100)
    (hf : 60 ≤ s.FinalScore ∧ s.FinalScore ≤ 100) :
    (0 ≤ (reshapeStep m i n s).DailyScore ∧ (reshapeStep m i n s).DailyScore ≤ 100) ∧
      (60 ≤ (reshapeStep m i n s).FinalScore ∧ (reshapeStep m i n s).FinalScore ≤ 100) := by
  rw [reshapeStep_eq]
  split_ifs with h
  · exact ⟨⟨le_trans hd.1 (le_of_lt h.2.1), h.2.2⟩, (targetScore_bounds m i n).1,
      (targetScore_bounds m i n).2⟩
  · exact ⟨hd, hf⟩

/-- Valid-range preservation in exact arithmetic: if every input record has
`0 ≤ TotalDuifenyi ≤ 100`, `0 ≤ DailyScore ≤ 100` and
`FinalScore = TotalDuifenyi*0.4 + DailyScore*0.6`, then every record of the result of
`adjustScores` has `0 ≤ DailyScore ≤ 100` and `60 ≤ FinalScore ≤ 100`; in particular the
first loop's `requiredDaily = (60 - TotalDuifenyi*0.4)/0.6` and the `DailyScore` it leaves
are at most 100. -/
theorem adjustScores_valid_range (srt : SliceSorter F) (m : MathFns F)
    (students : List (Student F))
    (hv : ∀ s ∈ students, (0 ≤ s.TotalDuifenyi ∧ s.TotalDuifenyi ≤ 100) ∧
      (0 ≤ s.DailyScore ∧ s.DailyScore ≤ 100) ∧
      s.FinalScore = s.TotalDuifenyi * 0.4 + s.DailyScore * 0.6) :
    (∀ s' ∈ adjustScores srt m students,
        (0 ≤ s'.DailyScore ∧ s'.DailyScore ≤ 100) ∧
          (60 ≤ s'.FinalScore ∧ s'.FinalScore ≤ 100)) ∧
      (∀ s ∈ students, (60 - s.TotalDuifenyi * 0.4) / 0.6 ≤ 100) ∧
      ∀ s' ∈ passingFloor students, s'.DailyScore ≤ 100 := by
  refine ⟨?_, ?_, ?_⟩
  · intro s' hs'
    obtain ⟨s, hs, j, rfl⟩ := mem_adjustScores srt m students s' hs'
    obtain ⟨ht, hd, hc⟩ := hv s hs
    obtain ⟨hd', hf'⟩ := floorStep_range s ht hd hc
    exact reshapeStep_range m j _ _ hd' hf'
  · intro s hs
    have h6 : (0 : F) < 0.6 := by norm_num
    rw [div_le_iff₀ h6]
    norm_num
    nlinarith [(hv s hs).1.1]
  · intro s' hs'
    obtain ⟨s, hs, rfl⟩ := List.mem_map.mp hs'
    obtain ⟨ht, hd, hc⟩ := hv s hs
    exact (floorStep_range s ht hd hc).1.2

theorem adjustScores_valid_range_witness :
    (∀ s ∈ [(⟨"1", "n", "g", 0, 0, 0, 0, 0⟩ : Student ℚ), ⟨"2", "k", "g", 0, 0, 100, 100, 100⟩],
        (0 ≤ s.TotalDuifenyi ∧ s.TotalDuifenyi ≤ 100) ∧
        (0 ≤ s.DailyScore ∧ s.DailyScore ≤ 100) ∧
        s.FinalScore = s.TotalDuifenyi * 0.4 + s.DailyScore * 0.6) ∧
      ∀ s' ∈ adjustScores insertionSorter ⟨id, id⟩
          [(⟨"1", "n", "g", 0, 0, 0, 0, 0⟩ : Student ℚ), ⟨"2", "k", "g", 0, 0, 100, 100, 100⟩],
        (0 ≤ s'.DailyScore ∧ s'.DailyScore ≤ 100) ∧
          (60 ≤ s'.FinalScore ∧ s'.FinalScore ≤ 100) :=
  ⟨by simp; norm_num,
    (adjustScores_valid_range insertionSorter ⟨id, id⟩
      [(⟨"1", "n", "g", 0, 0, 0, 0, 0⟩ : Student ℚ), ⟨"2", "k", "g", 0, 0, 100, 100, 100⟩]
      (by simp; norm_num)).1⟩

/-! ## Output file name -/

theorem hasSuffix_append (s ext : String) : HasSuffix (s ++ ext) ext := by
  unfold HasSuffix
  rw [String.data_append]
  exact List.suffix_append _ _

theorem trimSuffix_append (s ext : String) : TrimSuffix (s ++ ext) ext = s := by
  unfold TrimSuffix
  rw [if_pos (hasSuffix_append s ext)]
  apply String.ext
  simp [String.data_append]

theorem not_hasSuffix_xlsx_of_xls (s : String) : ¬ HasSuffix (s ++ ".xls") ".xlsx" := by
  unfold HasSuffix
  rw [String.data_append, ← List.reverse_prefix]
  simp [List.reverse_append]

theorem generateOutputFilename_of_xlsx (s : String) (h : HasSuffix s ".xlsx") :
    generateOutputFilename s = TrimSuffix s ".xlsx" ++ "_adjusted" ++ ".xlsx" := by
  unfold generateOutputFilename
  simp only [if_pos h]

theorem generateOutputFilename_of_not_xlsx (s : String) (h : ¬ HasSuffix s ".xlsx") :
    generateOutputFilename s = TrimSuffix s ".xls" ++ "_adjusted" ++ ".xls" := by
  unfold generateOutputFilename
  simp only [if_neg h]

theorem trimSuffix_of_not (s ext : String) (h : ¬ HasSuffix s ext) : TrimSuffix s ext = s := by
  unfold TrimSuffix
  rw [if_neg h]

/-- C16. Output file name: `generateOutputFilename (s ++ ".xlsx") = s ++ "_adjusted.xlsx"`
and `generateOutputFilename (s ++ ".xls") = s ++ "_adjusted.xls"` for every `s`; for a
name that ends in neither `.xlsx` nor `.xls` the result is the whole name followed by
`_adjusted.xls`. -/
theorem generateOutputFilename_spec (s : String) :
    generateOutputFilename (s ++ ".xlsx") = s ++ "_adjusted.xlsx" ∧
      generateOutputFilename (s ++ ".xls") = s ++ "_adjusted.xls" ∧
      (¬ HasSuffix s ".xlsx" → ¬ HasSuffix s ".xls" →
        generateOutputFilename s = s ++ "_adjusted.xls") := by
  refine ⟨?_, ?_, ?_⟩
  · rw [generateOutputFilename_of_xlsx _ (hasSuffix_append s ".xlsx"), trimSuffix_append,
      String.append_assoc]
    rfl
  · rw [generateOutputFilename_of_not_xlsx _ (not_hasSuffix_xlsx_of_xls s), trimSuffix_append,
      String.append_assoc]
    rfl
  · intro h1 h2
    rw [generateOutputFilename_of_not_xlsx _ h1, trimSuffix_of_not _ _ h2, String.append_assoc]
    rfl

theorem generateOutputFilename_spec_witness :
    ¬ HasSuffix "data" ".xlsx" ∧ ¬ HasSuffix "data" ".xls" ∧
      generateOutputFilename "data" = "data" ++ "_adjusted.xls" :=
  ⟨by decide, by decide, (generateOutputFilename_spec "data").2.2 (by decide) (by decide)⟩

theorem length_trimSuffix (s ext : String) (h : HasSuffix s ext) :
    (TrimSuffix s ext).length + ext.length = s.length := by
  unfold TrimSuffix
  rw [if_pos h]
  have hle : ext.data.length ≤ s.data.length := List.IsSuffix.length_le h
  simp only [String.length, List.length_take]
  omega

theorem length_generateOutputFilename (s : String) :
    ((HasSuffix s ".xlsx" ∨ HasSuffix s ".xls") →
        (generateOutputFilename s).length = s.length + 9) ∧
      (¬ HasSuffix s ".xlsx" → ¬ HasSuffix s ".xls" →
        (generateOutputFilename s).length = s.length + 13) := by
  have e9 : "_adjusted".length = 9 := by decide
  have e5 : ".xlsx".length = 5 := by decide
  have e4 : ".xls".length = 4 := by decide
  constructor
  · intro h
    by_cases h1 : HasSuffix s ".xlsx"
    · have hl := length_trimSuffix s ".xlsx" h1
      rw [generateOutputFilename_of_xlsx s h1, String.length_append, String.length_append]
      omega
    · have h2 : HasSuffix s ".xls" := h.resolve_left h1
      have hl := length_trimSuffix s ".xls" h2
      rw [generateOutputFilename_of_not_xlsx s h1, String.length_append, String.length_append]
      omega
  · intro h1 h2
    rw [generateOutputFilename_of_not_xlsx s h1, trimSuffix_of_not _ _ h2,
      String.length_append, String.length_append]
    omega

theorem suffix_generateOutputFilename (s : String) :
    HasSuffix (generateOutputFilename s) "_adjusted.xls" ∨
      HasSuffix (generateOutputFilename s) "_adjusted.xlsx" := by
  by_cases h1 : HasSuffix s ".xlsx"
  · right
    rw [generateOutputFilename_of_xlsx s h1, String.append_assoc]
    exact hasSuffix_append _ _
  · left
    rw [generateOutputFilename_of_not_xlsx s h1, String.append_assoc]
    exact hasSuffix_append _ _

/-- C20, as stated, fails: for the name `data` the result `data_adjusted.xls` is 13
characters longer than the input, not 9. -/
theorem generateOutputFilename_nine_longer_fails :
    generateOutputFilename "data" = "data_adjusted.xls" ∧
      (generateOutputFilename "data").length = "data".length + 13 ∧
      ¬ ((generateOutputFilename "data").length = "data".length + 9) := by
  decide

/-- C20, amended. For every input name the result of `generateOutputFilename` differs
from the input and ends in `_adjusted.xls` or `_adjusted.xlsx`; it is exactly 9 characters
longer than the input when the input ends in `.xlsx` or `.xls`, and exactly 13 characters
longer when it ends in neither. -/
theorem generateOutputFilename_never_input (s : String) :
    generateOutputFilename s ≠ s ∧
      (HasSuffix (generateOutputFilename s) "_adjusted.xls" ∨
        HasSuffix (generateOutputFilename s) "_adjusted.xlsx") ∧
      ((HasSuffix s ".xlsx" ∨ HasSuffix s ".xls") →
        (generateOutputFilename s).length = s.length + 9) ∧
      (¬ HasSuffix s ".xlsx" → ¬ HasSuffix s ".xls" →
        (generateOutputFilename s).length = s.length + 13) := by
  obtain ⟨h9, h13⟩ := length_generateOutputFilename s
  refine ⟨?_, suffix_generateOutputFilename s, h9, h13⟩
  intro he
  by_cases h : HasSuffix s ".xlsx" ∨ HasSuffix s ".xls"
  · have := h9 h
    rw [he] at this
    omega
  · have := h13 (fun h1 => h (Or.inl h1)) (fun h2 => h (Or.inr h2))
    rw [he] at this
    omega

theorem generateOutputFilename_never_input_witness :
    (HasSuffix "scores.xlsx" ".xlsx" ∨ HasSuffix "scores.xlsx" ".xls") ∧
      (generateOutputFilename "scores.xlsx").length = "scores.xlsx".length + 9 ∧
      ¬ HasSuffix "data" ".xlsx" ∧ ¬ HasSuffix "data" ".xls" ∧
      (generateOutputFilename "data").length = "data".length + 13 :=
  ⟨by decide, (generateOutputFilename_never_input "scores.xlsx").2.2.1 (by decide),
    by decide, by decide,
    (generateOutputFilename_never_input "data").2.2.2 (by decide) (by decide)⟩

/-! ## Statistics -/

theorem foldl_add_eq_sum {α : Type} (f : α → F) (l : List α) (init : F) :
    l.foldl (fun acc x => acc + f x) init = init + (l.map f).sum := by
  induction l generalizing init with
  | nil => simp
  | cons x rest ih => simp [List.foldl_cons, ih, add_assoc]

theorem calculateMean_eq (students : List (Student F)) :
    calculateMean students =
      (students.map fun s => s.FinalScore).sum / (students.length : F) := by
  unfold calculateMean
  simp only [foldl_add_eq_sum, zero_add]

theorem calculateStdDev_eq (m : MathFns F) (students : List (Student F)) (mean : F) :
    calculateStdDev m students mean =
      m.Sqrt ((students.map fun s => (s.FinalScore - mean) ^ 2).sum /
        (students.length : F)) := by
  unfold calculateStdDev
  simp only [foldl_add_eq_sum (fun s : Student F => (s.FinalScore - mean) * (s.FinalScore - mean)),
    zero_add, pow_two]

/-- C14. Statistics: on a non-empty roster of `n` records `calculateMean` returns
`sum(FinalScore)/n` and `calculateStdDev` returns `Sqrt(sum((FinalScore - mean)^2)/n)`,
the population form with divisor `n ≠ 0`; for final scores 60, 70, 80 the mean is 70 and,
with the real square root, the standard deviation is `sqrt(200/3)`, whose square is
`200/3` and which lies between 8.164 and 8.166. -/
theorem statistics_correct (m : MathFns F) (students : List (Student F)) (mean : F)
    (hne : students ≠ []) (s₁ s₂ s₃ : Student F) (t₁ t₂ t₃ : Student ℝ) :
    (students.length : F) ≠ 0 ∧
      calculateMean students =
        (students.map fun s => s.FinalScore).sum / (students.length : F) ∧
      calculateStdDev m students mean =
        m.Sqrt ((students.map fun s => (s.FinalScore - mean) ^ 2).sum /
          (students.length : F)) ∧
      calculateMean [{ s₁ with FinalScore := 60 }, { s₂ with FinalScore := 70 },
        { s₃ with FinalScore := 80 }] = 70 ∧
      calculateStdDev ⟨Real.sqrt, Real.log⟩ [{ t₁ with FinalScore := 60 },
        { t₂ with FinalScore := 70 }, { t₃ with FinalScore := 80 }] 70 = Real.sqrt (200 / 3) ∧
      Real.sqrt (200 / 3) ^ 2 = 200 / 3 ∧
      8.164 < Real.sqrt (200 / 3) ∧ Real.sqrt (200 / 3) < 8.166 := by
  refine ⟨?_, calculateMean_eq students, calculateStdDev_eq m students mean, ?_, ?_, ?_, ?_, ?_⟩
  · have hpos : 0 < students.length := List.length_pos.mpr hne
    exact_mod_cast (Nat.pos_iff_ne_zero.mp hpos)
  · rw [calculateMean_eq]
    norm_num
  · rw [calculateStdDev_eq]
    norm_num
  · exact Real.sq_sqrt (by norm_num)
  · rw [Real.lt_sqrt (by norm_num)]
    norm_num
  · rw [Real.sqrt_lt' (by norm_num)]
    norm_num

theorem statistics_correct_witness :
    [(⟨"1", "n", "g", 0, 0, 50, 50, 50⟩ : Student ℚ)] ≠ [] ∧
      calculateMean [(⟨"1", "n", "g", 0, 0, 50, 50, 50⟩ : Student ℚ)] =
        ([(⟨"1", "n", "g", 0, 0, 50, 50, 50⟩ : Student ℚ)].map fun s => s.FinalScore).sum /
          (([(⟨"1", "n", "g", 0, 0, 50, 50, 50⟩ : Student ℚ)].length : Nat) : ℚ) :=
  ⟨by decide,
    (statistics_correct (⟨id, id⟩ : MathFns ℚ) [(⟨"1", "n", "g", 0, 0, 50, 50, 50⟩ : Student ℚ)]
      0 (by decide) ⟨"", "", "", 0, 0, 0, 0, 0⟩ ⟨"", "", "", 0, 0, 0, 0, 0⟩
      ⟨"", "", "", 0, 0, 0, 0, 0⟩ ⟨"", "", "", 0, 0, 0, 0, 0⟩ ⟨"", "", "", 0, 0, 0, 0, 0⟩
      ⟨"", "", "", 0, 0, 0, 0, 0⟩).2.1⟩

/-- C15. On the empty roster `printStatistics` has no guard: `calculateMean` and
`calculateStdDev` divide by the length `0`, and the index expression `students[0]` fails
at run time with index-out-of-range instead of an invalid-input error. -/
theorem printStatistics_empty (m : MathFns F) :
    ((([] : List (Student F)).length : Nat) : F) = 0 ∧
      calculateMean ([] : List (Student F)) = 0 / 0 ∧
      printStatistics m ([] : List (Student F)) =
        Except.error RuntimePanic.indexOutOfRange := by
  refine ⟨by simp, ?_, rfl⟩
  simp [calculateMean]

/-! ## A roster on which the second loop breaks the order -/

/-- A slice whose keys are pairwise different has one sorted order: every implementation
of the `sort.Slice` contract returns it. -/
theorem sort_eq_of_strict_perm (srt : SliceSorter F) (l l' : List (Student F))
    (hp : l'.Perm l) (hs : l'.Pairwise (fun x y => x.FinalScore < y.FinalScore)) :
    srt.sort l = l' := by
  have hperm : (srt.sort l).Perm l' := (srt.perm l).trans hp.symm
  have hne : l'.Pairwise (fun x y => x.FinalScore ≠ y.FinalScore) :=
    hs.imp (fun h => ne_of_lt h)
  have hne' : (srt.sort l).Pairwise (fun x y => x.FinalScore ≠ y.FinalScore) :=
    hperm.symm.pairwise hne (fun h => h.symm)
  have hlt : (srt.sort l).Pairwise (fun x y => x.FinalScore < y.FinalScore) :=
    ((srt.sorted l).and hne').imp (fun h => lt_of_le_of_ne (not_lt.mp h.1) h.2)
  haveI : IsAntisymm (Student F) (fun x y => x.FinalScore < y.FinalScore) :=
    ⟨fun _ _ h1 h2 => absurd h1 (lt_asymm h2)⟩
  exact List.eq_of_perm_of_sorted hperm hlt hs

theorem quarter_central_bounds (m : MathFns F) :
    -(7 / 8) < inverseNormalCDF m (1 / 4) ∧ inverseNormalCDF m (1 / 4) < 0 := by
  have hl : (pLow : F) ≤ 1 / 4 := by unfold pLow; norm_num
  have hh : (1 / 4 : F) ≤ pHigh := by unfold pHigh pLow; norm_num
  rw [inverseNormalCDF_central m _ hl hh]
  simp only [centralValue, centralNum, centralDen, a, b]
  constructor <;> norm_num

theorem targetScore_first_of_three (m : MathFns F) :
    68 < targetScore m 0 3 ∧ targetScore m 0 3 < 75 := by
  obtain ⟨hz1, hz2⟩ := quarter_central_bounds m
  have hp : (((0 + 1 : Nat) : F) / ((3 + 1 : Nat) : F)) = 1 / 4 := by norm_num
  unfold targetScore
  simp only [hp]
  generalize inverseNormalCDF m (1 / 4) = z at hz1 hz2
  have h60 : ¬ (75.0 + z * 8.0 < (60 : F)) := by norm_num; linarith
  have h100 : ¬ (75.0 + z * 8.0 > (100 : F)) := by norm_num; linarith
  rw [if_neg h60, if_neg h100]
  constructor <;> norm_num <;> linarith

theorem targetScore_second_of_three (m : MathFns F) : targetScore m 1 3 = 75 := by
  have hp : (((1 + 1 : Nat) : F) / ((3 + 1 : Nat) : F)) = 0.5 := by norm_num
  unfold targetScore
  simp only [hp, inverseNormalCDF_half_eq m]
  norm_num

/-- The second loop never rewrites a record whose `DailyScore` is 100. -/
theorem reshapeStep_of_daily_hundred (m : MathFns F) (i n : Nat) (s : Student F)
    (h : s.DailyScore = 100) : reshapeStep m i n s = s := by
  rw [reshapeStep_eq, if_neg]
  rintro ⟨-, h1, h2⟩
  rw [h] at h1
  exact absurd h2 (not_le.mpr h1)

theorem floorStep_of_ge (s : Student F) (h : 60 ≤ s.FinalScore) : floorStep s = s := by
  rw [floorStep_eq, if_neg]
  rintro ⟨h1, -⟩
  exact absurd h (not_le.mpr h1)

/-- First run of `adjustScores` on `sampleRoster`. -/
theorem adjustScores_sampleRoster (srt : SliceSorter F) (m : MathFns F) :
    adjustScores srt m sampleRoster =
      [⟨"1", "A", "F", 0, 0, 100, (targetScore m 0 3 - 100 * 0.4) / 0.6, targetScore m 0 3⟩,
        ⟨"2", "B", "M", 0, 0, 100, (75 - 100 * 0.4) / 0.6, 75⟩,
        ⟨"3", "C", "F", 0, 0, 20, 100, 68⟩] := by
  obtain ⟨hT1, hT2⟩ := targetScore_first_of_three m
  have hT3 := (targetScore_bounds m 0 3).2
  have hfloor : passingFloor (sampleRoster : List (Student F)) = sampleRoster := by
    simp only [passingFloor, sampleRoster, List.map]
    rw [floorStep_of_ge _ (by norm_num), floorStep_of_ge _ (by norm_num),
      floorStep_of_ge _ (by norm_num)]
  have hsort : srt.sort (sampleRoster : List (Student F)) = sampleRoster := by
    apply sort_eq_of_strict_perm srt _ _ (List.Perm.refl _)
    simp only [sampleRoster, List.pairwise_cons, List.mem_cons, List.mem_singleton,
      List.not_mem_nil, forall_eq_or_imp, forall_eq, List.Pairwise.nil]
    norm_num
  have h6 : (0 : F) < 0.6 := by norm_num
  have e : adjustScores srt m (sampleRoster : List (Student F)) =
      [reshapeStep m 0 3 ⟨"1", "A", "F", 0, 0, 100, 35, 61⟩,
        reshapeStep m 1 3 ⟨"2", "B", "M", 0, 0, 100, 40, 64⟩,
        reshapeStep m 2 3 ⟨"3", "C", "F", 0, 0, 20, 100, 68⟩] := by
    unfold adjustScores
    simp only [hfloor, hsort]
    rfl
  have h0 : reshapeStep m 0 3 (⟨"1", "A", "F", 0, 0, 100, 35, 61⟩ : Student F) =
      ⟨"1", "A", "F", 0, 0, 100, (targetScore m 0 3 - 100 * 0.4) / 0.6, targetScore m 0 3⟩ := by
    rw [reshapeStep_eq, if_pos]
    refine ⟨by simp only; linarith, ?_, ?_⟩
    · simp only [gt_iff_lt]
      rw [lt_div_iff₀ h6]
      norm_num
      linarith
    · simp only
      rw [div_le_iff₀ h6]
      norm_num
      linarith
  have h1 : reshapeStep m 1 3 (⟨"2", "B", "M", 0, 0, 100, 40, 64⟩ : Student F) =
      ⟨"2", "B", "M", 0, 0, 100, (75 - 100 * 0.4) / 0.6, 75⟩ := by
    rw [reshapeStep_eq, targetScore_second_of_three, if_pos]
    norm_num
  rw [e, h0, h1, reshapeStep_of_daily_hundred m 2 3 _ rfl]

/-- Second run of `adjustScores`, on the result of the first run on `sampleRoster`. -/
theorem adjustScores_sampleRoster_twice (srt : SliceSorter F) (m : MathFns F) :
    adjustScores srt m (adjustScores srt m sampleRoster) =
      [⟨"3", "C", "F", 0, 0, 20, 100, 68⟩,
        ⟨"1", "A", "F", 0, 0, 100, (75 - 100 * 0.4) / 0.6, 75⟩,
        reshapeStep m 2 3 ⟨"2", "B", "M", 0, 0, 100, (75 - 100 * 0.4) / 0.6, 75⟩] := by
  obtain ⟨hT1, hT2⟩ := targetScore_first_of_three m
  have h6 : (0 : F) < 0.6 := by norm_num
  rw [adjustScores_sampleRoster]
  have hfloor : passingFloor
      [(⟨"1", "A", "F", 0, 0, 100, (targetScore m 0 3 - 100 * 0.4) / 0.6, targetScore m 0 3⟩ :
        Student F), ⟨"2", "B", "M", 0, 0, 100, (75 - 100 * 0.4) / 0.6, 75⟩,
        ⟨"3", "C", "F", 0, 0, 20, 100, 68⟩] =
      [⟨"1", "A", "F", 0, 0, 100, (targetScore m 0 3 - 100 * 0.4) / 0.6, targetScore m 0 3⟩,
        ⟨"2", "B", "M", 0, 0, 100, (75 - 100 * 0.4) / 0.6, 75⟩,
        ⟨"3", "C", "F", 0, 0, 20, 100, 68⟩] := by
    simp only [passingFloor, List.map]
    rw [floorStep_of_ge _ (by simp only; linarith), floorStep_of_ge _ (by norm_num),
      floorStep_of_ge _ (by norm_num)]
  have hsort : srt.sort
      [(⟨"1", "A", "F", 0, 0, 100, (targetScore m 0 3 - 100 * 0.4) / 0.6, targetScore m 0 3⟩ :
        Student F), ⟨"2", "B", "M", 0, 0, 100, (75 - 100 * 0.4) / 0.6, 75⟩,
        ⟨"3", "C", "F", 0, 0, 20, 100, 68⟩] =
      [⟨"3", "C", "F", 0, 0, 20, 100, 68⟩,
        ⟨"1", "A", "F", 0, 0, 100, (targetScore m 0 3 - 100 * 0.4) / 0.6, targetScore m 0 3⟩,
        ⟨"2", "B", "M", 0, 0, 100, (75 - 100 * 0.4) / 0.6, 75⟩] := by
    apply sort_eq_of_strict_perm srt
    · exact @List.perm_append_comm _ [_] [_, _]
    · simp only [List.pairwise_cons, List.mem_cons, List.mem_singleton,
        List.not_mem_nil, forall_eq_or_imp, forall_eq, List.Pairwise.nil]
      norm_num
      exact ⟨hT1, hT2⟩
  have e : adjustScores srt m
      [(⟨"1", "A", "F", 0, 0, 100, (targetScore m 0 3 - 100 * 0.4) / 0.6, targetScore m 0 3⟩ :
        Student F), ⟨"2", "B", "M", 0, 0, 100, (75 - 100 * 0.4) / 0.6, 75⟩,
        ⟨"3", "C", "F", 0, 0, 20, 100, 68⟩] =
      [reshapeStep m 0 3 ⟨"3", "C", "F", 0, 0, 20, 100, 68⟩,
        reshapeStep m 1 3
          ⟨"1", "A", "F", 0, 0, 100, (targetScore m 0 3 - 100 * 0.4) / 0.6, targetScore m 0 3⟩,
        reshapeStep m 2 3 ⟨"2", "B", "M", 0, 0, 100, (75 - 100 * 0.4) / 0.6, 75⟩] := by
    unfold adjustScores
    simp only [hfloor, hsort]
    rfl
  have h1 : reshapeStep m 1 3
      (⟨"1", "A", "F", 0, 0, 100, (targetScore m 0 3 - 100 * 0.4) / 0.6, targetScore m 0 3⟩ :
        Student F) = ⟨"1", "A", "F", 0, 0, 100, (75 - 100 * 0.4) / 0.6, 75⟩ := by
    rw [reshapeStep_eq, targetScore_second_of_three, if_pos]
    refine ⟨hT2, ?_, by norm_num⟩
    simp only [gt_iff_lt]
    rw [div_lt_div_iff_of_pos_right h6]
    linarith
  rw [e, h1, reshapeStep_of_daily_hundred m 0 3 _ rfl]

/-- C13. `adjustScores` is not a fixed point after one run: on `sampleRoster` (three
consistent records with different `ID`s) the record with `ID` 1 has a `FinalScore` below
75 after the first run and exactly 75 after the second, because the second run sorts it
into the middle position; and for every roster the second run pairs off with a reordering
of the first run's result in which no `FinalScore` (and no `DailyScore`) is lowered. -/
theorem adjustScores_not_idempotent (srt : SliceSorter F) (m : MathFns F) :
    (∃ students : List (Student F),
        (∀ s ∈ students, s.FinalScore = s.TotalDuifenyi * 0.4 + s.DailyScore * 0.6) ∧
        ((adjustScores srt m students).map fun s => s.ID).Nodup ∧
        ∃ s ∈ adjustScores srt m students,
          ∃ s' ∈ adjustScores srt m (adjustScores srt m students),
            s'.ID = s.ID ∧ s.FinalScore < s'.FinalScore) ∧
      ∀ students : List (Student F),
        ∃ mid, mid.Perm (adjustScores srt m students) ∧
          List.Forall₂ NotLowered mid (adjustScores srt m (adjustScores srt m students)) := by
  refine ⟨⟨sampleRoster, ?_, ?_, ?_⟩, fun students =>
    adjustScores_rel srt m (adjustScores srt m students) NotLowered (notLowered_steps m)⟩
  · simp only [sampleRoster, List.mem_cons, List.mem_singleton, List.not_mem_nil,
      forall_eq_or_imp, forall_eq]
    norm_num
  · rw [adjustScores_sampleRoster]
    simp only [List.map]
    decide
  · rw [adjustScores_sampleRoster_twice, adjustScores_sampleRoster]
    refine ⟨⟨"1", "A", "F", 0, 0, 100, (targetScore m 0 3 - 100 * 0.4) / 0.6,
      targetScore m 0 3⟩, List.mem_cons_self _ _,
      ⟨"1", "A", "F", 0, 0, 100, (75 - 100 * 0.4) / 0.6, 75⟩, ?_, rfl, ?_⟩
    · exact List.mem_cons_of_mem _ (List.mem_cons_self _ _)
    · exact (targetScore_first_of_three m).2

/-- C18. After `adjustScores` on `sampleRoster` (non-empty, consistent) `printStatistics`
prints as 最低分 the first record's `FinalScore`, which is above 68, although the third
record has `FinalScore` 68, and prints as 最高分 the last record's `FinalScore` 68, although
the second record has `FinalScore` 75: neither is the minimum or the maximum of the
roster. -/
theorem printStatistics_after_adjustScores (srt : SliceSorter F) (m : MathFns F) :
    ((sampleRoster : List (Student F)) ≠ [] ∧
        ∀ s ∈ (sampleRoster : List (Student F)),
          s.FinalScore = s.TotalDuifenyi * 0.4 + s.DailyScore * 0.6) ∧
      ∃ st, printStatistics m (adjustScores srt m sampleRoster) = Except.ok st ∧
        st.lowest = targetScore m 0 3 ∧ st.highest = 68 ∧
        (∃ s ∈ adjustScores srt m sampleRoster, s.FinalScore < st.lowest) ∧
        ∃ s ∈ adjustScores srt m sampleRoster, st.highest < s.FinalScore := by
  refine ⟨⟨by simp [sampleRoster], ?_⟩, ?_⟩
  · simp only [sampleRoster, List.mem_cons, List.mem_singleton, List.not_mem_nil,
      forall_eq_or_imp, forall_eq]
    norm_num
  · rw [adjustScores_sampleRoster]
    refine ⟨_, rfl, rfl, rfl, ?_, ?_⟩
    · refine ⟨⟨"3", "C", "F", 0, 0, 20, 100, 68⟩, ?_, (targetScore_first_of_three m).1⟩
      simp
    · refine ⟨⟨"2", "B", "M", 0, 0, 100, (75 - 100 * 0.4) / 0.6, 75⟩, ?_, by norm_num⟩
      simp

/-! ## binary64 rounding: evaluation lemmas -/

theorem roundHalfEven_eq (y : ℚ) (m : ℤ) (h : |y - m| * 2 ≤ 1)
    (htie : |y - m| * 2 = 1 → m % 2 = 0) : roundHalfEven y = m := by
  have hf1 : ((⌊y⌋ : ℤ) : ℚ) ≤ y := Int.floor_le y
  have hf2 : y < ((⌊y⌋ : ℤ) : ℚ) + 1 := Int.lt_floor_add_one y
  have habs := abs_le.mp (show |y - m| ≤ 1 / 2 by linarith)
  unfold roundHalfEven
  simp only
  generalize ⌊y⌋ = f at hf1 hf2
  have h1 : f - m < 1 := by
    have : ((f - m : ℤ) : ℚ) < 1 := by push_cast; linarith
    exact_mod_cast this
  have h2 : -2 < f - m := by
    have : ((-2 : ℤ) : ℚ) < ((f - m : ℤ) : ℚ) := by push_cast; linarith
    exact_mod_cast this
  have hcases : f = m ∨ f = m - 1 := by omega
  rcases hcases with rfl | rfl
  · by_cases hr : y - (f : ℚ) < 1 / 2
    · rw [if_pos hr]
    · have hr' : y - (f : ℚ) = 1 / 2 := by linarith [habs.2]
      have ht : f % 2 = 0 := htie (by rw [hr', abs_of_pos (by norm_num)]; norm_num)
      rw [if_neg hr, if_neg (by rw [hr']; norm_num), if_pos ht]
  · have hc : ((m - 1 : ℤ) : ℚ) = (m : ℚ) - 1 := by push_cast; ring
    rw [hc] at hf1 hf2 ⊢
    by_cases hr : 1 / 2 < y - ((m : ℚ) - 1)
    · rw [if_neg (by linarith), if_pos hr]
      ring
    · have hr' : y - ((m : ℚ) - 1) = 1 / 2 := by linarith [habs.1]
      have hym : y - m = -(1 / 2) := by linarith
      have ht : m % 2 = 0 := htie (by rw [hym, abs_neg, abs_of_pos (by norm_num)]; norm_num)
      have hodd : ¬ ((m - 1) % 2 = 0) := by omega
      rw [if_neg (by rw [hr']; norm_num), if_neg hr, if_neg hodd]
      ring

/-- Evaluation of `rnd`: the value `m * 2^k` on the grid of the binade of `x` that is
nearest to `x` (with `m` even when `x` is half way between two grid values) is `rnd x`. -/
theorem rnd_eq (x : ℚ) (k m : ℤ) (hk : -1074 ≤ k) (hlo : (2 : ℚ) ^ (k + 52) ≤ |x|)
    (hhi : |x| < (2 : ℚ) ^ (k + 53)) (hm : |x - m * (2 : ℚ) ^ k| * 2 ≤ (2 : ℚ) ^ k)
    (htie : |x - m * (2 : ℚ) ^ k| * 2 = (2 : ℚ) ^ k → m % 2 = 0) :
    rnd x = m * (2 : ℚ) ^ k := by
  have hpos : (0 : ℚ) < 2 ^ (k + 52) := by positivity
  have hx : 0 < |x| := lt_of_lt_of_le hpos hlo
  have hx0 : x ≠ 0 := abs_pos.mp hx
  have hlog : Int.log 2 |x| = k + 52 := by
    apply le_antisymm
    · have := (Int.lt_zpow_iff_log_lt (b := 2) (by norm_num) hx (x := k + 52 + 1)).mp
        (by rw [show k + 52 + 1 = k + 53 by ring]; exact_mod_cast hhi)
      omega
    · exact (Int.zpow_le_iff_le_log (b := 2) (by norm_num) hx).mp (by exact_mod_cast hlo)
  have hu : (0 : ℚ) < 2 ^ k := by positivity
  unfold rnd
  rw [if_neg hx0]
  simp only [hlog]
  rw [max_eq_left (by omega), show k + 52 - 52 = k by ring]
  congr 1
  have hdiv : x / 2 ^ k - m = (x - m * 2 ^ k) / 2 ^ k := by
    field_simp
    ring
  have habs : |x / 2 ^ k - (m : ℚ)| = |x - m * 2 ^ k| / 2 ^ k := by
    rw [hdiv, abs_div, abs_of_pos hu]
  have key : roundHalfEven (x / 2 ^ k) = m := by
    apply roundHalfEven_eq
    · rw [habs, div_mul_eq_mul_div, div_le_one hu]
      exact hm
    · intro h
      apply htie
      rw [habs, div_mul_eq_mul_div, div_eq_one_iff_eq (ne_of_gt hu)] at h
      exact h
  exact_mod_cast congrArg (fun z : ℤ => (z : ℚ)) key

theorem near_of_bounds (x g u : ℚ)
    (h : ((g - x) * 2 < u ∧ (x - g) * 2 < u) ∨
      ((g - x) * 2 ≤ u ∧ (x - g) * 2 ≤ u)) : |x - g| * 2 ≤ u := by
  have h1 : (g - x) * 2 ≤ u := by rcases h with h | h <;> linarith [h.1]
  have h2 : (x - g) * 2 ≤ u := by rcases h with h | h <;> linarith [h.2]
  rcases abs_cases (x - g) with ⟨e, -⟩ | ⟨e, -⟩ <;> rw [e] <;> linarith

theorem not_tie_of_bounds (x g u : ℚ) (h : (g - x) * 2 < u ∧ (x - g) * 2 < u) :
    |x - g| * 2 ≠ u := by
  rcases abs_cases (x - g) with ⟨e, -⟩ | ⟨e, -⟩ <;> rw [e] <;> intro hc <;> linarith [h.1, h.2]

/-- Evaluation of `rnd` at a positive rational. -/
theorem rnd_pos (x : ℚ) (k m : ℤ) (hk : -1074 ≤ k) (hlo : (2 : ℚ) ^ (k + 52) ≤ x)
    (hhi : x < (2 : ℚ) ^ (k + 53))
    (hnear : ((m * (2 : ℚ) ^ k - x) * 2 < (2 : ℚ) ^ k ∧
        (x - m * (2 : ℚ) ^ k) * 2 < (2 : ℚ) ^ k) ∨
      (m % 2 = 0 ∧ (m * (2 : ℚ) ^ k - x) * 2 ≤ (2 : ℚ) ^ k ∧
        (x - m * (2 : ℚ) ^ k) * 2 ≤ (2 : ℚ) ^ k)) :
    rnd x = m * (2 : ℚ) ^ k := by
  have hx : 0 < x := lt_of_lt_of_le (by positivity) hlo
  apply rnd_eq x k m hk (by rwa [abs_of_pos hx]) (by rwa [abs_of_pos hx])
  · exact near_of_bounds _ _ _ (hnear.imp id (fun h => h.2))
  · intro ht
    rcases hnear with h | h
    · exact absurd ht (not_tie_of_bounds _ _ _ h)
    · exact h.1

/-- Evaluation of `rnd` at a negative rational. -/
theorem rnd_neg (x : ℚ) (k m : ℤ) (hk : -1074 ≤ k) (hlo : (2 : ℚ) ^ (k + 52) ≤ -x)
    (hhi : -x < (2 : ℚ) ^ (k + 53))
    (hnear : ((m * (2 : ℚ) ^ k - x) * 2 < (2 : ℚ) ^ k ∧
        (x - m * (2 : ℚ) ^ k) * 2 < (2 : ℚ) ^ k) ∨
      (m % 2 = 0 ∧ (m * (2 : ℚ) ^ k - x) * 2 ≤ (2 : ℚ) ^ k ∧
        (x - m * (2 : ℚ) ^ k) * 2 ≤ (2 : ℚ) ^ k)) :
    rnd x = m * (2 : ℚ) ^ k := by
  have hx : x < 0 := by
    have : (0 : ℚ) < 2 ^ (k + 52) := by positivity
    linarith
  apply rnd_eq x k m hk (by rwa [abs_of_neg hx]) (by rwa [abs_of_neg hx])
  · exact near_of_bounds _ _ _ (hnear.imp id (fun h => h.2))
  · intro ht
    rcases hnear with h | h
    · exact absurd ht (not_tie_of_bounds _ _ _ h)
    · exact h.1

theorem rnd_zero : rnd 0 = 0 := by
  simp [rnd]

theorem F64.add_mk (x y : ℚ) : (⟨x⟩ + ⟨y⟩ : F64) = ⟨rnd (x + y)⟩ := rfl

theorem F64.sub_mk (x y : ℚ) : (⟨x⟩ - ⟨y⟩ : F64) = ⟨rnd (x - y)⟩ := rfl

theorem F64.mul_mk (x y : ℚ) : (⟨x⟩ * ⟨y⟩ : F64) = ⟨rnd (x * y)⟩ := rfl

theorem F64.div_mk (x y : ℚ) : (⟨x⟩ / ⟨y⟩ : F64) = ⟨rnd (x / y)⟩ := rfl

theorem F64.neg_mk (x : ℚ) : (-⟨x⟩ : F64) = ⟨-x⟩ := rfl

theorem F64.lt_mk (x y : ℚ) : (⟨x⟩ : F64) < ⟨y⟩ ↔ x < y := Iff.rfl

theorem F64.le_mk (x y : ℚ) : (⟨x⟩ : F64) ≤ ⟨y⟩ ↔ x ≤ y := Iff.rfl

theorem F64.zero_eq : (0 : F64) = ⟨0⟩ := by
  show F64.mk (rnd ((0 : ℕ) : ℚ)) = ⟨0⟩
  rw [Nat.cast_zero, rnd_zero]

/-! ## binary64 evaluation: literals and single roundings

Every lemma of this section is one rounding `rnd x = v`, checked by exhibiting the
exponent and the 53-bit significand of `v`. -/

theorem rnd_0_4 : rnd (0.4) = (3602879701896397 / 9007199254740992) :=
  (rnd_pos _ (-54) (7205759403792794) (by norm_num) (by norm_num) (by norm_num)
    (Or.inl ⟨by norm_num, by norm_num⟩)).trans (by norm_num)

theorem rnd_0_6 : rnd (0.6) = (5404319552844595 / 9007199254740992) :=
  (rnd_pos _ (-53) (5404319552844595) (by norm_num) (by norm_num) (by norm_num)
    (Or.inl ⟨by norm_num, by norm_num⟩)).trans (by norm_num)

theorem rnd_1_6 : rnd (1.6) = (3602879701896397 / 2251799813685248) :=
  (rnd_pos _ (-52) (7205759403792794) (by norm_num) (by norm_num) (by norm_num)
    (Or.inl ⟨by norm_num, by norm_num⟩)).trans (by norm_num)

theorem rnd_22_8 : rnd (22.8) = (6417629469002957 / 281474976710656) :=
  (rnd_pos _ (-48) (6417629469002957) (by norm_num) (by norm_num) (by norm_num)
    (Or.inl ⟨by norm_num, by norm_num⟩)).trans (by norm_num)

theorem rnd_0_5 : rnd (0.5) = (1 / 2) :=
  (rnd_pos _ (-53) (4503599627370496) (by norm_num) (by norm_num) (by norm_num)
    (Or.inl ⟨by norm_num, by norm_num⟩)).trans (by norm_num)

theorem rnd_0_02425 : rnd (0.02425) = (3494793310839505 / 144115188075855872) :=
  (rnd_pos _ (-58) (6989586621679010) (by norm_num) (by norm_num) (by norm_num)
    (Or.inl ⟨by norm_num, by norm_num⟩)).trans (by norm_num)

theorem rnd_75_0 : rnd (75.0) = 75 :=
  (rnd_pos _ (-46) (5277655813324800) (by norm_num) (by norm_num) (by norm_num)
    (Or.inl ⟨by norm_num, by norm_num⟩)).trans (by norm_num)

theorem rnd_8_0 : rnd (8.0) = 8 :=
  (rnd_pos _ (-49) (4503599627370496) (by norm_num) (by norm_num) (by norm_num)
    (Or.inl ⟨by norm_num, by norm_num⟩)).trans (by norm_num)

theorem rnd_0_95 : rnd (0.95) = (4278419646001971 / 4503599627370496) :=
  (rnd_pos _ (-53) (8556839292003942) (by norm_num) (by norm_num) (by norm_num)
    (Or.inl ⟨by norm_num, by norm_num⟩)).trans (by norm_num)

theorem rnd_0_950000000000001 : rnd (0.950000000000001) = (8556839292003951 / 9007199254740992) :=
  (rnd_pos _ (-53) (8556839292003951) (by norm_num) (by norm_num) (by norm_num)
    (Or.inl ⟨by norm_num, by norm_num⟩)).trans (by norm_num)

theorem rnd_0_05 : rnd (0.05) = (3602879701896397 / 72057594037927936) :=
  (rnd_pos _ (-57) (7205759403792794) (by norm_num) (by norm_num) (by norm_num)
    (Or.inl ⟨by norm_num, by norm_num⟩)).trans (by norm_num)

theorem rnd_0_99 : rnd (0.99) = (4458563631096791 / 4503599627370496) :=
  (rnd_pos _ (-53) (8917127262193582) (by norm_num) (by norm_num) (by norm_num)
    (Or.inl ⟨by norm_num, by norm_num⟩)).trans (by norm_num)

theorem rnd_0_25 : rnd (0.25) = (1 / 4) :=
  (rnd_pos _ (-54) (4503599627370496) (by norm_num) (by norm_num) (by norm_num)
    (Or.inl ⟨by norm_num, by norm_num⟩)).trans (by norm_num)

theorem rnd_0_75 : rnd (0.75) = (3 / 4) :=
  (rnd_pos _ (-53) (6755399441055744) (by norm_num) (by norm_num) (by norm_num)
    (Or.inl ⟨by norm_num, by norm_num⟩)).trans (by norm_num)

theorem rnd_1 : rnd (1) = 1 :=
  (rnd_pos _ (-52) (4503599627370496) (by norm_num) (by norm_num) (by norm_num)
    (Or.inl ⟨by norm_num, by norm_num⟩)).trans (by norm_num)

theorem rnd_2 : rnd (2) = 2 :=
  (rnd_pos _ (-51) (4503599627370496) (by norm_num) (by norm_num) (by norm_num)
    (Or.inl ⟨by norm_num, by norm_num⟩)).trans (by norm_num)

theorem rnd_4 : rnd (4) = 4 :=
  (rnd_pos _ (-50) (4503599627370496) (by norm_num) (by norm_num) (by norm_num)
    (Or.inl ⟨by norm_num, by norm_num⟩)).trans (by norm_num)

theorem rnd_57 : rnd (57) = 57 :=
  (rnd_pos _ (-47) (8022036836253696) (by norm_num) (by norm_num) (by norm_num)
    (Or.inl ⟨by norm_num, by norm_num⟩)).trans (by norm_num)

theorem rnd_60 : rnd (60) = 60 :=
  (rnd_pos _ (-47) (8444249301319680) (by norm_num) (by norm_num) (by norm_num)
    (Or.inl ⟨by norm_num, by norm_num⟩)).trans (by norm_num)

theorem rnd_75 : rnd (75) = 75 :=
  (rnd_pos _ (-46) (5277655813324800) (by norm_num) (by norm_num) (by norm_num)
    (Or.inl ⟨by norm_num, by norm_num⟩)).trans (by norm_num)

theorem rnd_100 : rnd (100) = 100 :=
  (rnd_pos _ (-46) (7036874417766400) (by norm_num) (by norm_num) (by norm_num)
    (Or.inl ⟨by norm_num, by norm_num⟩)).trans (by norm_num)

theorem rnd_10 : rnd (10) = 10 :=
  (rnd_pos _ (-49) (5629499534213120) (by norm_num) (by norm_num) (by norm_num)
    (Or.inl ⟨by norm_num, by norm_num⟩)).trans (by norm_num)

theorem rnd_3_969683028665376e01 : rnd (3.969683028665376e+01) = (5586832190211365 /
    140737488355328) :=
  (rnd_pos _ (-47) (5586832190211365) (by norm_num) (by norm_num) (by norm_num)
    (Or.inl ⟨by norm_num, by norm_num⟩)).trans (by norm_num)

theorem rnd_2_209460984245205e02 : rnd (2.209460984245205e+02) = (7773849738544027 / 35184372088832)
    :=
  (rnd_pos _ (-45) (7773849738544027) (by norm_num) (by norm_num) (by norm_num)
    (Or.inl ⟨by norm_num, by norm_num⟩)).trans (by norm_num)

theorem rnd_2_759285104469687e02 : rnd (2.759285104469687e+02) = (4854185690741657 / 17592186044416)
    :=
  (rnd_pos _ (-44) (4854185690741657) (by norm_num) (by norm_num) (by norm_num)
    (Or.inl ⟨by norm_num, by norm_num⟩)).trans (by norm_num)

theorem rnd_1_383577518672690e02 : rnd (1.383577518672690e+02) = (4868030623072283 / 35184372088832)
    :=
  (rnd_pos _ (-45) (4868030623072283) (by norm_num) (by norm_num) (by norm_num)
    (Or.inl ⟨by norm_num, by norm_num⟩)).trans (by norm_num)

theorem rnd_3_066479806614716e01 : rnd (3.066479806614716e+01) = (8631373321505741 /
    281474976710656) :=
  (rnd_pos _ (-48) (8631373321505741) (by norm_num) (by norm_num) (by norm_num)
    (Or.inl ⟨by norm_num, by norm_num⟩)).trans (by norm_num)

theorem rnd_2_506628277459239e00 : rnd (2.506628277459239e+00) = (5644425088160889 /
    2251799813685248) :=
  (rnd_pos _ (-51) (5644425088160889) (by norm_num) (by norm_num) (by norm_num)
    (Or.inl ⟨by norm_num, by norm_num⟩)).trans (by norm_num)

theorem rnd_5_447609879822406e01 : rnd (5.447609879822406e+01) = (1916707330064689 / 35184372088832)
    :=
  (rnd_pos _ (-47) (7666829320258756) (by norm_num) (by norm_num) (by norm_num)
    (Or.inl ⟨by norm_num, by norm_num⟩)).trans (by norm_num)

theorem rnd_1_615858368580409e02 : rnd (1.615858368580409e+02) = (5685296208298615 / 35184372088832)
    :=
  (rnd_pos _ (-45) (5685296208298615) (by norm_num) (by norm_num) (by norm_num)
    (Or.inl ⟨by norm_num, by norm_num⟩)).trans (by norm_num)

theorem rnd_1_556989798598866e02 : rnd (1.556989798598866e+02) = (2739085420620905 / 17592186044416)
    :=
  (rnd_pos _ (-45) (5478170841241810) (by norm_num) (by norm_num) (by norm_num)
    (Or.inl ⟨by norm_num, by norm_num⟩)).trans (by norm_num)

theorem rnd_6_680131188771972e01 : rnd (6.680131188771972e+01) = (2350362213479647 / 35184372088832)
    :=
  (rnd_pos _ (-46) (4700724426959294) (by norm_num) (by norm_num) (by norm_num)
    (Or.inl ⟨by norm_num, by norm_num⟩)).trans (by norm_num)

theorem rnd_1_328068155288572e01 : rnd (1.328068155288572e+01) = (3738179530800147 /
    281474976710656) :=
  (rnd_pos _ (-49) (7476359061600294) (by norm_num) (by norm_num) (by norm_num)
    (Or.inl ⟨by norm_num, by norm_num⟩)).trans (by norm_num)

theorem f64_0_4 : (0.4 : F64) = ⟨(3602879701896397 / 9007199254740992)⟩ :=
  congrArg F64.mk rnd_0_4

theorem f64_0_6 : (0.6 : F64) = ⟨(5404319552844595 / 9007199254740992)⟩ :=
  congrArg F64.mk rnd_0_6

theorem f64_1_6 : (1.6 : F64) = ⟨(3602879701896397 / 2251799813685248)⟩ :=
  congrArg F64.mk rnd_1_6

theorem f64_22_8 : (22.8 : F64) = ⟨(6417629469002957 / 281474976710656)⟩ :=
  congrArg F64.mk rnd_22_8

theorem f64_0_5 : (0.5 : F64) = ⟨(1 / 2)⟩ :=
  congrArg F64.mk rnd_0_5

theorem f64_0_02425 : (0.02425 : F64) = ⟨(3494793310839505 / 144115188075855872)⟩ :=
  congrArg F64.mk rnd_0_02425

theorem f64_75_0 : (75.0 : F64) = ⟨75⟩ :=
  congrArg F64.mk rnd_75_0

theorem f64_8_0 : (8.0 : F64) = ⟨8⟩ :=
  congrArg F64.mk rnd_8_0

theorem f64_0_95 : (0.95 : F64) = ⟨(4278419646001971 / 4503599627370496)⟩ :=
  congrArg F64.mk rnd_0_95

theorem f64_0_950000000000001 : (0.950000000000001 : F64) = ⟨(8556839292003951 / 9007199254740992)⟩
    :=
  congrArg F64.mk rnd_0_950000000000001

theorem f64_0_05 : (0.05 : F64) = ⟨(3602879701896397 / 72057594037927936)⟩ :=
  congrArg F64.mk rnd_0_05

theorem f64_0_99 : (0.99 : F64) = ⟨(4458563631096791 / 4503599627370496)⟩ :=
  congrArg F64.mk rnd_0_99

theorem f64_0_25 : (0.25 : F64) = ⟨(1 / 4)⟩ :=
  congrArg F64.mk rnd_0_25

theorem f64_0_75 : (0.75 : F64) = ⟨(3 / 4)⟩ :=
  congrArg F64.mk rnd_0_75

theorem f64_3_969683028665376e01 : (3.969683028665376e+01 : F64) = ⟨(5586832190211365 /
    140737488355328)⟩ :=
  congrArg F64.mk rnd_3_969683028665376e01

theorem f64_2_209460984245205e02 : (2.209460984245205e+02 : F64) = ⟨(7773849738544027 /
    35184372088832)⟩ :=
  congrArg F64.mk rnd_2_209460984245205e02

theorem f64_2_759285104469687e02 : (2.759285104469687e+02 : F64) = ⟨(4854185690741657 /
    17592186044416)⟩ :=
  congrArg F64.mk rnd_2_759285104469687e02

theorem f64_1_383577518672690e02 : (1.383577518672690e+02 : F64) = ⟨(4868030623072283 /
    35184372088832)⟩ :=
  congrArg F64.mk rnd_1_383577518672690e02

theorem f64_3_066479806614716e01 : (3.066479806614716e+01 : F64) = ⟨(8631373321505741 /
    281474976710656)⟩ :=
  congrArg F64.mk rnd_3_066479806614716e01

theorem f64_2_506628277459239e00 : (2.506628277459239e+00 : F64) = ⟨(5644425088160889 /
    2251799813685248)⟩ :=
  congrArg F64.mk rnd_2_506628277459239e00

theorem f64_5_447609879822406e01 : (5.447609879822406e+01 : F64) = ⟨(1916707330064689 /
    35184372088832)⟩ :=
  congrArg F64.mk rnd_5_447609879822406e01

theorem f64_1_615858368580409e02 : (1.615858368580409e+02 : F64) = ⟨(5685296208298615 /
    35184372088832)⟩ :=
  congrArg F64.mk rnd_1_615858368580409e02

theorem f64_1_556989798598866e02 : (1.556989798598866e+02 : F64) = ⟨(2739085420620905 /
    17592186044416)⟩ :=
  congrArg F64.mk rnd_1_556989798598866e02

theorem f64_6_680131188771972e01 : (6.680131188771972e+01 : F64) = ⟨(2350362213479647 /
    35184372088832)⟩ :=
  congrArg F64.mk rnd_6_680131188771972e01

theorem f64_1_328068155288572e01 : (1.328068155288572e+01 : F64) = ⟨(3738179530800147 /
    281474976710656)⟩ :=
  congrArg F64.mk rnd_1_328068155288572e01

theorem f64_1 : (1 : F64) = ⟨1⟩ := by
  show F64.mk (rnd ((1 : ℕ) : ℚ)) = ⟨1⟩
  rw [Nat.cast_one, rnd_1]

theorem f64_2 : (2 : F64) = ⟨2⟩ := by
  show F64.mk (rnd ((2 : ℕ) : ℚ)) = ⟨2⟩
  rw [Nat.cast_ofNat, rnd_2]

theorem f64_4 : (4 : F64) = ⟨4⟩ := by
  show F64.mk (rnd ((4 : ℕ) : ℚ)) = ⟨4⟩
  rw [Nat.cast_ofNat, rnd_4]

theorem f64_57 : (57 : F64) = ⟨57⟩ := by
  show F64.mk (rnd ((57 : ℕ) : ℚ)) = ⟨57⟩
  rw [Nat.cast_ofNat, rnd_57]

theorem f64_60 : (60 : F64) = ⟨60⟩ := by
  show F64.mk (rnd ((60 : ℕ) : ℚ)) = ⟨60⟩
  rw [Nat.cast_ofNat, rnd_60]

theorem f64_75 : (75 : F64) = ⟨75⟩ := by
  show F64.mk (rnd ((75 : ℕ) : ℚ)) = ⟨75⟩
  rw [Nat.cast_ofNat, rnd_75]

theorem f64_100 : (100 : F64) = ⟨100⟩ := by
  show F64.mk (rnd ((100 : ℕ) : ℚ)) = ⟨100⟩
  rw [Nat.cast_ofNat, rnd_100]

theorem f64_10 : (10 : F64) = ⟨10⟩ := by
  show F64.mk (rnd ((10 : ℕ) : ℚ)) = ⟨10⟩
  rw [Nat.cast_ofNat, rnd_10]

theorem thr_01 : rnd (1 - (3494793310839505 / 144115188075855872)) = (8788774672813523 /
    9007199254740992) :=
  (rnd_pos _ (-53) (8788774672813523) (by norm_num) (by norm_num) (by norm_num)
    (Or.inl ⟨by norm_num, by norm_num⟩)).trans (by norm_num)

theorem thr_02 : rnd (1 / 2) = (1 / 2) :=
  (rnd_pos _ (-53) (4503599627370496) (by norm_num) (by norm_num) (by norm_num)
    (Or.inl ⟨by norm_num, by norm_num⟩)).trans (by norm_num)

theorem thr2_01 : rnd (1 - (3602879701896397 / 72057594037927936)) = (4278419646001971 /
    4503599627370496) :=
  (rnd_pos _ (-53) (8556839292003942) (by norm_num) (by norm_num) (by norm_num)
    (Or.inl ⟨by norm_num, by norm_num⟩)).trans (by norm_num)

theorem wit_01 : rnd (1 - (4458563631096791 / 4503599627370496)) = (45035996273705 /
    4503599627370496) :=
  (rnd_pos _ (-59) (5764607523034240) (by norm_num) (by norm_num) (by norm_num)
    (Or.inl ⟨by norm_num, by norm_num⟩)).trans (by norm_num)

theorem wit_02 : rnd ((3 / 4) - (1 / 2)) = (1 / 4) :=
  (rnd_pos _ (-54) (4503599627370496) (by norm_num) (by norm_num) (by norm_num)
    (Or.inl ⟨by norm_num, by norm_num⟩)).trans (by norm_num)

theorem wit_03 : rnd ((1 / 4) - (1 / 2)) = -(1 / 4) :=
  (rnd_neg _ (-54) (-4503599627370496) (by norm_num) (by norm_num) (by norm_num)
    (Or.inl ⟨by norm_num, by norm_num⟩)).trans (by norm_num)


/-! ### The record with `TotalDuifenyi = 4`, `DailyScore = 0` -/

theorem four_01 : rnd (4 * (3602879701896397 / 9007199254740992)) = (3602879701896397 /
    2251799813685248) :=
  (rnd_pos _ (-52) (7205759403792794) (by norm_num) (by norm_num) (by norm_num)
    (Or.inl ⟨by norm_num, by norm_num⟩)).trans (by norm_num)

theorem four_02 : rnd (60 - (3602879701896397 / 2251799813685248)) = (8219069319951155 /
    140737488355328) :=
  (rnd_pos _ (-47) (8219069319951155) (by norm_num) (by norm_num) (by norm_num)
    (Or.inl ⟨by norm_num, by norm_num⟩)).trans (by norm_num)

theorem four_03 : rnd ((8219069319951155 / 140737488355328) / (5404319552844595 / 9007199254740992))
    = (6849224433292629 / 70368744177664) :=
  (rnd_pos _ (-46) (6849224433292629) (by norm_num) (by norm_num) (by norm_num)
    (Or.inl ⟨by norm_num, by norm_num⟩)).trans (by norm_num)

theorem four_04 : rnd ((6849224433292629 / 70368744177664) * (5404319552844595 / 9007199254740992))
    = (4109534659975577 / 70368744177664) :=
  (rnd_pos _ (-47) (8219069319951154) (by norm_num) (by norm_num) (by norm_num)
    (Or.inl ⟨by norm_num, by norm_num⟩)).trans (by norm_num)

theorem four_05 : rnd ((3602879701896397 / 2251799813685248) + (4109534659975577 / 70368744177664))
    = (8444249301319679 / 140737488355328) :=
  (rnd_pos _ (-47) (8444249301319679) (by norm_num) (by norm_num) (by norm_num)
    (Or.inl ⟨by norm_num, by norm_num⟩)).trans (by norm_num)

theorem four_06 : rnd (75 - (3602879701896397 / 2251799813685248)) = (2582532911320269 /
    35184372088832) :=
  (rnd_pos _ (-46) (5165065822640538) (by norm_num) (by norm_num) (by norm_num)
    (Or.inl ⟨by norm_num, by norm_num⟩)).trans (by norm_num)

theorem four_07 : rnd ((2582532911320269 / 35184372088832) / (5404319552844595 / 9007199254740992))
    = (4304221518867115 / 35184372088832) :=
  (rnd_pos _ (-46) (8608443037734230) (by norm_num) (by norm_num) (by norm_num)
    (Or.inl ⟨by norm_num, by norm_num⟩)).trans (by norm_num)

theorem four_08 : rnd ((3602879701896397 / 2251799813685248)) = (3602879701896397 /
    2251799813685248) :=
  (rnd_pos _ (-52) (7205759403792794) (by norm_num) (by norm_num) (by norm_num)
    (Or.inl ⟨by norm_num, by norm_num⟩)).trans (by norm_num)


/-! ### The record with `TotalDuifenyi = 57`, `DailyScore = 0` -/

theorem fifty7_01 : rnd (57 * (3602879701896397 / 9007199254740992)) = (6417629469002957 /
    281474976710656) :=
  (rnd_pos _ (-48) (6417629469002957) (by norm_num) (by norm_num) (by norm_num)
    (Or.inl ⟨by norm_num, by norm_num⟩)).trans (by norm_num)

theorem fifty7_02 : rnd (60 - (6417629469002957 / 281474976710656)) = (2617717283409101 /
    70368744177664) :=
  (rnd_pos _ (-47) (5235434566818202) (by norm_num) (by norm_num) (by norm_num)
    (Or.inr ⟨by decide, by norm_num, by norm_num⟩)).trans (by norm_num)

theorem fifty7_03 : rnd ((2617717283409101 / 70368744177664) / (5404319552844595 /
    9007199254740992)) = (8725724278030337 / 140737488355328) :=
  (rnd_pos _ (-47) (8725724278030337) (by norm_num) (by norm_num) (by norm_num)
    (Or.inl ⟨by norm_num, by norm_num⟩)).trans (by norm_num)

theorem fifty7_04 : rnd ((8725724278030337 / 140737488355328) * (5404319552844595 /
    9007199254740992)) = (2617717283409101 / 70368744177664) :=
  (rnd_pos _ (-47) (5235434566818202) (by norm_num) (by norm_num) (by norm_num)
    (Or.inl ⟨by norm_num, by norm_num⟩)).trans (by norm_num)

theorem fifty7_05 : rnd ((6417629469002957 / 281474976710656) + (2617717283409101 / 70368744177664))
    = 60 :=
  (rnd_pos _ (-47) (8444249301319680) (by norm_num) (by norm_num) (by norm_num)
    (Or.inr ⟨by decide, by norm_num, by norm_num⟩)).trans (by norm_num)

theorem fifty7_06 : rnd (75 - (6417629469002957 / 281474976710656)) = (3673248446074061 /
    70368744177664) :=
  (rnd_pos _ (-47) (7346496892148122) (by norm_num) (by norm_num) (by norm_num)
    (Or.inr ⟨by decide, by norm_num, by norm_num⟩)).trans (by norm_num)

theorem fifty7_07 : rnd ((3673248446074061 / 70368744177664) / (5404319552844595 /
    9007199254740992)) = (6122080743456769 / 70368744177664) :=
  (rnd_pos _ (-46) (6122080743456769) (by norm_num) (by norm_num) (by norm_num)
    (Or.inl ⟨by norm_num, by norm_num⟩)).trans (by norm_num)

theorem fifty7_08 : rnd ((6122080743456769 / 70368744177664) * (5404319552844595 /
    9007199254740992)) = (7346496892148123 / 140737488355328) :=
  (rnd_pos _ (-47) (7346496892148123) (by norm_num) (by norm_num) (by norm_num)
    (Or.inl ⟨by norm_num, by norm_num⟩)).trans (by norm_num)

theorem fifty7_09 : rnd ((6417629469002957 / 281474976710656) + (7346496892148123 /
    140737488355328)) = (5277655813324801 / 70368744177664) :=
  (rnd_pos _ (-46) (5277655813324801) (by norm_num) (by norm_num) (by norm_num)
    (Or.inl ⟨by norm_num, by norm_num⟩)).trans (by norm_num)

theorem fifty7_10 : rnd ((6417629469002957 / 281474976710656)) = (6417629469002957 /
    281474976710656) :=
  (rnd_pos _ (-48) (6417629469002957) (by norm_num) (by norm_num) (by norm_num)
    (Or.inl ⟨by norm_num, by norm_num⟩)).trans (by norm_num)


/-! ### The central branch at `p = 0.95` -/

theorem c95_01 : rnd ((4278419646001971 / 4503599627370496) - (1 / 2)) = (2026619832316723 /
    4503599627370496) :=
  (rnd_pos _ (-54) (8106479329266892) (by norm_num) (by norm_num) (by norm_num)
    (Or.inl ⟨by norm_num, by norm_num⟩)).trans (by norm_num)

theorem c95_02 : rnd ((2026619832316723 / 4503599627370496) * (2026619832316723 / 4503599627370496))
    = (3647915698170101 / 18014398509481984) :=
  (rnd_pos _ (-55) (7295831396340202) (by norm_num) (by norm_num) (by norm_num)
    (Or.inl ⟨by norm_num, by norm_num⟩)).trans (by norm_num)

theorem c95_03 : rnd (-(5586832190211365 / 140737488355328) * (3647915698170101 /
    18014398509481984)) = -(4525334074071205 / 562949953421312) :=
  (rnd_neg _ (-49) (-4525334074071205) (by norm_num) (by norm_num) (by norm_num)
    (Or.inl ⟨by norm_num, by norm_num⟩)).trans (by norm_num)

theorem c95_04 : rnd (-(4525334074071205 / 562949953421312) + (7773849738544027 / 35184372088832)) =
    (7491016358914577 / 35184372088832) :=
  (rnd_pos _ (-45) (7491016358914577) (by norm_num) (by norm_num) (by norm_num)
    (Or.inl ⟨by norm_num, by norm_num⟩)).trans (by norm_num)

theorem c95_05 : rnd ((7491016358914577 / 35184372088832) * (3647915698170101 / 18014398509481984))
    = (3033861625360403 / 70368744177664) :=
  (rnd_pos _ (-47) (6067723250720806) (by norm_num) (by norm_num) (by norm_num)
    (Or.inl ⟨by norm_num, by norm_num⟩)).trans (by norm_num)

theorem c95_06 : rnd ((3033861625360403 / 70368744177664) + -(4854185690741657 / 17592186044416)) =
    -(1023930071100389 / 4398046511104) :=
  (rnd_neg _ (-45) (-8191440568803112) (by norm_num) (by norm_num) (by norm_num)
    (Or.inr ⟨by decide, by norm_num, by norm_num⟩)).trans (by norm_num)

theorem c95_07 : rnd (-(1023930071100389 / 4398046511104) * (3647915698170101 / 18014398509481984))
    = -(6635066860730519 / 140737488355328) :=
  (rnd_neg _ (-47) (-6635066860730519) (by norm_num) (by norm_num) (by norm_num)
    (Or.inl ⟨by norm_num, by norm_num⟩)).trans (by norm_num)

theorem c95_08 : rnd (-(6635066860730519 / 140737488355328) + (4868030623072283 / 35184372088832)) =
    (3209263907889653 / 35184372088832) :=
  (rnd_pos _ (-46) (6418527815779306) (by norm_num) (by norm_num) (by norm_num)
    (Or.inr ⟨by decide, by norm_num, by norm_num⟩)).trans (by norm_num)

theorem c95_09 : rnd ((3209263907889653 / 35184372088832) * (3647915698170101 / 18014398509481984))
    = (5199007530781237 / 281474976710656) :=
  (rnd_pos _ (-48) (5199007530781237) (by norm_num) (by norm_num) (by norm_num)
    (Or.inl ⟨by norm_num, by norm_num⟩)).trans (by norm_num)

theorem c95_10 : rnd ((5199007530781237 / 281474976710656) + -(8631373321505741 / 281474976710656))
    = -(429045723840563 / 35184372088832) :=
  (rnd_neg _ (-49) (-6864731581449008) (by norm_num) (by norm_num) (by norm_num)
    (Or.inl ⟨by norm_num, by norm_num⟩)).trans (by norm_num)

theorem c95_11 : rnd (-(429045723840563 / 35184372088832) * (3647915698170101 / 18014398509481984))
    = -(5560432580973695 / 2251799813685248) :=
  (rnd_neg _ (-51) (-5560432580973695) (by norm_num) (by norm_num) (by norm_num)
    (Or.inl ⟨by norm_num, by norm_num⟩)).trans (by norm_num)

theorem c95_12 : rnd (-(5560432580973695 / 2251799813685248) + (5644425088160889 /
    2251799813685248)) = (41996253593597 / 1125899906842624) :=
  (rnd_pos _ (-57) (5375520459980416) (by norm_num) (by norm_num) (by norm_num)
    (Or.inl ⟨by norm_num, by norm_num⟩)).trans (by norm_num)

theorem c95_13 : rnd ((41996253593597 / 1125899906842624) * (2026619832316723 / 4503599627370496)) =
    (2418984206991187 / 144115188075855872) :=
  (rnd_pos _ (-58) (4837968413982374) (by norm_num) (by norm_num) (by norm_num)
    (Or.inl ⟨by norm_num, by norm_num⟩)).trans (by norm_num)

theorem c95_14 : rnd (-(1916707330064689 / 35184372088832) * (3647915698170101 / 18014398509481984))
    = -(6210131749409591 / 562949953421312) :=
  (rnd_neg _ (-49) (-6210131749409591) (by norm_num) (by norm_num) (by norm_num)
    (Or.inl ⟨by norm_num, by norm_num⟩)).trans (by norm_num)

theorem c95_15 : rnd (-(6210131749409591 / 562949953421312) + (5685296208298615 / 35184372088832)) =
    (1324290743490129 / 8796093022208) :=
  (rnd_pos _ (-45) (5297162973960516) (by norm_num) (by norm_num) (by norm_num)
    (Or.inl ⟨by norm_num, by norm_num⟩)).trans (by norm_num)

theorem c95_16 : rnd ((1324290743490129 / 8796093022208) * (3647915698170101 / 18014398509481984)) =
    (4290702008908017 / 140737488355328) :=
  (rnd_pos _ (-48) (8581404017816034) (by norm_num) (by norm_num) (by norm_num)
    (Or.inl ⟨by norm_num, by norm_num⟩)).trans (by norm_num)

theorem c95_17 : rnd ((4290702008908017 / 140737488355328) + -(2739085420620905 / 17592186044416)) =
    -(2202747669507403 / 17592186044416) :=
  (rnd_neg _ (-46) (-8810990678029612) (by norm_num) (by norm_num) (by norm_num)
    (Or.inr ⟨by decide, by norm_num, by norm_num⟩)).trans (by norm_num)

theorem c95_18 : rnd (-(2202747669507403 / 17592186044416) * (3647915698170101 / 18014398509481984))
    = -(446056403075249 / 17592186044416) :=
  (rnd_neg _ (-48) (-7136902449203984) (by norm_num) (by norm_num) (by norm_num)
    (Or.inl ⟨by norm_num, by norm_num⟩)).trans (by norm_num)

theorem c95_19 : rnd (-(446056403075249 / 17592186044416) + (2350362213479647 / 35184372088832)) =
    (1458249407329149 / 35184372088832) :=
  (rnd_pos _ (-47) (5832997629316596) (by norm_num) (by norm_num) (by norm_num)
    (Or.inl ⟨by norm_num, by norm_num⟩)).trans (by norm_num)

theorem c95_20 : rnd ((1458249407329149 / 35184372088832) * (3647915698170101 / 18014398509481984))
    = (2362364039873221 / 281474976710656) :=
  (rnd_pos _ (-49) (4724728079746442) (by norm_num) (by norm_num) (by norm_num)
    (Or.inl ⟨by norm_num, by norm_num⟩)).trans (by norm_num)

theorem c95_21 : rnd ((2362364039873221 / 281474976710656) + -(3738179530800147 / 281474976710656))
    = -(687907745463463 / 140737488355328) :=
  (rnd_neg _ (-50) (-5503261963707704) (by norm_num) (by norm_num) (by norm_num)
    (Or.inl ⟨by norm_num, by norm_num⟩)).trans (by norm_num)

theorem c95_22 : rnd (-(687907745463463 / 140737488355328) * (3647915698170101 / 18014398509481984))
    = -(8915284381206479 / 9007199254740992) :=
  (rnd_neg _ (-53) (-8915284381206479) (by norm_num) (by norm_num) (by norm_num)
    (Or.inl ⟨by norm_num, by norm_num⟩)).trans (by norm_num)

theorem c95_23 : rnd (-(8915284381206479 / 9007199254740992) + 1) = (91914873534513 /
    9007199254740992) :=
  (rnd_pos _ (-59) (5882551906208832) (by norm_num) (by norm_num) (by norm_num)
    (Or.inl ⟨by norm_num, by norm_num⟩)).trans (by norm_num)

theorem c95_24 : rnd ((2418984206991187 / 144115188075855872) / (91914873534513 / 9007199254740992))
    = (231492567913473 / 140737488355328) :=
  (rnd_pos _ (-52) (7407762173231136) (by norm_num) (by norm_num) (by norm_num)
    (Or.inl ⟨by norm_num, by norm_num⟩)).trans (by norm_num)


/-! ### The central branch at `p = 0.950000000000001` -/

theorem c95b_01 : rnd ((8556839292003951 / 9007199254740992) - (1 / 2)) = (4053239664633455 /
    9007199254740992) :=
  (rnd_pos _ (-54) (8106479329266910) (by norm_num) (by norm_num) (by norm_num)
    (Or.inl ⟨by norm_num, by norm_num⟩)).trans (by norm_num)

theorem c95b_02 : rnd ((4053239664633455 / 9007199254740992) * (4053239664633455 /
    9007199254740992)) = (3647915698170117 / 18014398509481984) :=
  (rnd_pos _ (-55) (7295831396340234) (by norm_num) (by norm_num) (by norm_num)
    (Or.inl ⟨by norm_num, by norm_num⟩)).trans (by norm_num)

theorem c95b_03 : rnd (-(5586832190211365 / 140737488355328) * (3647915698170117 /
    18014398509481984)) = -(4525334074071225 / 562949953421312) :=
  (rnd_neg _ (-49) (-4525334074071225) (by norm_num) (by norm_num) (by norm_num)
    (Or.inl ⟨by norm_num, by norm_num⟩)).trans (by norm_num)

theorem c95b_04 : rnd (-(4525334074071225 / 562949953421312) + (7773849738544027 / 35184372088832))
    = (7491016358914575 / 35184372088832) :=
  (rnd_pos _ (-45) (7491016358914575) (by norm_num) (by norm_num) (by norm_num)
    (Or.inl ⟨by norm_num, by norm_num⟩)).trans (by norm_num)

theorem c95b_05 : rnd ((7491016358914575 / 35184372088832) * (3647915698170117 / 18014398509481984))
    = (6067723250720831 / 140737488355328) :=
  (rnd_pos _ (-47) (6067723250720831) (by norm_num) (by norm_num) (by norm_num)
    (Or.inl ⟨by norm_num, by norm_num⟩)).trans (by norm_num)

theorem c95b_06 : rnd ((6067723250720831 / 140737488355328) + -(4854185690741657 / 17592186044416))
    = -(4095720284401553 / 17592186044416) :=
  (rnd_neg _ (-45) (-8191440568803106) (by norm_num) (by norm_num) (by norm_num)
    (Or.inl ⟨by norm_num, by norm_num⟩)).trans (by norm_num)

theorem c95b_07 : rnd (-(4095720284401553 / 17592186044416) * (3647915698170117 /
    18014398509481984)) = -(414691678795659 / 8796093022208) :=
  (rnd_neg _ (-47) (-6635066860730544) (by norm_num) (by norm_num) (by norm_num)
    (Or.inl ⟨by norm_num, by norm_num⟩)).trans (by norm_num)

theorem c95b_08 : rnd (-(414691678795659 / 8796093022208) + (4868030623072283 / 35184372088832)) =
    (3209263907889647 / 35184372088832) :=
  (rnd_pos _ (-46) (6418527815779294) (by norm_num) (by norm_num) (by norm_num)
    (Or.inl ⟨by norm_num, by norm_num⟩)).trans (by norm_num)

theorem c95b_09 : rnd ((3209263907889647 / 35184372088832) * (3647915698170117 / 18014398509481984))
    = (2599503765390625 / 140737488355328) :=
  (rnd_pos _ (-48) (5199007530781250) (by norm_num) (by norm_num) (by norm_num)
    (Or.inl ⟨by norm_num, by norm_num⟩)).trans (by norm_num)

theorem c95b_10 : rnd ((2599503765390625 / 140737488355328) + -(8631373321505741 / 281474976710656))
    = -(3432365790724491 / 281474976710656) :=
  (rnd_neg _ (-49) (-6864731581448982) (by norm_num) (by norm_num) (by norm_num)
    (Or.inl ⟨by norm_num, by norm_num⟩)).trans (by norm_num)

theorem c95b_11 : rnd (-(3432365790724491 / 281474976710656) * (3647915698170117 /
    18014398509481984)) = -(5560432580973699 / 2251799813685248) :=
  (rnd_neg _ (-51) (-5560432580973699) (by norm_num) (by norm_num) (by norm_num)
    (Or.inl ⟨by norm_num, by norm_num⟩)).trans (by norm_num)

theorem c95b_12 : rnd (-(5560432580973699 / 2251799813685248) + (5644425088160889 /
    2251799813685248)) = (41996253593595 / 1125899906842624) :=
  (rnd_pos _ (-57) (5375520459980160) (by norm_num) (by norm_num) (by norm_num)
    (Or.inl ⟨by norm_num, by norm_num⟩)).trans (by norm_num)

theorem c95b_13 : rnd ((41996253593595 / 1125899906842624) * (4053239664633455 / 9007199254740992))
    = (2418984206991077 / 144115188075855872) :=
  (rnd_pos _ (-58) (4837968413982154) (by norm_num) (by norm_num) (by norm_num)
    (Or.inl ⟨by norm_num, by norm_num⟩)).trans (by norm_num)

theorem c95b_14 : rnd (-(1916707330064689 / 35184372088832) * (3647915698170117 /
    18014398509481984)) = -(3105065874704809 / 281474976710656) :=
  (rnd_neg _ (-49) (-6210131749409618) (by norm_num) (by norm_num) (by norm_num)
    (Or.inl ⟨by norm_num, by norm_num⟩)).trans (by norm_num)

theorem c95b_15 : rnd (-(3105065874704809 / 281474976710656) + (5685296208298615 / 35184372088832))
    = (2648581486980257 / 17592186044416) :=
  (rnd_pos _ (-45) (5297162973960514) (by norm_num) (by norm_num) (by norm_num)
    (Or.inl ⟨by norm_num, by norm_num⟩)).trans (by norm_num)

theorem c95b_16 : rnd ((2648581486980257 / 17592186044416) * (3647915698170117 / 18014398509481984))
    = (8581404017816069 / 281474976710656) :=
  (rnd_pos _ (-48) (8581404017816069) (by norm_num) (by norm_num) (by norm_num)
    (Or.inl ⟨by norm_num, by norm_num⟩)).trans (by norm_num)

theorem c95b_17 : rnd ((8581404017816069 / 281474976710656) + -(2739085420620905 / 17592186044416))
    = -(8810990678029603 / 70368744177664) :=
  (rnd_neg _ (-46) (-8810990678029603) (by norm_num) (by norm_num) (by norm_num)
    (Or.inl ⟨by norm_num, by norm_num⟩)).trans (by norm_num)

theorem c95b_18 : rnd (-(8810990678029603 / 70368744177664) * (3647915698170117 /
    18014398509481984)) = -(892112806150501 / 35184372088832) :=
  (rnd_neg _ (-48) (-7136902449204008) (by norm_num) (by norm_num) (by norm_num)
    (Or.inl ⟨by norm_num, by norm_num⟩)).trans (by norm_num)

theorem c95b_19 : rnd (-(892112806150501 / 35184372088832) + (2350362213479647 / 35184372088832)) =
    (729124703664573 / 17592186044416) :=
  (rnd_pos _ (-47) (5832997629316584) (by norm_num) (by norm_num) (by norm_num)
    (Or.inl ⟨by norm_num, by norm_num⟩)).trans (by norm_num)

theorem c95b_20 : rnd ((729124703664573 / 17592186044416) * (3647915698170117 / 18014398509481984))
    = (4724728079746453 / 562949953421312) :=
  (rnd_pos _ (-49) (4724728079746453) (by norm_num) (by norm_num) (by norm_num)
    (Or.inl ⟨by norm_num, by norm_num⟩)).trans (by norm_num)

theorem c95b_21 : rnd ((4724728079746453 / 562949953421312) + -(3738179530800147 / 281474976710656))
    = -(2751630981853841 / 562949953421312) :=
  (rnd_neg _ (-50) (-5503261963707682) (by norm_num) (by norm_num) (by norm_num)
    (Or.inl ⟨by norm_num, by norm_num⟩)).trans (by norm_num)

theorem c95b_22 : rnd (-(2751630981853841 / 562949953421312) * (3647915698170117 /
    18014398509481984)) = -(4457642190603241 / 4503599627370496) :=
  (rnd_neg _ (-53) (-8915284381206482) (by norm_num) (by norm_num) (by norm_num)
    (Or.inl ⟨by norm_num, by norm_num⟩)).trans (by norm_num)

theorem c95b_23 : rnd (-(4457642190603241 / 4503599627370496) + 1) = (45957436767255 /
    4503599627370496) :=
  (rnd_pos _ (-59) (5882551906208640) (by norm_num) (by norm_num) (by norm_num)
    (Or.inl ⟨by norm_num, by norm_num⟩)).trans (by norm_num)

theorem c95b_24 : rnd ((2418984206991077 / 144115188075855872) / (45957436767255 /
    4503599627370496)) = (7407762173231041 / 4503599627370496) :=
  (rnd_pos _ (-52) (7407762173231041) (by norm_num) (by norm_num) (by norm_num)
    (Or.inl ⟨by norm_num, by norm_num⟩)).trans (by norm_num)


/-! ### The central branch at `p = 0.05` -/

theorem c05_01 : rnd ((3602879701896397 / 72057594037927936) - (1 / 2)) = -(8106479329266893 /
    18014398509481984) :=
  (rnd_neg _ (-54) (-8106479329266893) (by norm_num) (by norm_num) (by norm_num)
    (Or.inl ⟨by norm_num, by norm_num⟩)).trans (by norm_num)

theorem c05_02 : rnd (-(8106479329266893 / 18014398509481984) * -(8106479329266893 /
    18014398509481984)) = (1823957849085051 / 9007199254740992) :=
  (rnd_pos _ (-55) (7295831396340204) (by norm_num) (by norm_num) (by norm_num)
    (Or.inl ⟨by norm_num, by norm_num⟩)).trans (by norm_num)

theorem c05_03 : rnd (-(5586832190211365 / 140737488355328) * (1823957849085051 / 9007199254740992))
    = -(2262667037035603 / 281474976710656) :=
  (rnd_neg _ (-49) (-4525334074071206) (by norm_num) (by norm_num) (by norm_num)
    (Or.inl ⟨by norm_num, by norm_num⟩)).trans (by norm_num)

theorem c05_04 : rnd (-(2262667037035603 / 281474976710656) + (7773849738544027 / 35184372088832)) =
    (7491016358914577 / 35184372088832) :=
  (rnd_pos _ (-45) (7491016358914577) (by norm_num) (by norm_num) (by norm_num)
    (Or.inl ⟨by norm_num, by norm_num⟩)).trans (by norm_num)

theorem c05_05 : rnd ((7491016358914577 / 35184372088832) * (1823957849085051 / 9007199254740992)) =
    (758465406340101 / 17592186044416) :=
  (rnd_pos _ (-47) (6067723250720808) (by norm_num) (by norm_num) (by norm_num)
    (Or.inl ⟨by norm_num, by norm_num⟩)).trans (by norm_num)

theorem c05_06 : rnd ((758465406340101 / 17592186044416) + -(4854185690741657 / 17592186044416)) =
    -(1023930071100389 / 4398046511104) :=
  (rnd_neg _ (-45) (-8191440568803112) (by norm_num) (by norm_num) (by norm_num)
    (Or.inl ⟨by norm_num, by norm_num⟩)).trans (by norm_num)

theorem c05_07 : rnd (-(1023930071100389 / 4398046511104) * (1823957849085051 / 9007199254740992)) =
    -(6635066860730521 / 140737488355328) :=
  (rnd_neg _ (-47) (-6635066860730521) (by norm_num) (by norm_num) (by norm_num)
    (Or.inl ⟨by norm_num, by norm_num⟩)).trans (by norm_num)

theorem c05_08 : rnd (-(6635066860730521 / 140737488355328) + (4868030623072283 / 35184372088832)) =
    (3209263907889653 / 35184372088832) :=
  (rnd_pos _ (-46) (6418527815779306) (by norm_num) (by norm_num) (by norm_num)
    (Or.inr ⟨by decide, by norm_num, by norm_num⟩)).trans (by norm_num)

theorem c05_09 : rnd ((3209263907889653 / 35184372088832) * (1823957849085051 / 9007199254740992)) =
    (2599503765390619 / 140737488355328) :=
  (rnd_pos _ (-48) (5199007530781238) (by norm_num) (by norm_num) (by norm_num)
    (Or.inl ⟨by norm_num, by norm_num⟩)).trans (by norm_num)

theorem c05_10 : rnd ((2599503765390619 / 140737488355328) + -(8631373321505741 / 281474976710656))
    = -(3432365790724503 / 281474976710656) :=
  (rnd_neg _ (-49) (-6864731581449006) (by norm_num) (by norm_num) (by norm_num)
    (Or.inl ⟨by norm_num, by norm_num⟩)).trans (by norm_num)

theorem c05_11 : rnd (-(3432365790724503 / 281474976710656) * (1823957849085051 / 9007199254740992))
    = -(5560432580973695 / 2251799813685248) :=
  (rnd_neg _ (-51) (-5560432580973695) (by norm_num) (by norm_num) (by norm_num)
    (Or.inl ⟨by norm_num, by norm_num⟩)).trans (by norm_num)

theorem c05_12 : rnd ((41996253593597 / 1125899906842624) * -(8106479329266893 / 18014398509481984))
    = -(4837968413982375 / 288230376151711744) :=
  (rnd_neg _ (-58) (-4837968413982375) (by norm_num) (by norm_num) (by norm_num)
    (Or.inl ⟨by norm_num, by norm_num⟩)).trans (by norm_num)

theorem c05_13 : rnd (-(1916707330064689 / 35184372088832) * (1823957849085051 / 9007199254740992))
    = -(6210131749409593 / 562949953421312) :=
  (rnd_neg _ (-49) (-6210131749409593) (by norm_num) (by norm_num) (by norm_num)
    (Or.inl ⟨by norm_num, by norm_num⟩)).trans (by norm_num)

theorem c05_14 : rnd (-(6210131749409593 / 562949953421312) + (5685296208298615 / 35184372088832)) =
    (5297162973960515 / 35184372088832) :=
  (rnd_pos _ (-45) (5297162973960515) (by norm_num) (by norm_num) (by norm_num)
    (Or.inl ⟨by norm_num, by norm_num⟩)).trans (by norm_num)

theorem c05_15 : rnd ((5297162973960515 / 35184372088832) * (1823957849085051 / 9007199254740992)) =
    (8581404017816035 / 281474976710656) :=
  (rnd_pos _ (-48) (8581404017816035) (by norm_num) (by norm_num) (by norm_num)
    (Or.inl ⟨by norm_num, by norm_num⟩)).trans (by norm_num)

theorem c05_16 : rnd ((8581404017816035 / 281474976710656) + -(2739085420620905 / 17592186044416)) =
    -(8810990678029611 / 70368744177664) :=
  (rnd_neg _ (-46) (-8810990678029611) (by norm_num) (by norm_num) (by norm_num)
    (Or.inl ⟨by norm_num, by norm_num⟩)).trans (by norm_num)

theorem c05_17 : rnd (-(8810990678029611 / 70368744177664) * (1823957849085051 / 9007199254740992))
    = -(7136902449203985 / 281474976710656) :=
  (rnd_neg _ (-48) (-7136902449203985) (by norm_num) (by norm_num) (by norm_num)
    (Or.inl ⟨by norm_num, by norm_num⟩)).trans (by norm_num)

theorem c05_18 : rnd (-(7136902449203985 / 281474976710656) + (2350362213479647 / 35184372088832)) =
    (1458249407329149 / 35184372088832) :=
  (rnd_pos _ (-47) (5832997629316596) (by norm_num) (by norm_num) (by norm_num)
    (Or.inr ⟨by decide, by norm_num, by norm_num⟩)).trans (by norm_num)

theorem c05_19 : rnd ((1458249407329149 / 35184372088832) * (1823957849085051 / 9007199254740992)) =
    (4724728079746443 / 562949953421312) :=
  (rnd_pos _ (-49) (4724728079746443) (by norm_num) (by norm_num) (by norm_num)
    (Or.inl ⟨by norm_num, by norm_num⟩)).trans (by norm_num)

theorem c05_20 : rnd ((4724728079746443 / 562949953421312) + -(3738179530800147 / 281474976710656))
    = -(2751630981853851 / 562949953421312) :=
  (rnd_neg _ (-50) (-5503261963707702) (by norm_num) (by norm_num) (by norm_num)
    (Or.inl ⟨by norm_num, by norm_num⟩)).trans (by norm_num)

theorem c05_21 : rnd (-(2751630981853851 / 562949953421312) * (1823957849085051 / 9007199254740992))
    = -(4457642190603239 / 4503599627370496) :=
  (rnd_neg _ (-53) (-8915284381206478) (by norm_num) (by norm_num) (by norm_num)
    (Or.inl ⟨by norm_num, by norm_num⟩)).trans (by norm_num)

theorem c05_22 : rnd (-(4457642190603239 / 4503599627370496) + 1) = (45957436767257 /
    4503599627370496) :=
  (rnd_pos _ (-59) (5882551906208896) (by norm_num) (by norm_num) (by norm_num)
    (Or.inl ⟨by norm_num, by norm_num⟩)).trans (by norm_num)

theorem c05_23 : rnd (-(4837968413982375 / 288230376151711744) / (45957436767257 /
    4503599627370496)) = -(7407762173231057 / 4503599627370496) :=
  (rnd_neg _ (-52) (-7407762173231057) (by norm_num) (by norm_num) (by norm_num)
    (Or.inl ⟨by norm_num, by norm_num⟩)).trans (by norm_num)

/-! ## binary64 evaluation of the code -/

theorem F64.mul_zero_mk (x : F64) : x * ⟨0⟩ = ⟨0⟩ := by
  show F64.mk (rnd (x.val * 0)) = ⟨0⟩
  rw [mul_zero, rnd_zero]

theorem adjustScores64_singleton (srt : SliceSorter64) (m : MathFns F64) (s : Student F64) :
    adjustScores64 srt m [s] = [reshapeStep64 m 0 1 (floorStep64 s)] := by
  have h : srt.sort [floorStep64 s] = [floorStep64 s] := List.perm_singleton.mp (srt.perm _)
  simp [adjustScores64, passingFloor64, h, reshapeFrom64]

/-- At `p = 1/2` the binary64 code takes the central branch with `q = 0` and returns 0. -/
theorem inverseNormalCDF64_half (m : MathFns F64) : inverseNormalCDF64 m ⟨1 / 2⟩ = ⟨0⟩ := by
  have c1 : ¬ ((1 / 2 : ℚ) ≤ 0) := by norm_num
  have c2 : ¬ ((1 : ℚ) ≤ 1 / 2) := by norm_num
  have c3 : ¬ ((1 / 2 : ℚ) < 3494793310839505 / 144115188075855872) := by norm_num
  have c4 : (1 / 2 : ℚ) ≤ 8788774672813523 / 9007199254740992 := by norm_num
  simp only [inverseNormalCDF64, pLow64, pHigh64, f64_0_02425, f64_1, f64_0_5, F64.zero_eq,
    F64.sub_mk, thr_01, F64.le_mk, F64.lt_mk, ge_iff_le, c1, c2, c3, c4, if_true, if_false,
    sub_self, rnd_zero, F64.mul_zero_mk, F64.add_mk, F64.div_mk, zero_add, zero_div, rnd_1]

/-- For a slice of one record the binary64 target score is exactly 75. -/
theorem targetScore64_single (m : MathFns F64) : targetScore64 m 0 1 = ⟨75⟩ := by
  have hp : F64.ofNat (0 + 1) / F64.ofNat (1 + 1) = ⟨1 / 2⟩ := by
    show F64.mk (rnd (rnd ((0 + 1 : ℕ) : ℚ) / rnd ((1 + 1 : ℕ) : ℚ))) = ⟨1 / 2⟩
    norm_num [rnd_1, rnd_2, thr_02]
  have c1 : ¬ ((75 : ℚ) < 60) := by norm_num
  have c2 : ¬ ((100 : ℚ) < 75) := by norm_num
  simp only [targetScore64, hp, inverseNormalCDF64_half, f64_75_0, f64_8_0, f64_60, f64_100,
    F64.mul_mk, F64.add_mk, zero_mul, rnd_zero, add_zero, rnd_75, F64.lt_mk, gt_iff_lt, c1, c2,
    if_false]

/-- First loop body in binary64 on the record with `TotalDuifenyi = 4`, `DailyScore = 0`,
`FinalScore = 1.6`: `DailyScore` becomes 97.33333333333333 and the recomputed `FinalScore`
is 59.99999999999999. -/
theorem floorStep64_four (id name gender : String) (obj subj : F64) :
    floorStep64 ⟨id, name, gender, obj, subj, 4, 0, 1.6⟩ =
      ⟨id, name, gender, obj, subj, ⟨4⟩, ⟨6849224433292629 / 70368744177664⟩,
        ⟨8444249301319679 / 140737488355328⟩⟩ := by
  have c1 : (3602879701896397 / 2251799813685248 : ℚ) < 60 := by norm_num
  have c2 : (0 : ℚ) < 6849224433292629 / 70368744177664 := by norm_num
  simp only [floorStep64, f64_0_4, f64_0_6, f64_1_6, f64_4, f64_60, F64.zero_eq, F64.mul_mk,
    F64.sub_mk, F64.div_mk, F64.add_mk, F64.lt_mk, gt_iff_lt, four_01, four_02, four_03,
    four_04, four_05, c1, c2, if_true]

/-- Second loop body in binary64 on that record: the target 75 would need `DailyScore`
122.33 > 100, so the record stays as the first loop left it. -/
theorem reshapeStep64_four (m : MathFns F64) (id name gender : String) (obj subj : F64) :
    reshapeStep64 m 0 1 ⟨id, name, gender, obj, subj, ⟨4⟩,
        ⟨6849224433292629 / 70368744177664⟩, ⟨8444249301319679 / 140737488355328⟩⟩ =
      ⟨id, name, gender, obj, subj, ⟨4⟩, ⟨6849224433292629 / 70368744177664⟩,
        ⟨8444249301319679 / 140737488355328⟩⟩ := by
  have c1 : (8444249301319679 / 140737488355328 : ℚ) < 75 := by norm_num
  have c2 : ¬ ((4304221518867115 / 35184372088832 : ℚ) ≤ 100) := by norm_num
  simp only [reshapeStep64, targetScore64_single, f64_0_4, f64_0_6, f64_100, F64.mul_mk,
    F64.sub_mk, F64.div_mk, F64.lt_mk, F64.le_mk, gt_iff_lt, four_01, four_06, four_07, c1, c2,
    if_true, and_false, if_false]

theorem adjustScores64_four (srt : SliceSorter64) (m : MathFns F64) (id name gender : String)
    (obj subj : F64) :
    adjustScores64 srt m [⟨id, name, gender, obj, subj, 4, 0, 1.6⟩] =
      [⟨id, name, gender, obj, subj, ⟨4⟩, ⟨6849224433292629 / 70368744177664⟩,
        ⟨8444249301319679 / 140737488355328⟩⟩] := by
  rw [adjustScores64_singleton, floorStep64_four, reshapeStep64_four]

/-- First loop body in binary64 on the record with `TotalDuifenyi = 57`, `DailyScore = 0`,
`FinalScore = 22.8`: `DailyScore` becomes 62.00000000000001 and `FinalScore` 60. -/
theorem floorStep64_fifty7 (id name gender : String) (obj subj : F64) :
    floorStep64 ⟨id, name, gender, obj, subj, 57, 0, 22.8⟩ =
      ⟨id, name, gender, obj, subj, ⟨57⟩, ⟨8725724278030337 / 140737488355328⟩, ⟨60⟩⟩ := by
  have c1 : (6417629469002957 / 281474976710656 : ℚ) < 60 := by norm_num
  have c2 : (0 : ℚ) < 8725724278030337 / 140737488355328 := by norm_num
  simp only [floorStep64, f64_0_4, f64_0_6, f64_22_8, f64_57, f64_60, F64.zero_eq, F64.mul_mk,
    F64.sub_mk, F64.div_mk, F64.add_mk, F64.lt_mk, gt_iff_lt, fifty7_01, fifty7_02, fifty7_03,
    fifty7_04, fifty7_05, c1, c2, if_true]

/-- Second loop body in binary64 on that record: the target is 75, `DailyScore` becomes
87.00000000000001 and the recomputed `FinalScore` is 75.00000000000001. -/
theorem reshapeStep64_fifty7 (m : MathFns F64) (id name gender : String) (obj subj : F64) :
    reshapeStep64 m 0 1 ⟨id, name, gender, obj, subj, ⟨57⟩,
        ⟨8725724278030337 / 140737488355328⟩, ⟨60⟩⟩ =
      ⟨id, name, gender, obj, subj, ⟨57⟩, ⟨6122080743456769 / 70368744177664⟩,
        ⟨5277655813324801 / 70368744177664⟩⟩ := by
  have c1 : (60 : ℚ) < 75 := by norm_num
  have c2 : (8725724278030337 / 140737488355328 : ℚ) < 6122080743456769 / 70368744177664 := by
    norm_num
  have c3 : (6122080743456769 / 70368744177664 : ℚ) ≤ 100 := by norm_num
  simp only [reshapeStep64, targetScore64_single, f64_0_4, f64_0_6, f64_100, F64.mul_mk,
    F64.sub_mk, F64.div_mk, F64.add_mk, F64.lt_mk, F64.le_mk, gt_iff_lt, fifty7_01, fifty7_06,
    fifty7_07, fifty7_08, fifty7_09, c1, c2, c3, if_true, and_self]

theorem adjustScores64_fifty7 (srt : SliceSorter64) (m : MathFns F64)
    (id name gender : String) (obj subj : F64) :
    adjustScores64 srt m [⟨id, name, gender, obj, subj, 57, 0, 22.8⟩] =
      [⟨id, name, gender, obj, subj, ⟨57⟩, ⟨6122080743456769 / 70368744177664⟩,
        ⟨5277655813324801 / 70368744177664⟩⟩] := by
  rw [adjustScores64_singleton, floorStep64_fifty7, reshapeStep64_fifty7]

/-! ## binary64 evaluation of the central branch -/

/-- The binary64 code at `p = 0.95` (central branch; `math.Sqrt` and `math.Log` are not
called). -/
theorem inverseNormalCDF64_095 (m : MathFns F64) :
    inverseNormalCDF64 m ⟨(4278419646001971 / 4503599627370496)⟩ =
      ⟨(231492567913473 / 140737488355328)⟩ := by
  have c1 : ¬ (((4278419646001971 / 4503599627370496) : ℚ) ≤ 0) := by norm_num
  have c2 : ¬ ((1 : ℚ) ≤ (4278419646001971 / 4503599627370496)) := by norm_num
  have c3 : ¬ (((4278419646001971 / 4503599627370496) : ℚ) < (3494793310839505 / 144115188075855872)) := by
    norm_num
  have c4 : ((4278419646001971 / 4503599627370496) : ℚ) ≤ (8788774672813523 / 9007199254740992) := by
    norm_num
  simp only [inverseNormalCDF64, pLow64, pHigh64, a64, b64, f64_0_02425, f64_1, f64_0_5, F64.zero_eq,
    f64_3_969683028665376e01, f64_2_209460984245205e02, f64_2_759285104469687e02,
    f64_1_383577518672690e02, f64_3_066479806614716e01, f64_2_506628277459239e00,
    f64_5_447609879822406e01, f64_1_615858368580409e02, f64_1_556989798598866e02,
    f64_6_680131188771972e01, f64_1_328068155288572e01, F64.neg_mk, F64.sub_mk, F64.add_mk,
    F64.mul_mk, F64.div_mk, thr_01, F64.le_mk, F64.lt_mk, ge_iff_le, c1, c2, c3, c4, if_true,
    if_false, c95_01, c95_02, c95_03, c95_04, c95_05, c95_06, c95_07, c95_08, c95_09, c95_10,
    c95_11, c95_12, c95_13, c95_14, c95_15, c95_16, c95_17, c95_18, c95_19, c95_20, c95_21,
    c95_22, c95_23, c95_24]

/-- The binary64 code at `p = 0.950000000000001` (central branch; `math.Sqrt` and `math.Log` are not
called). -/
theorem inverseNormalCDF64_095b (m : MathFns F64) :
    inverseNormalCDF64 m ⟨(8556839292003951 / 9007199254740992)⟩ =
      ⟨(7407762173231041 / 4503599627370496)⟩ := by
  have c1 : ¬ (((8556839292003951 / 9007199254740992) : ℚ) ≤ 0) := by norm_num
  have c2 : ¬ ((1 : ℚ) ≤ (8556839292003951 / 9007199254740992)) := by norm_num
  have c3 : ¬ (((8556839292003951 / 9007199254740992) : ℚ) < (3494793310839505 / 144115188075855872)) := by
    norm_num
  have c4 : ((8556839292003951 / 9007199254740992) : ℚ) ≤ (8788774672813523 / 9007199254740992) := by
    norm_num
  simp only [inverseNormalCDF64, pLow64, pHigh64, a64, b64, f64_0_02425, f64_1, f64_0_5, F64.zero_eq,
    f64_3_969683028665376e01, f64_2_209460984245205e02, f64_2_759285104469687e02,
    f64_1_383577518672690e02, f64_3_066479806614716e01, f64_2_506628277459239e00,
    f64_5_447609879822406e01, f64_1_615858368580409e02, f64_1_556989798598866e02,
    f64_6_680131188771972e01, f64_1_328068155288572e01, F64.neg_mk, F64.sub_mk, F64.add_mk,
    F64.mul_mk, F64.div_mk, thr_01, F64.le_mk, F64.lt_mk, ge_iff_le, c1, c2, c3, c4, if_true,
    if_false, c95b_01, c95b_02, c95b_03, c95b_04, c95b_05, c95b_06, c95b_07, c95b_08, c95b_09,
    c95b_10, c95b_11, c95b_12, c95b_13, c95b_14, c95b_15, c95b_16, c95b_17, c95b_18, c95b_19,
    c95b_20, c95b_21, c95b_22, c95b_23, c95b_24]

/-- The binary64 code at `p = 0.05` (central branch; `math.Sqrt` and `math.Log` are not
called). -/
theorem inverseNormalCDF64_005 (m : MathFns F64) :
    inverseNormalCDF64 m ⟨(3602879701896397 / 72057594037927936)⟩ =
      ⟨-(7407762173231057 / 4503599627370496)⟩ := by
  have c1 : ¬ (((3602879701896397 / 72057594037927936) : ℚ) ≤ 0) := by norm_num
  have c2 : ¬ ((1 : ℚ) ≤ (3602879701896397 / 72057594037927936)) := by norm_num
  have c3 : ¬ (((3602879701896397 / 72057594037927936) : ℚ) < (3494793310839505 / 144115188075855872)) := by
    norm_num
  have c4 : ((3602879701896397 / 72057594037927936) : ℚ) ≤ (8788774672813523 / 9007199254740992) := by
    norm_num
  simp only [inverseNormalCDF64, pLow64, pHigh64, a64, b64, f64_0_02425, f64_1, f64_0_5, F64.zero_eq,
    f64_3_969683028665376e01, f64_2_209460984245205e02, f64_2_759285104469687e02,
    f64_1_383577518672690e02, f64_3_066479806614716e01, f64_2_506628277459239e00,
    f64_5_447609879822406e01, f64_1_615858368580409e02, f64_1_556989798598866e02,
    f64_6_680131188771972e01, f64_1_328068155288572e01, F64.neg_mk, F64.sub_mk, F64.add_mk,
    F64.mul_mk, F64.div_mk, thr_01, F64.le_mk, F64.lt_mk, ge_iff_le, c1, c2, c3, c4, if_true,
    if_false, c05_01, c05_02, c05_03, c05_04, c05_05, c05_06, c05_07, c05_08, c05_09, c05_10,
    c05_11, c95_12, c05_12, c05_13, c05_14, c05_15, c05_16, c05_17, c05_18, c05_19, c05_20,
    c05_21, c05_22, c05_23]

/-! ## binary64 rounding is odd -/

theorem roundHalfEven_spec (y : ℚ) :
    |y - roundHalfEven y| * 2 ≤ 1 ∧
      (|y - roundHalfEven y| * 2 = 1 → roundHalfEven y % 2 = 0) := by
  have hf1 : ((⌊y⌋ : ℤ) : ℚ) ≤ y := Int.floor_le y
  have hf2 : y < ((⌊y⌋ : ℤ) : ℚ) + 1 := Int.lt_floor_add_one y
  unfold roundHalfEven
  simp only
  generalize ⌊y⌋ = f at hf1 hf2
  by_cases h1 : y - (f : ℚ) < 1 / 2
  · rw [if_pos h1, abs_of_nonneg (by linarith)]
    exact ⟨by linarith, fun h => absurd h (by linarith)⟩
  · rw [if_neg h1]
    by_cases h2 : 1 / 2 < y - (f : ℚ)
    · rw [if_pos h2]
      have e : |y - ((f + 1 : ℤ) : ℚ)| = 1 - (y - f) := by
        push_cast
        rw [abs_of_neg (by linarith)]
        ring
      rw [e]
      exact ⟨by linarith, fun h => absurd h (by linarith)⟩
    · rw [if_neg h2]
      have hr : y - (f : ℚ) = 1 / 2 := by linarith
      by_cases h3 : f % 2 = 0
      · rw [if_pos h3, hr, abs_of_pos (by norm_num)]
        exact ⟨by norm_num, fun _ => h3⟩
      · rw [if_neg h3]
        have e : |y - ((f + 1 : ℤ) : ℚ)| = 1 / 2 := by
          push_cast
          rw [show y - ((f : ℚ) + 1) = -(1 / 2) by linarith, abs_neg,
            abs_of_pos (by norm_num)]
        rw [e]
        exact ⟨by norm_num, fun _ => by omega⟩

theorem roundHalfEven_opp (y : ℚ) : roundHalfEven (-y) = -roundHalfEven y := by
  obtain ⟨h1, h2⟩ := roundHalfEven_spec y
  have e : |(-y) - ((-roundHalfEven y : ℤ) : ℚ)| = |y - roundHalfEven y| := by
    push_cast
    rw [show -y - -(roundHalfEven y : ℚ) = -(y - roundHalfEven y) by ring, abs_neg]
  apply roundHalfEven_eq
  · rw [e]; exact h1
  · intro h
    rw [e] at h
    have := h2 h
    omega

/-- Rounding to binary64 commutes with negation. -/
theorem rnd_opp (x : ℚ) : rnd (-x) = -rnd x := by
  unfold rnd
  by_cases hx : x = 0
  · simp [hx]
  · rw [if_neg hx, if_neg (neg_ne_zero.mpr hx)]
    simp only [abs_neg, neg_div, roundHalfEven_opp]
    push_cast
    ring

theorem F64.opp_div (x y : F64) : (-x) / y = -(x / y) := by
  show F64.mk (rnd (-x.val / y.val)) = F64.mk (-rnd (x.val / y.val))
  rw [neg_div, rnd_opp]

theorem F64.mul_opp (x y : F64) : x * (-y) = -(x * y) := by
  show F64.mk (rnd (x.val * -y.val)) = F64.mk (-rnd (x.val * y.val))
  rw [mul_neg, rnd_opp]

theorem F64.opp_mul_opp (x : F64) : (-x) * (-x) = x * x := by
  show F64.mk (rnd (-x.val * -x.val)) = F64.mk (rnd (x.val * x.val))
  rw [neg_mul_neg]

/-! ## Symmetry of `inverseNormalCDF` in binary64 -/

theorem thresholds64 :
    (0 : F64) < pLow64 ∧ pLow64 < pHigh64 ∧ pHigh64 < 1 := by
  simp only [pHigh64, pLow64, f64_0_02425, f64_1, F64.zero_eq, F64.sub_mk, thr_01, F64.lt_mk]
  norm_num

/-- In binary64 the high-tail branch is exactly the negated low-tail branch at the computed
`1 - p`. -/
theorem inverseNormalCDF64_high_tail (m : MathFns F64) (p : F64)
    (hh : pHigh64 < p) (h1 : p < 1) (h0' : 0 < 1 - p) (hl' : 1 - p < pLow64) :
    inverseNormalCDF64 m p = -inverseNormalCDF64 m (1 - p) := by
  obtain ⟨t0, t1, t2⟩ := thresholds64
  have e0 : ¬ p ≤ 0 := not_le.mpr (show (0 : F64).val < p.val from
    lt_trans (lt_trans t0 t1) hh)
  have e1 : ¬ p ≥ 1 := not_le.mpr (show p.val < (1 : F64).val from h1)
  have el : ¬ p < pLow64 := not_lt.mpr (show pLow64.val ≤ p.val from
    le_of_lt (lt_trans t1 hh))
  have eh : ¬ p ≤ pHigh64 := not_le.mpr (show pHigh64.val < p.val from hh)
  have e0' : ¬ 1 - p ≤ 0 := not_le.mpr (show (0 : F64).val < (1 - p).val from h0')
  have e1' : ¬ 1 - p ≥ 1 := not_le.mpr (show (1 - p).val < (1 : F64).val from
    lt_trans hl' (lt_trans t1 t2))
  unfold inverseNormalCDF64
  rw [if_neg e0, if_neg e1, if_neg el, if_neg eh, if_neg e0', if_neg e1', if_pos hl']
  exact F64.opp_div _ _

/-- In binary64 the central branch is an odd function of `q = p - 0.5`. -/
theorem inverseNormalCDF64_central_odd (m : MathFns F64) (p p' : F64)
    (hl : pLow64 ≤ p) (hh : p ≤ pHigh64) (hl' : pLow64 ≤ p') (hh' : p' ≤ pHigh64)
    (hq : p' - 0.5 = -(p - 0.5)) :
    inverseNormalCDF64 m p' = -inverseNormalCDF64 m p := by
  obtain ⟨t0, t1, t2⟩ := thresholds64
  have e0 : ¬ p ≤ 0 := not_le.mpr (show (0 : F64).val < p.val from lt_of_lt_of_le t0 hl)
  have e1 : ¬ p ≥ 1 := not_le.mpr (show p.val < (1 : F64).val from lt_of_le_of_lt hh t2)
  have el : ¬ p < pLow64 := not_lt.mpr (show pLow64.val ≤ p.val from hl)
  have e0' : ¬ p' ≤ 0 := not_le.mpr (show (0 : F64).val < p'.val from lt_of_lt_of_le t0 hl')
  have e1' : ¬ p' ≥ 1 := not_le.mpr (show p'.val < (1 : F64).val from lt_of_le_of_lt hh' t2)
  have el' : ¬ p' < pLow64 := not_lt.mpr (show pLow64.val ≤ p'.val from hl')
  unfold inverseNormalCDF64
  rw [if_neg e0, if_neg e1, if_neg el, if_pos hh, if_neg e0', if_neg e1', if_neg el',
    if_pos hh']
  simp only [hq]
  generalize p - 0.5 = q
  simp only [F64.opp_mul_opp]
  rw [F64.mul_opp, F64.opp_div]

/-- C5, amended. In exact arithmetic `inverseNormalCDF p = -inverseNormalCDF (1 - p)` for
every `p` with `0 < p < 1`. In binary64 the equation holds exactly for a high-tail `p`
(`pHigh < p < 1`) whose computed `1 - p` is a low-tail input (`0 < 1 - p < pLow`), and in
the central region the value at `p'` is the negated value at `p` whenever the computed
`p' - 0.5` is `-(p - 0.5)`. -/
theorem inverseNormalCDF_mirror (m : MathFns F) (m64 : MathFns F64) :
    (∀ p : F, 0 < p → p < 1 → inverseNormalCDF m p = -inverseNormalCDF m (1 - p)) ∧
      (∀ p : F64, pHigh64 < p → p < 1 → 0 < 1 - p → 1 - p < pLow64 →
        inverseNormalCDF64 m64 p = -inverseNormalCDF64 m64 (1 - p)) ∧
      ∀ p p' : F64, pLow64 ≤ p → p ≤ pHigh64 → pLow64 ≤ p' → p' ≤ pHigh64 →
        p' - 0.5 = -(p - 0.5) → inverseNormalCDF64 m64 p' = -inverseNormalCDF64 m64 p :=
  ⟨fun p h0 h1 => inverseNormalCDF_neg_one_sub m p h0 h1,
    fun p hh h1 h0' hl' => inverseNormalCDF64_high_tail m64 p hh h1 h0' hl',
    fun p p' hl hh hl' hh' hq => inverseNormalCDF64_central_odd m64 p p' hl hh hl' hh' hq⟩

theorem inverseNormalCDF_mirror_witness :
    inverseNormalCDF (⟨Real.sqrt, Real.log⟩ : MathFns ℝ) (1 / 100) =
        -inverseNormalCDF (⟨Real.sqrt, Real.log⟩ : MathFns ℝ) (1 - 1 / 100) ∧
      inverseNormalCDF64 ⟨id, id⟩ 0.99 = -inverseNormalCDF64 ⟨id, id⟩ (1 - 0.99) ∧
      inverseNormalCDF64 ⟨id, id⟩ 0.75 = -inverseNormalCDF64 ⟨id, id⟩ 0.25 := by
  refine ⟨(inverseNormalCDF_mirror (⟨Real.sqrt, Real.log⟩ : MathFns ℝ) ⟨id, id⟩).1 (1 / 100)
      (by norm_num) (by norm_num),
    (inverseNormalCDF_mirror (⟨Real.sqrt, Real.log⟩ : MathFns ℝ) ⟨id, id⟩).2.1 0.99
      ?_ ?_ ?_ ?_,
    (inverseNormalCDF_mirror (⟨Real.sqrt, Real.log⟩ : MathFns ℝ) ⟨id, id⟩).2.2 0.25 0.75
      ?_ ?_ ?_ ?_ ?_⟩
  · simp only [pHigh64, pLow64, f64_0_02425, f64_1, f64_0_99, F64.sub_mk, thr_01, F64.lt_mk]
    norm_num
  · simp only [f64_1, f64_0_99, F64.lt_mk]
    norm_num
  · simp only [f64_1, f64_0_99, F64.zero_eq, F64.sub_mk, wit_01, F64.lt_mk]
    norm_num
  · simp only [pLow64, f64_0_02425, f64_1, f64_0_99, F64.sub_mk, wit_01, F64.lt_mk]
    norm_num
  · simp only [pLow64, f64_0_02425, f64_0_25, F64.le_mk]
    norm_num
  · simp only [pHigh64, pLow64, f64_0_02425, f64_1, f64_0_25, F64.sub_mk, thr_01, F64.le_mk]
    norm_num
  · simp only [pLow64, f64_0_02425, f64_0_75, F64.le_mk]
    norm_num
  · simp only [pHigh64, pLow64, f64_0_02425, f64_1, f64_0_75, F64.sub_mk, thr_01, F64.le_mk]
    norm_num
  · simp only [f64_0_25, f64_0_75, f64_0_5, F64.sub_mk, wit_02, wit_03, F64.neg_mk]
    norm_num

/-! ## The second loop in binary64 -/

theorem length_reshapeFrom64 (m : MathFns F64) (n : Nat) (l : List (Student F64)) (i : Nat) :
    (reshapeFrom64 m n i l).length = l.length := by
  induction l generalizing i with
  | nil => rfl
  | cons s rest ih => simp [reshapeFrom64, ih]

theorem getElem?_reshapeFrom64 (m : MathFns F64) (n : Nat) (l : List (Student F64))
    (i j : Nat) :
    (reshapeFrom64 m n i l)[j]? = (l[j]?).map (reshapeStep64 m (i + j) n) := by
  induction l generalizing i j with
  | nil => simp [reshapeFrom64]
  | cons s rest ih =>
    cases j with
    | zero => simp [reshapeFrom64]
    | succ j =>
      simp only [reshapeFrom64, List.getElem?_cons_succ, ih]
      rw [show i + 1 + j = i + (j + 1) by omega]

/-- The second loop's body in binary64 as one case split. -/
theorem reshapeStep64_eq (m : MathFns F64) (i n : Nat) (s : Student F64) :
    reshapeStep64 m i n s =
      if targetScore64 m i n > s.FinalScore ∧
          (targetScore64 m i n - s.TotalDuifenyi * 0.4) / 0.6 > s.DailyScore ∧
          (targetScore64 m i n - s.TotalDuifenyi * 0.4) / 0.6 ≤ 100 then
        { s with
          DailyScore := (targetScore64 m i n - s.TotalDuifenyi * 0.4) / 0.6
          FinalScore := s.TotalDuifenyi * 0.4 +
            (targetScore64 m i n - s.TotalDuifenyi * 0.4) / 0.6 * 0.6 }
      else s := by
  by_cases h1 : targetScore64 m i n > s.FinalScore
  · by_cases h2 : (targetScore64 m i n - s.TotalDuifenyi * 0.4) / 0.6 > s.DailyScore ∧
        (targetScore64 m i n - s.TotalDuifenyi * 0.4) / 0.6 ≤ 100
    · simp only [reshapeStep64, h1, h2, if_true, and_self]
    · simp only [reshapeStep64, h1, h2, if_true, if_false, true_and]
  · simp only [reshapeStep64, h1, if_false, false_and]

/-- The two range checks of `targetScore` in binary64 as one clamp. -/
theorem targetScore64_eq (m : MathFns F64) (i n : Nat) :
    targetScore64 m i n =
      if 75.0 + inverseNormalCDF64 m (F64.ofNat (i + 1) / F64.ofNat (n + 1)) * 8.0 < 60 then 60
      else if 75.0 + inverseNormalCDF64 m (F64.ofNat (i + 1) / F64.ofNat (n + 1)) * 8.0 > 100
        then 100
      else 75.0 + inverseNormalCDF64 m (F64.ofNat (i + 1) / F64.ofNat (n + 1)) * 8.0 := by
  have h : ¬ ((60 : F64) > 100) := by
    simp only [f64_60, f64_100, gt_iff_lt, F64.lt_mk]
    norm_num
  unfold targetScore64
  simp only
  by_cases h60 :
      75.0 + inverseNormalCDF64 m (F64.ofNat (i + 1) / F64.ofNat (n + 1)) * 8.0 < (60 : F64)
  · simp only [h60, h, if_true, if_false]
  · simp only [h60, if_false]

theorem reshape64_capped (srt : SliceSorter64) (m : MathFns F64)
    (students : List (Student F64)) :
    (adjustScores64 srt m students).length = (srt.sort (passingFloor64 students)).length ∧
      ∀ (i : Nat) (s s' : Student F64),
        (srt.sort (passingFloor64 students))[i]? = some s →
        (adjustScores64 srt m students)[i]? = some s' →
        (s'.DailyScore ≠ s.DailyScore →
          s.DailyScore < s'.DailyScore ∧ s'.DailyScore ≤ 100 ∧
            s'.DailyScore = (targetScore64 m i students.length - s.TotalDuifenyi * 0.4) / 0.6 ∧
            s'.FinalScore = s.TotalDuifenyi * 0.4 + s'.DailyScore * 0.6) ∧
        (s'.DailyScore = s.DailyScore → s' = s) := by
  refine ⟨length_reshapeFrom64 _ _ _ _, ?_⟩
  intro i s s' hs hs'
  have hlen : (srt.sort (passingFloor64 students)).length = students.length := by
    rw [(srt.perm _).length_eq]
    simp [passingFloor64]
  unfold adjustScores64 at hs'
  simp only [getElem?_reshapeFrom64, hs, Option.map_some', Option.some.injEq, zero_add, hlen]
    at hs'
  rw [reshapeStep64_eq] at hs'
  subst hs'
  split_ifs with h
  · refine ⟨fun _ => ⟨h.2.1, h.2.2, rfl, rfl⟩, fun he => ?_⟩
    have hlt : s.DailyScore.val <
        ((targetScore64 m i students.length - s.TotalDuifenyi * 0.4) / 0.6).val := h.2.1
    simp only at he
    rw [he] at hlt
    exact absurd hlt (lt_irrefl _)
  · exact ⟨fun hne => absurd rfl hne, fun _ => rfl⟩

/-! ## The arguments `adjustScores` passes to `inverseNormalCDF` -/

theorem targetScoreWith_congr (z z' : F → F) (i n : Nat)
    (h : z (((i + 1 : Nat) : F) / ((n + 1 : Nat) : F)) =
      z' (((i + 1 : Nat) : F) / ((n + 1 : Nat) : F))) :
    targetScoreWith z i n = targetScoreWith z' i n := by
  unfold targetScoreWith
  simp only [h]

theorem reshapeFromWith_congr (z z' : F → F) (n : Nat) (l : List (Student F)) (i : Nat)
    (h : ∀ j, i ≤ j → j < i + l.length →
      z (((j + 1 : Nat) : F) / ((n + 1 : Nat) : F)) =
        z' (((j + 1 : Nat) : F) / ((n + 1 : Nat) : F))) :
    reshapeFromWith z n i l = reshapeFromWith z' n i l := by
  induction l generalizing i with
  | nil => rfl
  | cons s rest ih =>
    have h0 := targetScoreWith_congr z z' i n
      (h i (le_refl _) (by simp only [List.length_cons]; omega))
    have hrest := ih (i + 1) (fun j hj1 hj2 =>
      h j (by omega) (by simp only [List.length_cons]; omega))
    simp only [reshapeFromWith, reshapeStepWith, h0, hrest]

theorem adjustScoresWith_congr (srt : SliceSorter F) (z z' : F → F)
    (students : List (Student F))
    (h : ∀ i, i < students.length →
      z (((i + 1 : Nat) : F) / ((students.length + 1 : Nat) : F)) =
        z' (((i + 1 : Nat) : F) / ((students.length + 1 : Nat) : F))) :
    adjustScoresWith srt z students = adjustScoresWith srt z' students := by
  have hlen : (srt.sort (passingFloor students)).length = students.length := by
    rw [(srt.perm _).length_eq]
    simp [passingFloor]
  unfold adjustScoresWith
  simp only [hlen]
  exact reshapeFromWith_congr z z' _ _ 0
    (fun j _ hj => h j (by rw [hlen] at hj; omega))

theorem reshapeFromWith_inverseNormalCDF (m : MathFns F) (n : Nat) (l : List (Student F))
    (i : Nat) : reshapeFromWith (inverseNormalCDF m) n i l = reshapeFrom m n i l := by
  induction l generalizing i with
  | nil => rfl
  | cons s rest ih =>
    simp only [reshapeFromWith, reshapeFrom, ih]
    rfl

theorem adjustScoresWith_inverseNormalCDF (srt : SliceSorter F) (m : MathFns F)
    (students : List (Student F)) :
    adjustScoresWith srt (inverseNormalCDF m) students = adjustScores srt m students := by
  unfold adjustScoresWith adjustScores
  simp only [reshapeFromWith_inverseNormalCDF]

/-! ## Claims decided by binary64 rounding -/

theorem consistent64_four : (1.6 : F64) = 4 * 0.4 + 0 * 0.6 := by
  simp only [f64_1_6, f64_4, f64_0_4, f64_0_6, F64.zero_eq, F64.mul_mk, F64.add_mk, four_01,
    zero_mul, rnd_zero, add_zero, four_08]

theorem consistent64_fifty7 : (22.8 : F64) = 57 * 0.4 + 0 * 0.6 := by
  simp only [f64_22_8, f64_57, f64_0_4, f64_0_6, F64.zero_eq, F64.mul_mk, F64.add_mk,
    fifty7_01, zero_mul, rnd_zero, add_zero, fifty7_10]

theorem below_sixty64 : (⟨8444249301319679 / 140737488355328⟩ : F64) < 60 := by
  simp only [f64_60, F64.lt_mk]
  norm_num

/-- C2. In binary64 the first loop does not reach 60 on the consistent record with
`TotalDuifenyi = 4`, `DailyScore = 0`, `FinalScore = 1.6 < 60`: it sets `DailyScore` to
97.33333333333333 and recomputes `FinalScore = 60 - 2^-47` (59.99999999999999), and for
every sorter that record leaves `adjustScores` with `FinalScore < 60`. -/
theorem passingFloor64_below_sixty :
    (1.6 : F64) = 4 * 0.4 + 0 * 0.6 ∧ (1.6 : F64) < 60 ∧
      passingFloor64 [⟨"1", "n", "g", 0, 0, 4, 0, 1.6⟩] =
        [⟨"1", "n", "g", 0, 0, ⟨4⟩, ⟨6849224433292629 / 70368744177664⟩,
          ⟨8444249301319679 / 140737488355328⟩⟩] ∧
      (8444249301319679 / 140737488355328 : ℚ) = 60 - 1 / 2 ^ 47 ∧
      (⟨8444249301319679 / 140737488355328⟩ : F64) < 60 ∧
      ∀ (srt : SliceSorter64) (m : MathFns F64),
        ∀ s' ∈ adjustScores64 srt m [⟨"1", "n", "g", 0, 0, 4, 0, 1.6⟩], s'.FinalScore < 60 := by
  refine ⟨consistent64_four, ?_, ?_, by norm_num, below_sixty64, ?_⟩
  · simp only [f64_1_6, f64_60, F64.lt_mk]
    norm_num
  · simp only [passingFloor64, List.map, floorStep64_four]
  · intro srt m s' hs'
    rw [adjustScores64_four, List.mem_singleton] at hs'
    rw [hs']
    exact below_sixty64

/-- C19. In binary64 the valid range is not preserved: the record with
`TotalDuifenyi = 4`, `DailyScore = 0`, `FinalScore = 1.6` has both inputs in `[0, 100]` and
a consistent `FinalScore`, and `adjustScores` returns it with `DailyScore`
97.33333333333333 and `FinalScore` 59.99999999999999, so `60 ≤ FinalScore` fails. -/
theorem adjustScores64_below_sixty (srt : SliceSorter64) (m : MathFns F64) :
    ((0 : F64) ≤ 4 ∧ (4 : F64) ≤ 100) ∧ ((0 : F64) ≤ 0 ∧ (0 : F64) ≤ 100) ∧
      (1.6 : F64) = 4 * 0.4 + 0 * 0.6 ∧
      adjustScores64 srt m [⟨"1", "n", "g", 0, 0, 4, 0, 1.6⟩] =
        [⟨"1", "n", "g", 0, 0, ⟨4⟩, ⟨6849224433292629 / 70368744177664⟩,
          ⟨8444249301319679 / 140737488355328⟩⟩] ∧
      ¬ ((60 : F64) ≤ ⟨8444249301319679 / 140737488355328⟩) := by
  refine ⟨⟨?_, ?_⟩, ⟨?_, ?_⟩, consistent64_four, adjustScores64_four srt m _ _ _ _ _, ?_⟩
  · simp only [f64_4, F64.zero_eq, F64.le_mk]; norm_num
  · simp only [f64_4, f64_100, F64.le_mk]; norm_num
  · simp only [F64.zero_eq, F64.le_mk]; norm_num
  · simp only [f64_100, F64.zero_eq, F64.le_mk]; norm_num
  · simp only [f64_60, F64.le_mk]; norm_num

theorem insertionSorter64_singleton (s : Student F64) : insertionSorter64.sort [s] = [s] :=
  List.perm_singleton.mp (insertionSorter64.perm _)

/-- C9, as stated, fails in binary64: on the one-record roster with `TotalDuifenyi = 57`,
`DailyScore = 0`, `FinalScore = 22.8` (consistent, below 60) the first loop leaves
`DailyScore` 62.00000000000001 and `FinalScore` 60; the second loop, for every sorter and
whatever `math.Sqrt` and `math.Log` return, changes `DailyScore` to 87.00000000000001, the
target of position 0 is 75, and the recomputed `FinalScore` is `75 + 2^-46`
(75.00000000000001), not the target. -/
theorem reshape64_final_misses_target :
    (22.8 : F64) = 57 * 0.4 + 0 * 0.6 ∧
      passingFloor64 [⟨"1", "n", "g", 0, 0, 57, 0, 22.8⟩] =
        [⟨"1", "n", "g", 0, 0, ⟨57⟩, ⟨8725724278030337 / 140737488355328⟩, ⟨60⟩⟩] ∧
      (⟨6122080743456769 / 70368744177664⟩ : F64) ≠ ⟨8725724278030337 / 140737488355328⟩ ∧
      (5277655813324801 / 70368744177664 : ℚ) = 75 + 1 / 2 ^ 46 ∧
      ∀ (srt : SliceSorter64) (m : MathFns F64),
        srt.sort (passingFloor64 [⟨"1", "n", "g", 0, 0, 57, 0, 22.8⟩]) =
          [⟨"1", "n", "g", 0, 0, ⟨57⟩, ⟨8725724278030337 / 140737488355328⟩, ⟨60⟩⟩] ∧
        adjustScores64 srt m [⟨"1", "n", "g", 0, 0, 57, 0, 22.8⟩] =
          [⟨"1", "n", "g", 0, 0, ⟨57⟩, ⟨6122080743456769 / 70368744177664⟩,
            ⟨5277655813324801 / 70368744177664⟩⟩] ∧
        targetScore64 m 0 1 = ⟨75⟩ ∧
        (⟨5277655813324801 / 70368744177664⟩ : F64) ≠ targetScore64 m 0 1 := by
  have hfloor : passingFloor64 [⟨"1", "n", "g", 0, 0, 57, 0, 22.8⟩] =
      [⟨"1", "n", "g", 0, 0, ⟨57⟩, ⟨8725724278030337 / 140737488355328⟩, ⟨60⟩⟩] := by
    simp only [passingFloor64, List.map, floorStep64_fifty7]
  refine ⟨consistent64_fifty7, hfloor, ?_, by norm_num, ?_⟩
  · intro h
    have := congrArg F64.val h
    norm_num at this
  · intro srt m
    refine ⟨?_, adjustScores64_fifty7 _ _ _ _ _ _ _, targetScore64_single _, ?_⟩
    · rw [hfloor]
      exact List.perm_singleton.mp (srt.perm _)
    · rw [targetScore64_single]
      intro h
      have := congrArg F64.val h
      norm_num at this

/-- C5, as stated, fails in binary64: at `p = 0.05` (where `1 - p` is computed as `0.95`,
both in the central region, which calls neither `math.Sqrt` nor `math.Log`) the code
returns `-1.6448536251336814` for `p` and `1.644853625133699` for `1 - p`. -/
theorem inverseNormalCDF64_symm_fails :
    (0 : F64) < 0.05 ∧ (0.05 : F64) < 1 ∧
      ∀ m : MathFns F64,
        inverseNormalCDF64 m 0.05 = ⟨-(7407762173231057 / 4503599627370496)⟩ ∧
        -inverseNormalCDF64 m (1 - 0.05) = ⟨-(231492567913473 / 140737488355328)⟩ ∧
        inverseNormalCDF64 m 0.05 ≠ -inverseNormalCDF64 m (1 - 0.05) := by
  refine ⟨?_, ?_, ?_⟩
  · simp only [f64_0_05, F64.zero_eq, F64.lt_mk]; norm_num
  · simp only [f64_0_05, f64_1, F64.lt_mk]; norm_num
  · intro m
    have e1 : inverseNormalCDF64 m 0.05 = ⟨-(7407762173231057 / 4503599627370496)⟩ := by
      rw [f64_0_05, inverseNormalCDF64_005]
    have e2 : -inverseNormalCDF64 m (1 - 0.05) =
        ⟨-(231492567913473 / 140737488355328)⟩ := by
      rw [f64_0_05, f64_1, F64.sub_mk, thr2_01, inverseNormalCDF64_095, F64.neg_mk]
    refine ⟨e1, e2, ?_⟩
    rw [e1, e2]
    intro h
    have := congrArg F64.val h
    norm_num at this

/-- C6, as stated, fails in binary64: `0.95 < 0.950000000000001`, both in the central
region (which calls neither `math.Sqrt` nor `math.Log`), and the code returns
`1.644853625133699` at the first and the smaller `1.6448536251336778` at the second. -/
theorem inverseNormalCDF64_not_increasing :
    (0 : F64) < 0.95 ∧ (0.95 : F64) < 0.950000000000001 ∧ (0.950000000000001 : F64) < 1 ∧
      ∀ m : MathFns F64,
        inverseNormalCDF64 m 0.95 = ⟨231492567913473 / 140737488355328⟩ ∧
        inverseNormalCDF64 m 0.950000000000001 = ⟨7407762173231041 / 4503599627370496⟩ ∧
        inverseNormalCDF64 m 0.950000000000001 < inverseNormalCDF64 m 0.95 := by
  refine ⟨?_, ?_, ?_, ?_⟩
  · simp only [f64_0_95, F64.zero_eq, F64.lt_mk]; norm_num
  · simp only [f64_0_95, f64_0_950000000000001, F64.lt_mk]; norm_num
  · simp only [f64_0_950000000000001, f64_1, F64.lt_mk]; norm_num
  · intro m
    have e1 : inverseNormalCDF64 m 0.95 = ⟨231492567913473 / 140737488355328⟩ := by
      rw [f64_0_95, inverseNormalCDF64_095]
    have e2 : inverseNormalCDF64 m 0.950000000000001 =
        ⟨7407762173231041 / 4503599627370496⟩ := by
      rw [f64_0_950000000000001, inverseNormalCDF64_095b]
    refine ⟨e1, e2, ?_⟩
    rw [e1, e2, F64.lt_mk]
    norm_num

/-- C9, amended. The second loop caps the daily score: with `s` the record at index `i` of
the sorted slice and `s'` the record at index `i` of the result, if `DailyScore` changed
then it grew, is at most 100 and is `(target - TotalDuifenyi*0.4)/0.6` for the target
`clamp(75 + 8*inverseNormalCDF((i+1)/(n+1)), 60, 100)`, and `FinalScore` is recomputed as
`TotalDuifenyi*0.4 + DailyScore*0.6`; otherwise the record is as the first loop left it.
This holds in binary64 (first part); in exact arithmetic (last part) the recomputed
`FinalScore` is the target itself. The result has as many records as the sorted slice. -/
theorem adjustScores_reshape_capped (srt : SliceSorter F) (m : MathFns F)
    (students : List (Student F)) (srt64 : SliceSorter64) (m64 : MathFns F64)
    (students64 : List (Student F64)) :
    ((adjustScores64 srt64 m64 students64).length =
        (srt64.sort (passingFloor64 students64)).length ∧
      ∀ (i : Nat) (s s' : Student F64),
        (srt64.sort (passingFloor64 students64))[i]? = some s →
        (adjustScores64 srt64 m64 students64)[i]? = some s' →
        (s'.DailyScore ≠ s.DailyScore →
          s.DailyScore < s'.DailyScore ∧ s'.DailyScore ≤ 100 ∧
            s'.DailyScore =
              (targetScore64 m64 i students64.length - s.TotalDuifenyi * 0.4) / 0.6 ∧
            s'.FinalScore = s.TotalDuifenyi * 0.4 + s'.DailyScore * 0.6) ∧
        (s'.DailyScore = s.DailyScore → s' = s)) ∧
      (∀ i n : Nat, targetScore64 m64 i n =
        if 75.0 + inverseNormalCDF64 m64 (F64.ofNat (i + 1) / F64.ofNat (n + 1)) * 8.0 < 60
          then 60
        else if
            75.0 + inverseNormalCDF64 m64 (F64.ofNat (i + 1) / F64.ofNat (n + 1)) * 8.0 > 100
          then 100
        else 75.0 + inverseNormalCDF64 m64 (F64.ofNat (i + 1) / F64.ofNat (n + 1)) * 8.0) ∧
      ((adjustScores srt m students).length = (srt.sort (passingFloor students)).length ∧
        ∀ (i : Nat) (s s' : Student F),
          (srt.sort (passingFloor students))[i]? = some s →
          (adjustScores srt m students)[i]? = some s' →
          (s'.DailyScore ≠ s.DailyScore →
            s.DailyScore < s'.DailyScore ∧ s'.DailyScore ≤ 100 ∧
              s'.FinalScore =
                max 60 (min (75 + 8 * inverseNormalCDF m
                  (((i : F) + 1) / ((students.length : F) + 1))) 100)) ∧
          (s'.DailyScore = s.DailyScore → s' = s)) :=
  ⟨reshape64_capped srt64 m64 students64, fun i n => targetScore64_eq m64 i n,
    reshape_capped_exact srt m students⟩

theorem adjustScores_reshape_capped_witness :
    ((insertionSorter64.sort (passingFloor64 [⟨"1", "n", "g", 0, 0, 57, 0, 22.8⟩]))[0]? =
        some ⟨"1", "n", "g", 0, 0, ⟨57⟩, ⟨8725724278030337 / 140737488355328⟩, ⟨60⟩⟩ ∧
      (adjustScores64 insertionSorter64 ⟨id, id⟩ [⟨"1", "n", "g", 0, 0, 57, 0, 22.8⟩])[0]? =
        some ⟨"1", "n", "g", 0, 0, ⟨57⟩, ⟨6122080743456769 / 70368744177664⟩,
          ⟨5277655813324801 / 70368744177664⟩⟩ ∧
      (⟨6122080743456769 / 70368744177664⟩ : F64) ≠ ⟨8725724278030337 / 140737488355328⟩ ∧
      (⟨8725724278030337 / 140737488355328⟩ : F64) < ⟨6122080743456769 / 70368744177664⟩ ∧
      (⟨6122080743456769 / 70368744177664⟩ : F64) ≤ 100 ∧
      (⟨6122080743456769 / 70368744177664⟩ : F64) =
        (targetScore64 ⟨id, id⟩ 0
          [(⟨"1", "n", "g", 0, 0, 57, 0, 22.8⟩ : Student F64)].length - ⟨57⟩ * 0.4) / 0.6 ∧
      (⟨5277655813324801 / 70368744177664⟩ : F64) =
        ⟨57⟩ * 0.4 + ⟨6122080743456769 / 70368744177664⟩ * 0.6) ∧
      ((insertionSorter.sort
          (passingFloor [(⟨"1", "n", "g", 0, 0, 50, 50, 50⟩ : Student ℚ)]))[0]? =
        some ⟨"1", "n", "g", 0, 0, 50, 200 / 3, 60⟩ ∧
      (adjustScores insertionSorter ⟨id, id⟩
          [(⟨"1", "n", "g", 0, 0, 50, 50, 50⟩ : Student ℚ)])[0]? =
        some ⟨"1", "n", "g", 0, 0, 50, 275 / 3, 75⟩ ∧
      (200 / 3 : ℚ) < 275 / 3 ∧ (275 / 3 : ℚ) ≤ 100 ∧
      (75 : ℚ) = max 60 (min (75 + 8 * inverseNormalCDF ⟨id, id⟩
        ((((0 : Nat) : ℚ) + 1) / ((([(⟨"1", "n", "g", 0, 0, 50, 50, 50⟩ :
          Student ℚ)].length : Nat) : ℚ) + 1))) 100)) := by
  have g1 : (insertionSorter64.sort
      (passingFloor64 [⟨"1", "n", "g", 0, 0, 57, 0, 22.8⟩]))[0]? =
      some ⟨"1", "n", "g", 0, 0, ⟨57⟩, ⟨8725724278030337 / 140737488355328⟩, ⟨60⟩⟩ := by
    simp only [passingFloor64, List.map, floorStep64_fifty7, insertionSorter64_singleton]
    rfl
  have g2 : (adjustScores64 insertionSorter64 ⟨id, id⟩
      [⟨"1", "n", "g", 0, 0, 57, 0, 22.8⟩])[0]? =
      some ⟨"1", "n", "g", 0, 0, ⟨57⟩, ⟨6122080743456769 / 70368744177664⟩,
        ⟨5277655813324801 / 70368744177664⟩⟩ := by
    rw [adjustScores64_fifty7]
    rfl
  have g3 : (⟨6122080743456769 / 70368744177664⟩ : F64) ≠
      ⟨8725724278030337 / 140737488355328⟩ := by
    intro h
    have := congrArg F64.val h
    norm_num at this
  have h1 : (insertionSorter.sort
      (passingFloor [(⟨"1", "n", "g", 0, 0, 50, 50, 50⟩ : Student ℚ)]))[0]? =
      some ⟨"1", "n", "g", 0, 0, 50, 200 / 3, 60⟩ := by
    simp only [passingFloor, List.map, floorStep_fifty]
    rfl
  have h2 : (adjustScores insertionSorter ⟨id, id⟩
      [(⟨"1", "n", "g", 0, 0, 50, 50, 50⟩ : Student ℚ)])[0]? =
      some ⟨"1", "n", "g", 0, 0, 50, 275 / 3, 75⟩ := by
    rw [adjustScores_fifty]
    rfl
  exact ⟨⟨g1, g2, g3,
      ((adjustScores_reshape_capped insertionSorter ⟨id, id⟩
        [(⟨"1", "n", "g", 0, 0, 50, 50, 50⟩ : Student ℚ)] insertionSorter64 ⟨id, id⟩
        [⟨"1", "n", "g", 0, 0, 57, 0, 22.8⟩]).1.2 0 _ _ g1 g2).1 g3⟩,
    h1, h2,
    ((adjustScores_reshape_capped insertionSorter ⟨id, id⟩
      [(⟨"1", "n", "g", 0, 0, 50, 50, 50⟩ : Student ℚ)] insertionSorter64 ⟨id, id⟩
      [⟨"1", "n", "g", 0, 0, 57, 0, 22.8⟩]).2.2.2 0 _ _ h1 h2).1 (by norm_num)⟩

/-! ## The percentile in binary64 -/

theorem rnd_near (x : ℚ) (hx : 0 < x) (hmin : (2 : ℚ) ^ (-1022 : ℤ) ≤ x) :
    |x - rnd x| * 2 ≤ (2 : ℚ) ^ (Int.log 2 x - 52) := by
  have hlo : (2 : ℚ) ^ (Int.log 2 x - 52 + 52) ≤ |x| := by
    rw [abs_of_pos hx, sub_add_cancel]
    exact_mod_cast Int.zpow_log_le_self (b := 2) (by norm_num) hx
  have hhi : |x| < (2 : ℚ) ^ (Int.log 2 x - 52 + 53) := by
    rw [abs_of_pos hx, show Int.log 2 x - 52 + 53 = Int.log 2 x + 1 by ring]
    exact_mod_cast Int.lt_zpow_succ_log_self (b := 2) (by norm_num) x
  have hk : -1074 ≤ Int.log 2 x - 52 := by
    have : (-1022 : ℤ) ≤ Int.log 2 x :=
      (Int.zpow_le_iff_le_log (b := 2) (by norm_num) hx).mp (by exact_mod_cast hmin)
    omega
  have hu : (0 : ℚ) < 2 ^ (Int.log 2 x - 52) := by positivity
  obtain ⟨h1, h2⟩ := roundHalfEven_spec (x / 2 ^ (Int.log 2 x - 52))
  have habs : |x - (roundHalfEven (x / 2 ^ (Int.log 2 x - 52)) : ℚ) * 2 ^ (Int.log 2 x - 52)| =
      |x / 2 ^ (Int.log 2 x - 52) - roundHalfEven (x / 2 ^ (Int.log 2 x - 52))| *
        2 ^ (Int.log 2 x - 52) := by
    rw [← abs_of_pos hu, ← abs_mul, abs_of_pos hu]
    congr 1
    field_simp
    ring
  have hm : |x - (roundHalfEven (x / 2 ^ (Int.log 2 x - 52)) : ℚ) * 2 ^ (Int.log 2 x - 52)| * 2 ≤
      2 ^ (Int.log 2 x - 52) := by
    rw [habs]
    nlinarith [h1, hu]
  have e := rnd_eq x (Int.log 2 x - 52) (roundHalfEven (x / 2 ^ (Int.log 2 x - 52))) hk hlo hhi
    hm (by
      intro ht
      apply h2
      rw [habs] at ht
      have : |x / 2 ^ (Int.log 2 x - 52) - roundHalfEven (x / 2 ^ (Int.log 2 x - 52))| * 2 *
          2 ^ (Int.log 2 x - 52) = 1 * 2 ^ (Int.log 2 x - 52) := by linarith
      exact mul_right_cancel₀ (ne_of_gt hu) this)
  rw [e]
  exact hm

/-- Conversion of an integer below `2^53` to binary64 is exact. -/
theorem rnd_natCast (n : ℕ) (h : n < 2 ^ 53) : rnd (n : ℚ) = n := by
  rcases Nat.eq_zero_or_pos n with rfl | hpos
  · simp [rnd_zero]
  have hL : Nat.log 2 n ≤ 52 := by
    have := Nat.log_lt_of_lt_pow (b := 2) (by omega) h
    omega
  have h1 : 2 ^ Nat.log 2 n ≤ n := Nat.pow_log_le_self 2 (by omega)
  have h2 : n < 2 ^ (Nat.log 2 n + 1) := Nat.lt_pow_succ_log_self (by norm_num) n
  generalize Nat.log 2 n = L at hL h1 h2
  have hm : (((n * 2 ^ (52 - L) : ℕ) : ℤ) : ℚ) * (2 : ℚ) ^ ((L : ℤ) - 52) = n := by
    push_cast
    rw [mul_assoc, ← zpow_natCast (2 : ℚ) (52 - L), ← zpow_add₀ (by norm_num : (2 : ℚ) ≠ 0),
      Nat.cast_sub hL]
    norm_num
  have hu : (0 : ℚ) < 2 ^ ((L : ℤ) - 52) := by positivity
  have e := rnd_pos (n : ℚ) ((L : ℤ) - 52) ((n * 2 ^ (52 - L) : ℕ) : ℤ) (by omega)
    (by
      rw [sub_add_cancel, zpow_natCast]
      exact_mod_cast h1)
    (by
      rw [show (L : ℤ) - 52 + 53 = ((L + 1 : ℕ) : ℤ) by push_cast; ring, zpow_natCast]
      exact_mod_cast h2)
    (Or.inl ⟨by rw [hm]; simpa using hu, by rw [hm]; simpa using hu⟩)
  rw [e, hm]

/-- In binary64 the quotient of two integers `0 < a < b < 2^53` is strictly between 0 and
1: `a/b` is at least `2^-53` away from 0 and from 1 and rounding moves it by at most
`2^-54`. -/
theorem rnd_div_pos_lt_one (a b : ℕ) (ha : 0 < a) (hab : a < b) (hb : b < 2 ^ 53) :
    0 < rnd ((a : ℚ) / b) ∧ rnd ((a : ℚ) / b) < 1 := by
  have hbpos : (0 : ℚ) < b := by exact_mod_cast (lt_trans ha hab)
  have hb' : (b : ℚ) < 2 ^ 53 := by exact_mod_cast hb
  have hx : (0 : ℚ) < (a : ℚ) / b := div_pos (by exact_mod_cast ha) hbpos
  have hx1 : (a : ℚ) / b < 1 := (div_lt_one hbpos).mpr (by exact_mod_cast hab)
  have hlow : (1 : ℚ) / 2 ^ 53 < (a : ℚ) / b := by
    rw [div_lt_div_iff₀ (by positivity) hbpos]
    have : (1 : ℚ) ≤ a := by exact_mod_cast ha
    nlinarith
  have hupp : (a : ℚ) / b < 1 - 1 / 2 ^ 53 := by
    have hab' : (a : ℚ) + 1 ≤ b := by exact_mod_cast hab
    have : (a : ℚ) / b ≤ 1 - 1 / b := by
      rw [one_sub_div (ne_of_gt hbpos)]
      exact div_le_div_of_nonneg_right (by linarith) (le_of_lt hbpos)
    have h2 : (1 : ℚ) / 2 ^ 53 < 1 / b := one_div_lt_one_div_of_lt hbpos hb'
    linarith
  have hmin : (2 : ℚ) ^ (-1022 : ℤ) ≤ (a : ℚ) / b := by
    refine le_trans ?_ (le_of_lt hlow)
    rw [one_div, ← zpow_natCast, ← zpow_neg]
    exact zpow_le_zpow_right₀ (by norm_num) (by norm_num)
  have hnear := rnd_near _ hx hmin
  have hlog : Int.log 2 ((a : ℚ) / b) < 0 :=
    (Int.lt_zpow_iff_log_lt (b := 2) (by norm_num) hx).mp (by simpa using hx1)
  have hle : (2 : ℚ) ^ (Int.log 2 ((a : ℚ) / b)) ≤ (a : ℚ) / b := by
    exact_mod_cast Int.zpow_log_le_self (b := 2) (by norm_num) hx
  generalize Int.log 2 ((a : ℚ) / b) = e at hnear hlog hle
  generalize (a : ℚ) / b = x at *
  have hu1 : (2 : ℚ) ^ (e - 52) ≤ 1 / 2 ^ 53 := by
    rw [one_div, ← zpow_natCast, ← zpow_neg]
    exact zpow_le_zpow_right₀ (by norm_num) (by push_cast; omega)
  have hu2 : (2 : ℚ) ^ (e - 52) = 2 ^ e / 2 ^ 52 := by
    rw [zpow_sub₀ (by norm_num)]
    norm_num
  have hpow : (0 : ℚ) < 2 ^ e := by positivity
  have habs := abs_le.mp (show |x - rnd x| ≤ 2 ^ (e - 52) / 2 by linarith)
  constructor
  · have : (2 : ℚ) ^ (e - 52) / 2 < x := by
      rw [hu2]
      have : (2 : ℚ) ^ e / 2 ^ 52 / 2 < 2 ^ e := by
        rw [div_div, div_lt_iff₀ (by positivity)]
        nlinarith
      linarith
    linarith [habs.2]
  · have : (2 : ℚ) ^ (e - 52) / 2 < 1 / 2 ^ 53 := by
      have : (0 : ℚ) < 2 ^ (e - 52) := by positivity
      linarith
    linarith [habs.1]

theorem F64.ofNat_eq (n : ℕ) (h : n < 2 ^ 53) : F64.ofNat n = ⟨n⟩ := by
  show F64.mk (rnd (n : ℚ)) = ⟨n⟩
  rw [rnd_natCast n h]

/-- In binary64 the percentile `float64(i+1) / float64(n+1)` of a position `i < n` of a
slice of fewer than `2^53 - 1` records is strictly between 0 and 1. -/
theorem percentile64_pos_lt_one (i n : Nat) (h : i < n) (hn : n + 1 < 2 ^ 53) :
    (0 : F64) < F64.ofNat (i + 1) / F64.ofNat (n + 1) ∧
      F64.ofNat (i + 1) / F64.ofNat (n + 1) < 1 := by
  rw [F64.ofNat_eq (i + 1) (by omega), F64.ofNat_eq (n + 1) hn, F64.div_mk, F64.zero_eq, f64_1,
    F64.lt_mk, F64.lt_mk]
  exact rnd_div_pos_lt_one (i + 1) (n + 1) (by omega) (by omega) hn

theorem targetScoreWith64_congr (z z' : F64 → F64) (i n : Nat)
    (h : z (F64.ofNat (i + 1) / F64.ofNat (n + 1)) =
      z' (F64.ofNat (i + 1) / F64.ofNat (n + 1))) :
    targetScoreWith64 z i n = targetScoreWith64 z' i n := by
  unfold targetScoreWith64
  simp only [h]

theorem reshapeFromWith64_congr (z z' : F64 → F64) (n : Nat) (l : List (Student F64))
    (i : Nat)
    (h : ∀ j, i ≤ j → j < i + l.length →
      z (F64.ofNat (j + 1) / F64.ofNat (n + 1)) =
        z' (F64.ofNat (j + 1) / F64.ofNat (n + 1))) :
    reshapeFromWith64 z n i l = reshapeFromWith64 z' n i l := by
  induction l generalizing i with
  | nil => rfl
  | cons s rest ih =>
    have h0 := targetScoreWith64_congr z z' i n
      (h i (le_refl _) (by simp only [List.length_cons]; omega))
    have hrest := ih (i + 1) (fun j hj1 hj2 =>
      h j (by omega) (by simp only [List.length_cons]; omega))
    simp only [reshapeFromWith64, reshapeStepWith64, h0, hrest]

theorem adjustScoresWith64_congr (srt : SliceSorter64) (z z' : F64 → F64)
    (students : List (Student F64))
    (h : ∀ i, i < students.length →
      z (F64.ofNat (i + 1) / F64.ofNat (students.length + 1)) =
        z' (F64.ofNat (i + 1) / F64.ofNat (students.length + 1))) :
    adjustScoresWith64 srt z students = adjustScoresWith64 srt z' students := by
  have hlen : (srt.sort (passingFloor64 students)).length = students.length := by
    rw [(srt.perm _).length_eq]
    simp [passingFloor64]
  unfold adjustScoresWith64
  simp only [hlen]
  exact reshapeFromWith64_congr z z' _ _ 0
    (fun j _ hj => h j (by rw [hlen] at hj; omega))

theorem reshapeFromWith64_inverseNormalCDF64 (m : MathFns F64) (n : Nat)
    (l : List (Student F64)) (i : Nat) :
    reshapeFromWith64 (inverseNormalCDF64 m) n i l = reshapeFrom64 m n i l := by
  induction l generalizing i with
  | nil => rfl
  | cons s rest ih =>
    simp only [reshapeFromWith64, reshapeFrom64, ih]
    rfl

theorem adjustScoresWith64_inverseNormalCDF64 (srt : SliceSorter64) (m : MathFns F64)
    (students : List (Student F64)) :
    adjustScoresWith64 srt (inverseNormalCDF64 m) students = adjustScores64 srt m students := by
  unfold adjustScoresWith64 adjustScores64
  simp only [reshapeFromWith64_inverseNormalCDF64]

/-- In binary64, on a roster of fewer than `2^53 - 1` records, `adjustScores` never reaches
the sentinel returns of `inverseNormalCDF`: replacing them by arbitrary values `lo` and
`hi` leaves the result unchanged. -/
theorem adjustScores64_sentinel_free (srt : SliceSorter64) (m : MathFns F64)
    (students : List (Student F64)) (hn : students.length + 1 < 2 ^ 53) (lo hi : F64) :
    adjustScoresWith64 srt
        (fun p => if p ≤ 0 then lo else if p ≥ 1 then hi else inverseNormalCDF64 m p)
        students =
      adjustScores64 srt m students := by
  rw [← adjustScoresWith64_inverseNormalCDF64]
  apply adjustScoresWith64_congr
  intro i hi'
  obtain ⟨h0, h1⟩ := percentile64_pos_lt_one i students.length hi' hn
  have e0 : ¬ F64.ofNat (i + 1) / F64.ofNat (students.length + 1) ≤ 0 :=
    not_le.mpr (show (0 : F64).val < _ from h0)
  have e1 : ¬ F64.ofNat (i + 1) / F64.ofNat (students.length + 1) ≥ 1 :=
    not_le.mpr (show _ < (1 : F64).val from h1)
  simp only [if_neg e0, if_neg e1]

/-- C17. The sentinel clamps are unreachable from `adjustScores`. The only arguments
`adjustScores` passes to `inverseNormalCDF` on a roster of `n` records are the percentiles
`(i+1)/(n+1)` with `i < n`: answering the call by any `z` that agrees with
`inverseNormalCDF` at those points gives the result of `adjustScores`, in particular when
the two sentinel returns `-10` and `10` are replaced by arbitrary values `lo` and `hi`.
Each such percentile lies strictly between 0 and 1, where `inverseNormalCDF` returns one
of the three approximation branches, and the divisor `n+1` is never zero, also for
`n = 0`. The same holds in binary64 for every roster whose `n+1` is below `2^53` (where
`float64(i+1)` and `float64(n+1)` are exact): the computed percentile is strictly between
0 and 1 and replacing the sentinel returns leaves the result of `adjustScores` unchanged. -/
theorem adjustScores_avoids_sentinels (srt : SliceSorter F) (m : MathFns F)
    (students : List (Student F)) (srt64 : SliceSorter64) (m64 : MathFns F64)
    (students64 : List (Student F64)) :
    (∀ z : F → F,
        (∀ i, i < students.length →
          z (((i + 1 : Nat) : F) / ((students.length + 1 : Nat) : F)) =
            inverseNormalCDF m (((i + 1 : Nat) : F) / ((students.length + 1 : Nat) : F))) →
        adjustScoresWith srt z students = adjustScores srt m students) ∧
      (∀ lo hi : F,
        adjustScoresWith srt
            (fun p => if p ≤ 0 then lo else if p ≥ 1 then hi else inverseNormalCDF m p)
            students =
          adjustScores srt m students) ∧
      (∀ i, i < students.length →
        (0 : F) < ((i + 1 : Nat) : F) / ((students.length + 1 : Nat) : F) ∧
          ((i + 1 : Nat) : F) / ((students.length + 1 : Nat) : F) < 1 ∧
          inverseNormalCDF m (((i + 1 : Nat) : F) / ((students.length + 1 : Nat) : F)) =
            (if ((i + 1 : Nat) : F) / ((students.length + 1 : Nat) : F) < pLow then
              tailNum (m.Sqrt (-2 * m.Log
                  (((i + 1 : Nat) : F) / ((students.length + 1 : Nat) : F)))) /
                tailDen (m.Sqrt (-2 * m.Log
                  (((i + 1 : Nat) : F) / ((students.length + 1 : Nat) : F))))
            else if ((i + 1 : Nat) : F) / ((students.length + 1 : Nat) : F) ≤ pHigh then
              centralValue (((i + 1 : Nat) : F) / ((students.length + 1 : Nat) : F) - 0.5)
            else
              (-tailNum (m.Sqrt (-2 * m.Log
                  (1 - ((i + 1 : Nat) : F) / ((students.length + 1 : Nat) : F))))) /
                tailDen (m.Sqrt (-2 * m.Log
                  (1 - ((i + 1 : Nat) : F) / ((students.length + 1 : Nat) : F)))))) ∧
      ((students.length + 1 : Nat) : F) ≠ 0 ∧
      (((([] : List (Student F)).length + 1 : Nat) : F) ≠ 0 ∧
        adjustScores srt m ([] : List (Student F)) = []) ∧
      (students64.length + 1 < 2 ^ 53 →
        (∀ i, i < students64.length →
          (0 : F64) < F64.ofNat (i + 1) / F64.ofNat (students64.length + 1) ∧
            F64.ofNat (i + 1) / F64.ofNat (students64.length + 1) < 1) ∧
        ∀ lo hi : F64,
          adjustScoresWith64 srt64
              (fun p => if p ≤ 0 then lo else if p ≥ 1 then hi else inverseNormalCDF64 m64 p)
              students64 =
            adjustScores64 srt64 m64 students64) := by
  have hcong : ∀ z : F → F,
      (∀ i, i < students.length →
        z (((i + 1 : Nat) : F) / ((students.length + 1 : Nat) : F)) =
          inverseNormalCDF m (((i + 1 : Nat) : F) / ((students.length + 1 : Nat) : F))) →
      adjustScoresWith srt z students = adjustScores srt m students := by
    intro z hz
    rw [← adjustScoresWith_inverseNormalCDF]
    exact adjustScoresWith_congr srt z _ students hz
  refine ⟨hcong, ?_, ?_, ?_, ⟨?_, ?_⟩, ?_⟩
  · intro lo hi
    apply hcong
    intro i hi'
    obtain ⟨h0, h1⟩ := percentile_pos_lt_one (F := F) i students.length hi'
    simp only [if_neg (not_le.mpr h0), if_neg (not_le.mpr h1)]
  · intro i hi
    obtain ⟨h0, h1⟩ := percentile_pos_lt_one (F := F) i students.length hi
    refine ⟨h0, h1, ?_⟩
    unfold inverseNormalCDF
    rw [if_neg (not_le.mpr h0), if_neg (not_le.mpr h1)]
    rfl
  · exact_mod_cast Nat.succ_ne_zero students.length
  · exact_mod_cast Nat.succ_ne_zero 0
  · have h := length_adjustScores srt m ([] : List (Student F))
    exact List.length_eq_zero.mp h
  · intro hn
    exact ⟨fun i hi => percentile64_pos_lt_one i students64.length hi hn,
      fun lo hi => adjustScores64_sentinel_free srt64 m64 students64 hn lo hi⟩

theorem adjustScores_avoids_sentinels_witness :
    ((∀ i, i < [(⟨"1", "n", "g", 0, 0, 50, 50, 50⟩ : Student ℚ)].length →
        (fun p : ℚ => if p ≤ 0 then 0 else if p ≥ 1 then 0 else inverseNormalCDF ⟨id, id⟩ p)
            (((i + 1 : Nat) : ℚ) /
              (([(⟨"1", "n", "g", 0, 0, 50, 50, 50⟩ : Student ℚ)].length + 1 : Nat) : ℚ)) =
          inverseNormalCDF ⟨id, id⟩ (((i + 1 : Nat) : ℚ) /
            (([(⟨"1", "n", "g", 0, 0, 50, 50, 50⟩ : Student ℚ)].length + 1 : Nat) : ℚ))) ∧
      adjustScoresWith insertionSorter
          (fun p : ℚ => if p ≤ 0 then 0 else if p ≥ 1 then 0 else inverseNormalCDF ⟨id, id⟩ p)
          [(⟨"1", "n", "g", 0, 0, 50, 50, 50⟩ : Student ℚ)] =
        adjustScores insertionSorter ⟨id, id⟩ [(⟨"1", "n", "g", 0, 0, 50, 50, 50⟩ : Student ℚ)] ∧
      (0 : ℚ) < ((0 + 1 : Nat) : ℚ) /
        (([(⟨"1", "n", "g", 0, 0, 50, 50, 50⟩ : Student ℚ)].length + 1 : Nat) : ℚ)) ∧
      ([(⟨"1", "n", "g", 0, 0, 4, 0, 1.6⟩ : Student F64)].length + 1 < 2 ^ 53 ∧
        0 < [(⟨"1", "n", "g", 0, 0, 4, 0, 1.6⟩ : Student F64)].length ∧
        (0 : F64) < F64.ofNat (0 + 1) /
          F64.ofNat ([(⟨"1", "n", "g", 0, 0, 4, 0, 1.6⟩ : Student F64)].length + 1) ∧
        F64.ofNat (0 + 1) /
          F64.ofNat ([(⟨"1", "n", "g", 0, 0, 4, 0, 1.6⟩ : Student F64)].length + 1) < 1 ∧
        adjustScoresWith64 insertionSorter64
            (fun p => if p ≤ 0 then 0 else if p ≥ 1 then 0 else inverseNormalCDF64 ⟨id, id⟩ p)
            [⟨"1", "n", "g", 0, 0, 4, 0, 1.6⟩] =
          adjustScores64 insertionSorter64 ⟨id, id⟩ [⟨"1", "n", "g", 0, 0, 4, 0, 1.6⟩]) := by
  have hz : ∀ i, i < [(⟨"1", "n", "g", 0, 0, 50, 50, 50⟩ : Student ℚ)].length →
      (fun p : ℚ => if p ≤ 0 then 0 else if p ≥ 1 then 0 else inverseNormalCDF ⟨id, id⟩ p)
          (((i + 1 : Nat) : ℚ) /
            (([(⟨"1", "n", "g", 0, 0, 50, 50, 50⟩ : Student ℚ)].length + 1 : Nat) : ℚ)) =
        inverseNormalCDF ⟨id, id⟩ (((i + 1 : Nat) : ℚ) /
          (([(⟨"1", "n", "g", 0, 0, 50, 50, 50⟩ : Student ℚ)].length + 1 : Nat) : ℚ)) := by
    intro i hi
    have hi0 : i = 0 := by simpa using hi
    subst hi0
    norm_num
  have hn : [(⟨"1", "n", "g", 0, 0, 4, 0, 1.6⟩ : Student F64)].length + 1 < 2 ^ 53 := by
    norm_num
  have h0 : 0 < [(⟨"1", "n", "g", 0, 0, 4, 0, 1.6⟩ : Student F64)].length := by
    norm_num
  exact ⟨⟨hz,
      (adjustScores_avoids_sentinels insertionSorter ⟨id, id⟩
        [(⟨"1", "n", "g", 0, 0, 50, 50, 50⟩ : Student ℚ)] insertionSorter64 ⟨id, id⟩
        [⟨"1", "n", "g", 0, 0, 4, 0, 1.6⟩]).1 _ hz,
      ((adjustScores_avoids_sentinels insertionSorter (⟨id, id⟩ : MathFns ℚ)
        [(⟨"1", "n", "g", 0, 0, 50, 50, 50⟩ : Student ℚ)] insertionSorter64 ⟨id, id⟩
        [⟨"1", "n", "g", 0, 0, 4, 0, 1.6⟩]).2.2.1 0 (by decide)).1⟩,
    hn, h0,
    (((adjustScores_avoids_sentinels insertionSorter (⟨id, id⟩ : MathFns ℚ)
      [(⟨"1", "n", "g", 0, 0, 50, 50, 50⟩ : Student ℚ)] insertionSorter64 ⟨id, id⟩
      [⟨"1", "n", "g", 0, 0, 4, 0, 1.6⟩]).2.2.2.2.2 hn).1 0 h0).1,
    (((adjustScores_avoids_sentinels insertionSorter (⟨id, id⟩ : MathFns ℚ)
      [(⟨"1", "n", "g", 0, 0, 50, 50, 50⟩ : Student ℚ)] insertionSorter64 ⟨id, id⟩
      [⟨"1", "n", "g", 0, 0, 4, 0, 1.6⟩]).2.2.2.2.2 hn).1 0 h0).2,
    ((adjustScores_avoids_sentinels insertionSorter (⟨id, id⟩ : MathFns ℚ)
      [(⟨"1", "n", "g", 0, 0, 50, 50, 50⟩ : Student ℚ)] insertionSorter64 ⟨id, id⟩
      [⟨"1", "n", "g", 0, 0, 4, 0, 1.6⟩]).2.2.2.2.2 hn).2 0 0⟩

/-! ## The failing record under fused multiply-add

The Go specification lets a compiler fuse `x*y + z` into one operation with one rounding.
The model rounds every operation on its own, as the compiler does on amd64; for the record
with `TotalDuifenyi = 4` the values do not depend on that choice. -/

theorem fused_four_sub :
    rnd (60 - 4 * (3602879701896397 / 9007199254740992)) =
      (8219069319951155 / 140737488355328) :=
  (rnd_pos _ (-47) (8219069319951155) (by norm_num) (by norm_num) (by norm_num)
    (Or.inl ⟨by norm_num, by norm_num⟩)).trans (by norm_num)

theorem fused_four_daily :
    rnd ((3602879701896397 / 2251799813685248) +
        (6849224433292629 / 70368744177664) * (5404319552844595 / 9007199254740992)) =
      (8444249301319679 / 140737488355328) :=
  (rnd_pos _ (-47) (8444249301319679) (by norm_num) (by norm_num) (by norm_num)
    (Or.inl ⟨by norm_num, by norm_num⟩)).trans (by norm_num)

theorem fused_four_total :
    rnd (4 * (3602879701896397 / 9007199254740992) + (4109534659975577 / 70368744177664)) =
      (8444249301319679 / 140737488355328) :=
  (rnd_pos _ (-47) (8444249301319679) (by norm_num) (by norm_num) (by norm_num)
    (Or.inl ⟨by norm_num, by norm_num⟩)).trans (by norm_num)

/-- On the record with `TotalDuifenyi = 4` the first loop's values are the same whether or
not a multiply-add is fused: `60 - 4*0.4` rounds to the same `58.4` with one rounding or
two, and `4*0.4 + requiredDaily*0.6` rounds to `60 - 2^-47` when neither product, the
first or the second is kept unrounded. -/
theorem floorStep64_four_fused :
    rnd (60 - 4 * rnd 0.4) = rnd (60 - rnd (4 * rnd 0.4)) ∧
      rnd (rnd (60 - rnd (4 * rnd 0.4)) / rnd 0.6) = 6849224433292629 / 70368744177664 ∧
      rnd (rnd (4 * rnd 0.4) + rnd (6849224433292629 / 70368744177664 * rnd 0.6)) =
        60 - 1 / 2 ^ 47 ∧
      rnd (rnd (4 * rnd 0.4) + 6849224433292629 / 70368744177664 * rnd 0.6) =
        60 - 1 / 2 ^ 47 ∧
      rnd (4 * rnd 0.4 + rnd (6849224433292629 / 70368744177664 * rnd 0.6)) =
        60 - 1 / 2 ^ 47 := by
  simp only [rnd_0_4, rnd_0_6, four_01, four_02, four_03, four_04, four_05, fused_four_sub,
    fused_four_daily, fused_four_total]
  norm_num

end ScoreHandle
